import Mathlib

/-!
# RPC-over-RDMA transport core (net/sunrpc/xprtrdma/verbs.c)

A shallow embedding of the buffer pool, the connection upcall and the endpoint
connect logic of `verbs.c`, followed by theorems about them.  Three small
functions of other files follow the definitions of `verbs.c`, each in a
namespace of its own: `ns2cycles` (arch/tile/kernel/time.c),
`v4l2_calc_aspect_ratio` (drivers/media/v4l2-core/v4l2-dv-timings.c) and the
probability code of net/sched/act_gact.c.

Conventions of the embedding:

* heap objects (`rpcrdma_req`, `rpcrdma_rep`, `rpcrdma_mw`) live in arenas that
  are fields of `rpcrdma_xprt`; a C pointer to such an object is its index in the
  arena, `kzalloc` appends a zero-filled object;
* a `struct list_head` list is the `List` of the pointers linked on it, head
  first: `list_add` is cons, `list_add_tail` appends, `list_first_entry` with
  `list_del` takes the head off; a list head on which `INIT_LIST_HEAD` has not
  run yet is no list at all, which matters for `rb_recv_bufs`, the one head of
  the pool that is read on a path before its initialisation
  (`rb_recv_bufs_init`);
* a nullable pointer is an `Option`;
* a C `int` is an `Int` and an `unsigned int` a `Nat`; where the source
  computes on one, the result is brought back into the range of the type
  (`to_u32`, `to_s32`, `int_wrap`): the pool counters `rb_send_count` and
  `rb_recv_count` wrap around at `INT_MAX` and `INT_MIN`;
* every call into the fabric provider or the RPC layer above is appended to the
  `calls` field of the transport, in program order;
* what the outside world answers (allocation results, provider return codes,
  delivered events) is an explicit argument of the function that asks.
-/

namespace xprtrdma

/-! ## Constants -/

/-- Value of `EIO` in asm-generic/errno-base.h. -/
def EIO : Int := 5
/-- Value of `EAGAIN` in asm-generic/errno-base.h. -/
def EAGAIN : Int := 11
/-- Value of `ENOMEM` in asm-generic/errno-base.h. -/
def ENOMEM : Int := 12
/-- Value of `ENODEV` in asm-generic/errno-base.h. -/
def ENODEV : Int := 19
/-- Value of `EINVAL` in asm-generic/errno-base.h. -/
def EINVAL : Int := 22
/-- Value of `ENETDOWN` in asm-generic/errno.h. -/
def ENETDOWN : Int := 100
/-- Value of `ENETUNREACH` in asm-generic/errno.h. -/
def ENETUNREACH : Int := 101
/-- Value of `ECONNABORTED` in asm-generic/errno.h. -/
def ECONNABORTED : Int := 103
/-- Value of `ENOTCONN` in asm-generic/errno.h. -/
def ENOTCONN : Int := 107
/-- Value of `ETIMEDOUT` in asm-generic/errno.h. -/
def ETIMEDOUT : Int := 110
/-- Value of `ECONNREFUSED` in asm-generic/errno.h. -/
def ECONNREFUSED : Int := 111
/-- Value of `EHOSTUNREACH` in asm-generic/errno.h. -/
def EHOSTUNREACH : Int := 113

/-- Constants and inline helpers that `verbs.c` takes from headers which are not
part of the sources at hand (xprt_rdma.h, rpc_rdma.h, ib_cm.h).  Every function
that uses one of them takes the header as an argument. -/
structure xprt_rdma_h where
  /-- Bit number of the "device is being removed" flag in `ri_flags`. -/
  RPCRDMA_IAF_REMOVING : Nat
  /-- Magic word of the connect-time private message. -/
  rpcrdma_cmp_magic : Nat
  /-- Version of the connect-time private message. -/
  RPCRDMA_CMP_VERSION : Nat
  /-- Inline threshold of RPC-over-RDMA Version One. -/
  RPCRDMA_V1_DEF_INLINE_SIZE : Nat
  /-- Decoder of the compact buffer-size field of the private message. -/
  rpcrdma_decode_buffer_size : Nat → Nat
  /-- Module parameter `xprt_rdma_pad_optimize`. -/
  xprt_rdma_pad_optimize : Bool
  /-- Reject reason "stale connection" of ib_cm.h. -/
  IB_CM_REJ_STALE_CONN : Int
  /-- Module parameter `xprt_rdma_memreg_strategy`. -/
  xprt_rdma_memreg_strategy : Nat
  /-- Value of `RPCRDMA_FRMR` in `enum rpcrdma_memreg`. -/
  RPCRDMA_FRMR : Nat
  /-- Value of `RPCRDMA_MTHCAFMR` in `enum rpcrdma_memreg`. -/
  RPCRDMA_MTHCAFMR : Nat
  /-- Most send SGEs the transport ever uses. -/
  RPCRDMA_MAX_SEND_SGES : Nat
  /-- Fewest send SGEs the transport can work with. -/
  RPCRDMA_MIN_SEND_SGES : Nat
  /-- Work requests set aside for the backchannel. -/
  RPCRDMA_BACKWARD_WRS : Nat
  /-- Encoder of the compact buffer-size field of the private message. -/
  rpcrdma_encode_buffer_size : Nat → Nat

/-- The header values of the upstream kernel this file was taken from:
`RPCRDMA_IAF_REMOVING = 0`, `RPCRDMA_BACKWARD_WRS = 8`, the send-SGE limits for
4 KiB pages, `RPCRDMA_MTHCAFMR = 4` and `RPCRDMA_FRMR = 5` (the default
strategy) of xprt_rdma.h; `RPCRDMA_CMP_MAGIC = 0xf6ab0e18`,
`RPCRDMA_CMP_VERSION = 1`, `RPCRDMA_V1_DEF_INLINE_SIZE = 1024` and the `u8` size
codec of rpc_rdma.h; `IB_CM_REJ_STALE_CONN = 10` of ib_cm.h. -/
def upstream_h : xprt_rdma_h where
  RPCRDMA_IAF_REMOVING := 0
  rpcrdma_cmp_magic := 0xf6ab0e18
  RPCRDMA_CMP_VERSION := 1
  RPCRDMA_V1_DEF_INLINE_SIZE := 1024
  rpcrdma_decode_buffer_size := fun val => (val % 256 + 1) * 1024
  xprt_rdma_pad_optimize := false
  IB_CM_REJ_STALE_CONN := 10
  xprt_rdma_memreg_strategy := 5
  RPCRDMA_FRMR := 5
  RPCRDMA_MTHCAFMR := 4
  RPCRDMA_MAX_SEND_SGES := 19
  RPCRDMA_MIN_SEND_SGES := 3
  RPCRDMA_BACKWARD_WRS := 8
  rpcrdma_encode_buffer_size := fun size => (size / 1024 + 255) % 256

/-! ## Data model -/

/-- A pointer into one of the arenas of the transport. -/
abbrev ptr := Nat

/-- Directions of `enum dma_data_direction`. -/
inductive dma_data_direction where
  | DMA_BIDIRECTIONAL
  | DMA_TO_DEVICE
  | DMA_FROM_DEVICE
  | DMA_NONE
deriving DecidableEq, Repr

/-- Calls that leave `verbs.c`: into the fabric provider, the registration
strategy, the RPC layer above, or the kernel's wait and work queues. -/
inductive provider_call where
  | rdma_destroy_id (id : Nat)
  | rdma_create_qp (id : Nat)
  | rdma_destroy_qp (id : Nat)
  | rdma_connect (id : Nat)
  | rdma_disconnect (id : Nat)
  | rdma_create_id
  | rdma_resolve_addr (id : Nat)
  | rdma_resolve_route (id : Nat)
  | ib_drain_qp (qp : Option Nat)
  | ib_alloc_pd (device : Option Nat)
  | ib_dealloc_pd (pd : Option Nat)
  | ib_alloc_cq (depth : Nat)
  | ib_free_cq (cq : Option Nat)
  | ib_dma_map_single (device : Option Nat)
  | ib_dma_unmap_single (device : Nat)
  | ib_post_recv (rep : ptr)
  | ro_open
  | ro_init_mr
  | ro_release_mr (mw : ptr)
  | ro_recover_mr (mw : ptr)
  | cancel_refresh_worker
  | cancel_recovery_worker
  | cancel_connect_worker
  | schedule_refresh_worker
  | schedule_recovery_worker
  | complete_ri_done
  | complete_ri_remove_done
  | wait_for_ri_done
  | wait_for_ri_remove_done
  | wait_connect
  | wait_disconnect
  | wake_up_all
  | rpcrdma_conn_func
  | xprt_force_disconnect
  | rpcrdma_set_max_header_sizes
  | spin_lock_rb_recovery_lock
  | spin_unlock_rb_recovery_lock
  | cond_resched
deriving DecidableEq, Repr

/-- The `struct rpcrdma_regbuf`: `rg_device` is NULL exactly when the buffer is
not DMA-mapped; `rg_base` is the backing memory, one byte per element. -/
structure rpcrdma_regbuf where
  rg_device : Option Nat
  rg_direction : dma_data_direction
  rg_length : Nat
  rg_base : List Nat
deriving DecidableEq, Repr

/-- The `struct rpcrdma_rep`, a reply buffer. -/
structure rpcrdma_rep where
  rr_rdmabuf : Option rpcrdma_regbuf
deriving DecidableEq, Repr

/-- The `struct rpcrdma_req`, a request buffer; `rl_reply` points into the
arena of replies. -/
structure rpcrdma_req where
  rl_rdmabuf : Option rpcrdma_regbuf
  rl_sendbuf : Option rpcrdma_regbuf
  rl_recvbuf : Option rpcrdma_regbuf
  rl_reply : Option ptr
  rl_backchannel : Bool
  rl_send_wr_num_sge : Nat
deriving DecidableEq, Repr

/-- The `struct rpcrdma_mw`, a memory region handle. -/
structure rpcrdma_mw where
  mw_flags : Nat
deriving DecidableEq, Repr

/-- The `struct rpcrdma_buffer`.  The two counters are C `int`s and the credit
word is the 32-bit content of the `atomic_t`.  `rb_recv_bufs_init` is not a
field of the C structure: it records whether `INIT_LIST_HEAD` has run on
`rb_recv_bufs`.  Until then the head holds what the allocator left there (zero
bytes, for a transport from `xprt_alloc`), `list_empty` is false on it and
`list_first_entry` followed by `list_del` dereferences NULL; the functions of
a pool in use are only ever called after `rpcrdma_buffer_create` returned 0 and
take the head as initialised. -/
structure rpcrdma_buffer where
  rb_mws : List ptr
  rb_all : List ptr
  rb_send_count : Int
  rb_recv_count : Int
  rb_send_bufs : List ptr
  rb_recv_bufs : List ptr
  rb_recv_bufs_init : Bool
  rb_max_requests : Nat
  rb_credits : Nat
  rb_bc_srv_max_requests : Nat
  rb_allreqs : List ptr
  rb_stale_mrs : List ptr
deriving DecidableEq, Repr

/-- The `struct rdma_cm_id` as far as `verbs.c` looks into it; `handle` tells
one identifier from another. -/
structure rdma_cm_id where
  handle : Nat
  device : Option Nat
  qp : Option Nat
deriving DecidableEq, Repr

/-- Registration strategies (`ri_ops`). -/
inductive memreg_ops where
  | rpcrdma_frwr_memreg_ops
  | rpcrdma_fmr_memreg_ops
deriving DecidableEq, Repr

/-- The `struct rpcrdma_ia`. -/
structure rpcrdma_ia where
  ri_id : Option rdma_cm_id
  ri_device : Option Nat
  ri_pd : Option Nat
  ri_ops : Option memreg_ops
  ri_async_rc : Int
  ri_flags : Nat
  ri_reminv_expected : Bool
  ri_implicit_roundup : Bool
  ri_max_send_sges : Nat
deriving DecidableEq, Repr

/-- The `struct rpcrdma_connect_private`, the private message of the connect
handshake. -/
structure rpcrdma_connect_private where
  cp_magic : Nat
  cp_version : Nat
  cp_flags : Nat
  cp_send_size : Nat
  cp_recv_size : Nat
deriving DecidableEq, Repr

/-- The `struct rdma_conn_param` of the endpoint (`rep_remote_cma`); its
`private_data` always points to `rep_cm_private` once set. -/
structure rep_remote_cma where
  private_data_set : Bool
  initiator_depth : Nat
  responder_resources : Nat
  retry_count : Nat
  flow_control : Nat
  rnr_retry_count : Nat
deriving DecidableEq, Repr

/-- The `struct rpcrdma_ep`, with the queue-pair attributes `rep_attr` and
their `cap` flattened into it.  `rep_connected`, `rep_cqinit` and the counter
`rep_cqcount` are C `int`s, the work-request and SGE limits are `u32`. -/
structure rpcrdma_ep where
  rep_connected : Int
  rep_cqinit : Int
  rep_cqcount : Int
  max_send_wr : Nat
  max_recv_wr : Nat
  max_send_sge : Nat
  max_recv_sge : Nat
  send_cq : Option Nat
  recv_cq : Option Nat
  rep_cm_private : rpcrdma_connect_private
  rep_remote_cma : rep_remote_cma
deriving DecidableEq, Repr

/-- The `struct rpcrdma_create_data_internal` (`rx_data`). -/
structure rpcrdma_create_data_internal where
  max_requests : Nat
  inline_rsize : Nat
  inline_wsize : Nat
deriving DecidableEq, Repr

/-- The `struct rpcrdma_xprt` together with the arenas of the objects that
belong to it and the log of outgoing calls. -/
structure rpcrdma_xprt where
  rx_ia : rpcrdma_ia
  rx_ep : rpcrdma_ep
  rx_buf : rpcrdma_buffer
  rx_data : rpcrdma_create_data_internal
  mrs_allocated : Nat
  req_mem : List rpcrdma_req
  rep_mem : List rpcrdma_rep
  mw_mem : List rpcrdma_mw
  calls : List provider_call
deriving DecidableEq, Repr

/-- The function `rpcrdma_alloc_regbuf` when its `kmalloc` succeeds (the
callers model the failure).  The backing memory comes uninitialised; it is
written as zero bytes. -/
def rpcrdma_alloc_regbuf (size : Nat) (direction : dma_data_direction) :
    rpcrdma_regbuf :=
  { rg_device := none, rg_direction := direction, rg_length := size,
    rg_base := List.replicate size 0 }

/-- A `kzalloc`ed request. -/
def rpcrdma_req_zero : rpcrdma_req :=
  { rl_rdmabuf := none, rl_sendbuf := none, rl_recvbuf := none,
    rl_reply := none, rl_backchannel := false, rl_send_wr_num_sge := 0 }

/-- A `kzalloc`ed reply. -/
def rpcrdma_rep_zero : rpcrdma_rep :=
  { rr_rdmabuf := none }

/-- A `kzalloc`ed memory region handle. -/
def rpcrdma_mw_zero : rpcrdma_mw :=
  { mw_flags := 0 }

/-- A zero-filled transport, as `xprt_alloc` hands it out. -/
def rpcrdma_xprt_zero : rpcrdma_xprt :=
  { rx_ia := { ri_id := none, ri_device := none, ri_pd := none, ri_ops := none,
               ri_async_rc := 0, ri_flags := 0, ri_reminv_expected := false,
               ri_implicit_roundup := false, ri_max_send_sges := 0 },
    rx_ep := { rep_connected := 0, rep_cqinit := 0, rep_cqcount := 0, max_send_wr := 0,
               max_recv_wr := 0, max_send_sge := 0, max_recv_sge := 0,
               send_cq := none, recv_cq := none,
               rep_cm_private := { cp_magic := 0, cp_version := 0, cp_flags := 0,
                                   cp_send_size := 0, cp_recv_size := 0 },
               rep_remote_cma := { private_data_set := false, initiator_depth := 0,
                                   responder_resources := 0, retry_count := 0,
                                   flow_control := 0, rnr_retry_count := 0 } },
    rx_buf := { rb_mws := [], rb_all := [], rb_send_count := 0,
                rb_recv_count := 0, rb_send_bufs := [], rb_recv_bufs := [],
                rb_recv_bufs_init := false,
                rb_max_requests := 0, rb_credits := 0,
                rb_bc_srv_max_requests := 0, rb_allreqs := [],
                rb_stale_mrs := [] },
    rx_data := { max_requests := 0, inline_rsize := 0, inline_wsize := 0 },
    mrs_allocated := 0, req_mem := [], rep_mem := [], mw_mem := [],
    calls := [] }

/-- Read the request a pointer refers to. -/
def req_at (x : rpcrdma_xprt) (req : ptr) : rpcrdma_req :=
  x.req_mem.getD req rpcrdma_req_zero

/-- Read the reply a pointer refers to. -/
def rep_at (x : rpcrdma_xprt) (rep : ptr) : rpcrdma_rep :=
  x.rep_mem.getD rep rpcrdma_rep_zero

/-! ## RegBuf -/

/-- Modelled from the spec: the inline `rpcrdma_regbuf_is_mapped` of
xprt_rdma.h, a header that is not among the sources; the spec's data model says
"device handle present ⇔ mapped". -/
def rpcrdma_regbuf_is_mapped (rb : rpcrdma_regbuf) : Bool :=
  rb.rg_device.isSome

/-- The function `rpcrdma_dma_unmap_regbuf`: the regbuf afterwards and the
provider calls made. -/
def rpcrdma_dma_unmap_regbuf (rb : Option rpcrdma_regbuf) :
    Option rpcrdma_regbuf × List provider_call :=
  match rb with
  | none => (none, [])
  | some r =>
    if !rpcrdma_regbuf_is_mapped r then (some r, [])
    else
      match r.rg_device with
      | some dev =>
        (some { r with rg_device := none }, [provider_call.ib_dma_unmap_single dev])
      | none => (some r, [])

/-! ## C integers -/

/-- Conversion of a C `int` to `unsigned int`. -/
def to_u32 (v : Int) : Nat :=
  (v % 2 ^ 32).toNat

/-- Conversion of a C `unsigned int` to `int`. -/
def to_s32 (n : Nat) : Int :=
  if n % 2 ^ 32 < 2 ^ 31 then ((n % 2 ^ 32 : Nat) : Int)
  else ((n % 2 ^ 32 : Nat) : Int) - 2 ^ 32

/-- The value a C `int` holds after the mathematical result `v` of `++` or `--`
is stored in it: the kernel is built with `-fno-strict-overflow`, so a result
outside `-2 ^ 31 .. 2 ^ 31 - 1` wraps around. -/
def int_wrap (v : Int) : Int :=
  to_s32 (to_u32 v)

/-! ## Buffer pool: get and put -/

/-- The function `rpcrdma_buffer_get_req_locked`: first entry of
`rb_send_bufs`, unlinked.  Callers check `list_empty` first. -/
def rpcrdma_buffer_get_req_locked (buf : rpcrdma_buffer) :
    Option (ptr × rpcrdma_buffer) :=
  match buf.rb_send_bufs with
  | [] => none
  | req :: rest => some (req, { buf with rb_send_bufs := rest })

/-- The function `rpcrdma_buffer_get_rep_locked`: first entry of
`rb_recv_bufs`, unlinked.  Callers check `list_empty` first. -/
def rpcrdma_buffer_get_rep_locked (buf : rpcrdma_buffer) :
    Option (ptr × rpcrdma_buffer) :=
  match buf.rb_recv_bufs with
  | [] => none
  | rep :: rest => some (rep, { buf with rb_recv_bufs := rest })

/-- The function `rpcrdma_buffer_get_rep`; `rb_recv_count++` is on a C
`int`. -/
def rpcrdma_buffer_get_rep (buffers : rpcrdma_buffer) :
    Option ptr × rpcrdma_buffer :=
  if buffers.rb_send_count < buffers.rb_recv_count then (none, buffers)
  else if buffers.rb_recv_bufs.isEmpty then (none, buffers)
  else
    let b := { buffers with rb_recv_count := int_wrap (buffers.rb_recv_count + 1) }
    match rpcrdma_buffer_get_rep_locked b with
    | some (rep, b1) => (some rep, b1)
    | none => (none, b)

/-- Store to `req->rl_reply`. -/
def set_rl_reply (x : rpcrdma_xprt) (req : ptr) (rep : Option ptr) : rpcrdma_xprt :=
  { x with req_mem := x.req_mem.set req { req_at x req with rl_reply := rep } }

/-- The function `rpcrdma_buffer_get`: the request handed out (NULL is `none`)
and the transport afterwards; `rb_send_count++` is on a C `int`. -/
def rpcrdma_buffer_get (x : rpcrdma_xprt) : Option ptr × rpcrdma_xprt :=
  if x.rx_buf.rb_send_bufs.isEmpty then (none, x)
  else
    let b := { x.rx_buf with rb_send_count := int_wrap (x.rx_buf.rb_send_count + 1) }
    match rpcrdma_buffer_get_req_locked b with
    | none => (none, { x with rx_buf := b })
    | some (req, b1) =>
      let r := rpcrdma_buffer_get_rep b1
      (some req, set_rl_reply { x with rx_buf := r.2 } req r.1)

/-- The function `rpcrdma_buffer_put`; `rb_send_count--` and `rb_recv_count--`
are on C `int`s. -/
def rpcrdma_buffer_put (x : rpcrdma_xprt) (req : ptr) : rpcrdma_xprt :=
  let rep := (req_at x req).rl_reply
  let r : rpcrdma_req := { req_at x req with rl_send_wr_num_sge := 0, rl_reply := none }
  let x1 : rpcrdma_xprt := { x with req_mem := x.req_mem.set req r }
  let b1 := { x1.rx_buf with
    rb_send_count := int_wrap (x1.rx_buf.rb_send_count - 1),
    rb_send_bufs := x1.rx_buf.rb_send_bufs ++ [req] }
  match rep with
  | some p =>
    { x1 with rx_buf := { b1 with
        rb_recv_count := int_wrap (b1.rb_recv_count - 1),
        rb_recv_bufs := b1.rb_recv_bufs ++ [p] } }
  | none => { x1 with rx_buf := b1 }

/-! ## Buffer pool: creation and teardown -/

/-- Answers of the allocator and of the registration strategy to one run of
`rpcrdma_create_mrs`, by loop counter. -/
structure create_mrs_env where
  kzalloc_ok : Nat → Bool
  ro_init_mr : Nat → Int

/-- Answers of the allocator to one run of `rpcrdma_buffer_create`: the fill of
the memory regions, the `kzalloc` of the i-th request, the `kzalloc` of the i-th
reply and the `kmalloc` of its regbuf. -/
structure buffer_create_env where
  mrs : create_mrs_env
  req_kzalloc_ok : Nat → Bool
  rep_kzalloc_ok : Nat → Bool
  regbuf_kmalloc_ok : Nat → Bool

/-- The allocator that never fails. -/
def create_mrs_env_ok : create_mrs_env :=
  { kzalloc_ok := fun _ => true, ro_init_mr := fun _ => 0 }

/-- The allocator that never fails. -/
def buffer_create_env_ok : buffer_create_env :=
  { mrs := create_mrs_env_ok, req_kzalloc_ok := fun _ => true,
    rep_kzalloc_ok := fun _ => true, regbuf_kmalloc_ok := fun _ => true }

/-- The `for` loop of `rpcrdma_create_mrs`: `n` iterations are left, `count` is
the loop counter, `free` and `all` the two local lists.  A handle whose
`ro_init_mr` fails is freed again at once and never enters the arena. -/
def rpcrdma_create_mrs_loop (e : create_mrs_env) :
    Nat → Nat → rpcrdma_xprt → List ptr → List ptr →
      Nat × rpcrdma_xprt × List ptr × List ptr
  | 0, count, x, free, all => (count, x, free, all)
  | n + 1, count, x, free, all =>
    if !e.kzalloc_ok count then (count, x, free, all)
    else
      let x1 := { x with calls := x.calls ++ [provider_call.ro_init_mr] }
      if e.ro_init_mr count ≠ 0 then (count, x1, free, all)
      else
        let mw := x1.mw_mem.length
        let x2 := { x1 with mw_mem := x1.mw_mem ++ [rpcrdma_mw_zero] }
        rpcrdma_create_mrs_loop e n (count + 1) x2 (mw :: free) (mw :: all)

/-- The function `rpcrdma_create_mrs`.  The counter `rx_stats.mrs_allocated` is an
`unsigned long`, taken as 64 bits wide. -/
def rpcrdma_create_mrs (e : create_mrs_env) (x : rpcrdma_xprt) : rpcrdma_xprt :=
  let r := rpcrdma_create_mrs_loop e 32 0 x [] []
  let x1 := r.2.1
  { x1 with
    rx_buf := { x1.rx_buf with
      rb_mws := r.2.2.1 ++ x1.rx_buf.rb_mws,
      rb_all := r.2.2.2 ++ x1.rx_buf.rb_all },
    mrs_allocated := (x1.mrs_allocated + r.1) % 2 ^ 64 }

/-- The function `rpcrdma_create_req`: `ERR_PTR(-ENOMEM)` or the new request,
already linked on `rb_allreqs`. -/
def rpcrdma_create_req (kzalloc_ok : Bool) (x : rpcrdma_xprt) :
    Except Int ptr × rpcrdma_xprt :=
  if !kzalloc_ok then (Except.error (-ENOMEM), x)
  else
    let req := x.req_mem.length
    (Except.ok req,
     { x with
       req_mem := x.req_mem ++ [rpcrdma_req_zero],
       rx_buf := { x.rx_buf with rb_allreqs := req :: x.rx_buf.rb_allreqs } })

/-- The function `rpcrdma_create_rep`: its return code and the transport
afterwards. -/
def rpcrdma_create_rep (kzalloc_ok regbuf_ok : Bool) (x : rpcrdma_xprt) :
    Int × rpcrdma_xprt :=
  if !kzalloc_ok then (-ENOMEM, x)
  else if !regbuf_ok then (-ENOMEM, x)
  else
    let rep := x.rep_mem.length
    let rb := rpcrdma_alloc_regbuf x.rx_data.inline_rsize dma_data_direction.DMA_FROM_DEVICE
    (0,
     { x with
       rep_mem := x.rep_mem ++ [{ rpcrdma_rep_zero with rr_rdmabuf := some rb }],
       rx_buf := { x.rx_buf with rb_recv_bufs := rep :: x.rx_buf.rb_recv_bufs } })

/-- The function `rpcrdma_free_regbuf`: unmap, then `kfree`. -/
def rpcrdma_free_regbuf (rb : Option rpcrdma_regbuf) :
    Option rpcrdma_regbuf × List provider_call :=
  rpcrdma_dma_unmap_regbuf rb

/-- The function `rpcrdma_destroy_rep`.  The freed object stays behind in the
arena, no list links to it any more. -/
def rpcrdma_destroy_rep (x : rpcrdma_xprt) (rep : ptr) : rpcrdma_xprt :=
  let r := rpcrdma_free_regbuf (rep_at x rep).rr_rdmabuf
  { x with
    rep_mem := x.rep_mem.set rep { rep_at x rep with rr_rdmabuf := r.1 },
    calls := x.calls ++ r.2 }

/-- The function `rpcrdma_destroy_req`. -/
def rpcrdma_destroy_req (x : rpcrdma_xprt) (req : ptr) : rpcrdma_xprt :=
  let r1 := rpcrdma_free_regbuf (req_at x req).rl_recvbuf
  let r2 := rpcrdma_free_regbuf (req_at x req).rl_sendbuf
  let r3 := rpcrdma_free_regbuf (req_at x req).rl_rdmabuf
  let r : rpcrdma_req :=
    { req_at x req with rl_recvbuf := r1.1, rl_sendbuf := r2.1, rl_rdmabuf := r3.1 }
  { x with
    req_mem := x.req_mem.set req r,
    calls := x.calls ++ r1.2 ++ r2.2 ++ r3.2 }

/-- The `while (!list_empty(&buf->rb_all))` loop of `rpcrdma_destroy_mrs`, run
over the entries of `rb_all`. -/
def rpcrdma_destroy_mrs_loop : List ptr → rpcrdma_xprt → rpcrdma_xprt
  | [], x => x
  | mw :: rest, x =>
    rpcrdma_destroy_mrs_loop rest
      { x with
        rx_buf := { x.rx_buf with rb_all := rest },
        calls := x.calls ++ [provider_call.ro_release_mr mw] }

/-- The function `rpcrdma_destroy_mrs`. -/
def rpcrdma_destroy_mrs (x : rpcrdma_xprt) : rpcrdma_xprt :=
  { rpcrdma_destroy_mrs_loop x.rx_buf.rb_all x with mrs_allocated := 0 }

/-- The first `while` loop of `rpcrdma_buffer_destroy`, run over the entries
of `rb_recv_bufs`. -/
def rpcrdma_buffer_destroy_reps : List ptr → rpcrdma_xprt → rpcrdma_xprt
  | [], x => x
  | rep :: rest, x =>
    rpcrdma_buffer_destroy_reps rest
      (rpcrdma_destroy_rep { x with rx_buf := { x.rx_buf with rb_recv_bufs := rest } } rep)

/-- The second `while` loop of `rpcrdma_buffer_destroy`, run over the entries
of `rb_allreqs`. -/
def rpcrdma_buffer_destroy_reqs : List ptr → rpcrdma_xprt → rpcrdma_xprt
  | [], x => x
  | req :: rest, x =>
    rpcrdma_buffer_destroy_reqs rest
      (rpcrdma_destroy_req { x with rx_buf := { x.rx_buf with rb_allreqs := rest } } req)

/-- The function `rpcrdma_buffer_destroy`; `none` when `rb_recv_bufs` was never
initialised: `list_empty` is then false and the first
`rpcrdma_buffer_get_rep_locked` dereferences NULL in `list_del`. -/
def rpcrdma_buffer_destroy (x : rpcrdma_xprt) : Option rpcrdma_xprt :=
  let x1 := { x with calls := x.calls ++
    [provider_call.cancel_recovery_worker, provider_call.cancel_refresh_worker] }
  if !x1.rx_buf.rb_recv_bufs_init then none
  else
    let x2 := rpcrdma_buffer_destroy_reps x1.rx_buf.rb_recv_bufs x1
    let x3 := { x2 with rx_buf := { x2.rx_buf with rb_send_count := 0 } }
    let x4 := rpcrdma_buffer_destroy_reqs x3.rx_buf.rb_allreqs x3
    let x5 := { x4 with rx_buf := { x4.rx_buf with rb_recv_count := 0 } }
    some (rpcrdma_destroy_mrs x5)

/-- The first `for` loop of `rpcrdma_buffer_create`: `n` iterations are left,
`i` is the number of iterations done.  Returns 0 when the loop ran to its end,
else the error of the failed `rpcrdma_create_req`.  The C counter is an `int`
that the test `i < buf->rb_max_requests` converts to `unsigned int`: counting
up from 0 with wrap-around it takes the unsigned values 0, 1, 2, ... and the
test fails for the first time after `rb_max_requests` iterations. -/
def rpcrdma_buffer_create_reqs (e : buffer_create_env) :
    Nat → Nat → rpcrdma_xprt → Int × rpcrdma_xprt
  | 0, _, x => (0, x)
  | n + 1, i, x =>
    match rpcrdma_create_req (e.req_kzalloc_ok i) x with
    | (Except.error rc, x1) => (rc, x1)
    | (Except.ok req, x1) =>
      let r : rpcrdma_req := { req_at x1 req with rl_backchannel := false }
      rpcrdma_buffer_create_reqs e n (i + 1)
        { x1 with
          req_mem := x1.req_mem.set req r,
          rx_buf := { x1.rx_buf with rb_send_bufs := req :: x1.rx_buf.rb_send_bufs } }

/-- The second `for` loop of `rpcrdma_buffer_create`: `n` iterations are left,
`i` is the number of iterations done.  The test `i <= buf->rb_max_requests`, in
`unsigned int` as well, fails for the first time after `rb_max_requests + 1`
iterations when `rb_max_requests` is below `0xffffffff`, and never when it is
`0xffffffff`. -/
def rpcrdma_buffer_create_reps (e : buffer_create_env) :
    Nat → Nat → rpcrdma_xprt → Int × rpcrdma_xprt
  | 0, _, x => (0, x)
  | n + 1, i, x =>
    match rpcrdma_create_rep (e.rep_kzalloc_ok i) (e.regbuf_kmalloc_ok i) x with
    | (rc, x1) =>
      if rc ≠ 0 then (rc, x1)
      else rpcrdma_buffer_create_reps e n (i + 1) x1

/-- The function `rpcrdma_buffer_create`, an initialiser that works in place on
the transport it is given: its return code and the transport afterwards, `none`
when it does not return.  That is so when it runs into a NULL dereference, and
when `rb_max_requests` is `0xffffffff` and the first `2 ^ 32` replies are all
allocated: the test `i <= buf->rb_max_requests` of the second loop holds for
every value of `i` then, the counter has wrapped around and the loop goes on
(it can only end when an allocation fails; the model does not follow it any
further).  The counters `rb_send_count` and `rb_recv_count` are not written on
the way to `return 0`. -/
def rpcrdma_buffer_create (e : buffer_create_env) (x : rpcrdma_xprt) :
    Option (Int × rpcrdma_xprt) :=
  let x1 := { x with rx_buf := { x.rx_buf with
    rb_max_requests := x.rx_data.max_requests,
    rb_bc_srv_max_requests := 0,
    rb_credits := 1,
    rb_mws := [], rb_all := [], rb_stale_mrs := [] } }
  let x2 := rpcrdma_create_mrs e.mrs x1
  let x3 := { x2 with rx_buf := { x2.rx_buf with rb_send_bufs := [], rb_allreqs := [] } }
  match rpcrdma_buffer_create_reqs e x3.rx_buf.rb_max_requests 0 x3 with
  | (rc, x4) =>
    if rc ≠ 0 then (rpcrdma_buffer_destroy x4).map (fun y => (rc, y))
    else
      let x5 := { x4 with
        rx_buf := { x4.rx_buf with rb_recv_bufs := [], rb_recv_bufs_init := true } }
      match rpcrdma_buffer_create_reps e (x5.rx_buf.rb_max_requests + 1) 0 x5 with
      | (rc1, x6) =>
        if rc1 ≠ 0 then (rpcrdma_buffer_destroy x6).map (fun y => (rc1, y))
        else if 2 ^ 32 ≤ x5.rx_buf.rb_max_requests + 1 then none
        else some (0, x6)

/-! ## Memory regions -/

/-- Read the memory region handle a pointer refers to. -/
def mw_at (x : rpcrdma_xprt) (mw : ptr) : rpcrdma_mw :=
  x.mw_mem.getD mw rpcrdma_mw_zero

/-- Modelled from the spec: the inline `rpcrdma_pop_mw` of xprt_rdma.h, a header
that is not among the sources; the spec's acquire "pops from free list", so the
first entry is taken off.  `none` on an empty list, which no caller passes. -/
def rpcrdma_pop_mw (list : List ptr) : Option (ptr × List ptr) :=
  match list with
  | [] => none
  | mw :: rest => some (mw, rest)

/-- Modelled from the spec: the inline `rpcrdma_push_mw` of xprt_rdma.h, a
header that is not among the sources; the spec's release "pushes back onto free
list" and its mark_stale "pushes onto a separate stale list"; the entry is
linked at the tail. -/
def rpcrdma_push_mw (mw : ptr) (list : List ptr) : List ptr :=
  list ++ [mw]

/-- The function `rpcrdma_get_mw`: the region handed out (NULL is `none`) and
the transport afterwards. -/
def rpcrdma_get_mw (x : rpcrdma_xprt) : Option ptr × rpcrdma_xprt :=
  let popped : Option (ptr × List ptr) :=
    if !x.rx_buf.rb_mws.isEmpty then rpcrdma_pop_mw x.rx_buf.rb_mws else none
  match popped with
  | some (mw, rest) =>
    (some mw,
     { x with
       rx_buf := { x.rx_buf with rb_mws := rest },
       mw_mem := x.mw_mem.set mw { mw_at x mw with mw_flags := 0 } })
  | none =>
    let c1 : List provider_call :=
      if x.rx_ep.rep_connected ≠ -ENODEV then [provider_call.schedule_refresh_worker]
      else []
    (none, { x with calls := x.calls ++ c1 ++ [provider_call.cond_resched] })

/-- The function `rpcrdma_put_mw`. -/
def rpcrdma_put_mw (x : rpcrdma_xprt) (mw : ptr) : rpcrdma_xprt :=
  { x with rx_buf := { x.rx_buf with rb_mws := rpcrdma_push_mw mw x.rx_buf.rb_mws } }

/-- The function `rpcrdma_defer_mr_recovery`. -/
def rpcrdma_defer_mr_recovery (x : rpcrdma_xprt) (mw : ptr) : rpcrdma_xprt :=
  { x with
    rx_buf := { x.rx_buf with rb_stale_mrs := rpcrdma_push_mw mw x.rx_buf.rb_stale_mrs },
    calls := x.calls ++
      [provider_call.spin_lock_rb_recovery_lock, provider_call.spin_unlock_rb_recovery_lock,
       provider_call.schedule_recovery_worker] }

/-- One pass through the body of the `while` loop of
`rpcrdma_mr_recovery_worker`, entered with the recovery lock held and a
non-empty stale list: pop, unlock, call the strategy's `ro_recover_mr`, lock.
The strategy's operation is code outside `verbs.c` and is an argument. -/
def rpcrdma_mr_recovery_worker_iter (ro_recover_mr : ptr → rpcrdma_xprt → rpcrdma_xprt)
    (x : rpcrdma_xprt) : rpcrdma_xprt :=
  match rpcrdma_pop_mw x.rx_buf.rb_stale_mrs with
  | none => x
  | some (mw, rest) =>
    let x1 := { x with
      rx_buf := { x.rx_buf with rb_stale_mrs := rest },
      calls := x.calls ++
        [provider_call.spin_unlock_rb_recovery_lock, provider_call.ro_recover_mr mw] }
    let x2 := ro_recover_mr mw x1
    { x2 with calls := x2.calls ++ [provider_call.spin_lock_rb_recovery_lock] }

/-- The `while (!list_empty(&buf->rb_stale_mrs))` loop of
`rpcrdma_mr_recovery_worker`, allowed at most `fuel` passes; `none` when the
list is still not empty after them. -/
def rpcrdma_mr_recovery_worker_loop (ro_recover_mr : ptr → rpcrdma_xprt → rpcrdma_xprt) :
    Nat → rpcrdma_xprt → Option rpcrdma_xprt
  | 0, x => if x.rx_buf.rb_stale_mrs.isEmpty then some x else none
  | fuel + 1, x =>
    if x.rx_buf.rb_stale_mrs.isEmpty then some x
    else rpcrdma_mr_recovery_worker_loop ro_recover_mr fuel
      (rpcrdma_mr_recovery_worker_iter ro_recover_mr x)

/-- The function `rpcrdma_mr_recovery_worker`, allowed at most `fuel` passes
through its loop. -/
def rpcrdma_mr_recovery_worker (ro_recover_mr : ptr → rpcrdma_xprt → rpcrdma_xprt)
    (fuel : Nat) (x : rpcrdma_xprt) : Option rpcrdma_xprt :=
  (rpcrdma_mr_recovery_worker_loop ro_recover_mr fuel
      { x with calls := x.calls ++ [provider_call.spin_lock_rb_recovery_lock] }).map
    (fun y => { y with calls := y.calls ++ [provider_call.spin_unlock_rb_recovery_lock] })

/-- Modelled from the spec: a strategy's `ro_recover_mr` (frwr_ops.c and
fmr_ops.c are not among the sources) that recovers the region; the spec has
recovery end in the "release back to free", which is `rpcrdma_put_mw`. -/
def ro_recover_mr_release (mw : ptr) (x : rpcrdma_xprt) : rpcrdma_xprt :=
  rpcrdma_put_mw x mw

/-- What the pool relies on in a strategy's `ro_recover_mr`: it leaves the
stale list alone, and the free list either alone or with the region released to
it by `rpcrdma_put_mw`. -/
def ro_recover_mr_sane (ro_recover_mr : ptr → rpcrdma_xprt → rpcrdma_xprt) : Prop :=
  ∀ mw x,
    (ro_recover_mr mw x).rx_buf.rb_stale_mrs = x.rx_buf.rb_stale_mrs ∧
    ((ro_recover_mr mw x).rx_buf.rb_mws = x.rx_buf.rb_mws ∨
     (ro_recover_mr mw x).rx_buf.rb_mws = rpcrdma_push_mw mw x.rx_buf.rb_mws)

/-- One call on the memory regions of a transport: `rpcrdma_get_mw`,
`rpcrdma_put_mw` or `rpcrdma_defer_mr_recovery` of a region, or one pass of the
recovery worker through its loop. -/
inductive mw_call where
  | get
  | put (mw : ptr)
  | defer (mw : ptr)
  | recover
deriving DecidableEq, Repr

/-- Memory regions in use: the transport and the regions that callers hold,
that is, those that `rpcrdma_get_mw` returned and that were neither released
nor marked stale since. -/
structure mw_run where
  xprt : rpcrdma_xprt
  held : List ptr
deriving DecidableEq, Repr

/-- One call.  Releasing or marking stale a region that no caller holds is
not a move of the game (`none`). -/
def mw_step (ro_recover_mr : ptr → rpcrdma_xprt → rpcrdma_xprt) (s : mw_run) :
    mw_call → Option mw_run
  | mw_call.get =>
    match rpcrdma_get_mw s.xprt with
    | (none, x) => some { xprt := x, held := s.held }
    | (some mw, x) => some { xprt := x, held := mw :: s.held }
  | mw_call.put mw =>
    if mw ∈ s.held then
      some { xprt := rpcrdma_put_mw s.xprt mw, held := s.held.erase mw }
    else none
  | mw_call.defer mw =>
    if mw ∈ s.held then
      some { xprt := rpcrdma_defer_mr_recovery s.xprt mw, held := s.held.erase mw }
    else none
  | mw_call.recover =>
    some { xprt := rpcrdma_mr_recovery_worker_iter ro_recover_mr s.xprt, held := s.held }

/-- A sequence of calls, left to right. -/
def mw_steps (ro_recover_mr : ptr → rpcrdma_xprt → rpcrdma_xprt) (s : mw_run) :
    List mw_call → Option mw_run
  | [] => some s
  | c :: cs =>
    match mw_step ro_recover_mr s c with
    | none => none
    | some s1 => mw_steps ro_recover_mr s1 cs

/-- Bookkeeping of the memory regions: no region is twice on a list or among
the held ones, and none is in two of the three places. -/
def mw_inv (s : mw_run) : Prop :=
  (s.xprt.rx_buf.rb_mws ++ s.xprt.rx_buf.rb_stale_mrs ++ s.held).Nodup

/-! ## Callers of the pool -/

/-- One call on the pool by the RPC layer: `rpcrdma_buffer_get`, or
`rpcrdma_buffer_put` of a request. -/
inductive pool_call where
  | get
  | put (req : ptr)
deriving DecidableEq, Repr

/-- A pool in use: the transport and the requests that callers hold, that is,
those that `rpcrdma_buffer_get` returned and that were not put back since. -/
structure pool_run where
  xprt : rpcrdma_xprt
  held : List ptr
deriving DecidableEq, Repr

/-- One call.  A `put` of a request that no caller holds is not a move of the
game (`none`). -/
def pool_step (s : pool_run) : pool_call → Option pool_run
  | pool_call.get =>
    match rpcrdma_buffer_get s.xprt with
    | (none, x) => some { xprt := x, held := s.held }
    | (some req, x) => some { xprt := x, held := req :: s.held }
  | pool_call.put req =>
    if req ∈ s.held then
      some { xprt := rpcrdma_buffer_put s.xprt req, held := s.held.erase req }
    else none

/-- A sequence of calls, left to right. -/
def pool_steps (s : pool_run) : List pool_call → Option pool_run
  | [] => some s
  | c :: cs =>
    match pool_step s c with
    | none => none
    | some s1 => pool_steps s1 cs

/-- After `n` calls of `rpcrdma_buffer_get` in a row: the results, first call
first, and the transport. -/
def rpcrdma_buffer_get_n : Nat → rpcrdma_xprt → List (Option ptr) × rpcrdma_xprt
  | 0, x => ([], x)
  | n + 1, x =>
    let r := rpcrdma_buffer_get x
    let rs := rpcrdma_buffer_get_n n r.2
    (r.1 :: rs.1, rs.2)

/-! ## Credits -/

/-- The kernel's `be32_to_cpup(p + word)`: the big-endian 32-bit word at word
offset `word` of the byte buffer `p`; `none` when the buffer is too short. -/
def be32_to_cpup (p : List Nat) (word : Nat) : Option Nat :=
  match p.drop (4 * word) with
  | b0 :: b1 :: b2 :: b3 :: _ =>
    some ((b0 % 256) * 2 ^ 24 + (b1 % 256) * 2 ^ 16 + (b2 % 256) * 2 ^ 8 + b3 % 256)
  | _ => none

/-- The function `rpcrdma_update_granted_credits`; `none` when `rr_rdmabuf` is
NULL or the buffer holds fewer than twelve bytes. -/
def rpcrdma_update_granted_credits (x : rpcrdma_xprt) (rep : ptr) : Option rpcrdma_xprt :=
  match (rep_at x rep).rr_rdmabuf with
  | none => none
  | some rb =>
    match be32_to_cpup rb.rg_base 2 with
    | none => none
    | some credits =>
      let credits :=
        if credits = 0 then 1
        else if credits > x.rx_buf.rb_max_requests then x.rx_buf.rb_max_requests
        else credits
      some { x with rx_buf := { x.rx_buf with rb_credits := credits } }

/-! ## Connection upcall -/

/-- The `struct rdma_conn_param` as far as the upcall reads it. -/
structure rdma_conn_param where
  private_data : Option rpcrdma_connect_private
deriving DecidableEq, Repr

/-- The `enum rdma_cm_event_type`. -/
inductive rdma_cm_event_type where
  | RDMA_CM_EVENT_ADDR_RESOLVED
  | RDMA_CM_EVENT_ADDR_ERROR
  | RDMA_CM_EVENT_ROUTE_RESOLVED
  | RDMA_CM_EVENT_ROUTE_ERROR
  | RDMA_CM_EVENT_CONNECT_REQUEST
  | RDMA_CM_EVENT_CONNECT_RESPONSE
  | RDMA_CM_EVENT_CONNECT_ERROR
  | RDMA_CM_EVENT_UNREACHABLE
  | RDMA_CM_EVENT_REJECTED
  | RDMA_CM_EVENT_ESTABLISHED
  | RDMA_CM_EVENT_DISCONNECTED
  | RDMA_CM_EVENT_DEVICE_REMOVAL
  | RDMA_CM_EVENT_MULTICAST_JOIN
  | RDMA_CM_EVENT_MULTICAST_ERROR
  | RDMA_CM_EVENT_ADDR_CHANGE
  | RDMA_CM_EVENT_TIMEWAIT_EXIT
deriving DecidableEq, Repr

/-- The `struct rdma_cm_event`. -/
structure rdma_cm_event where
  event : rdma_cm_event_type
  status : Int
  conn : rdma_conn_param
deriving DecidableEq, Repr

/-- The function `rpcrdma_update_connect_private`. -/
def rpcrdma_update_connect_private (h : xprt_rdma_h) (x : rpcrdma_xprt)
    (param : rdma_conn_param) : rpcrdma_xprt :=
  let ia0 := { x.rx_ia with
    ri_reminv_expected := false,
    ri_implicit_roundup := h.xprt_rdma_pad_optimize }
  let valid : Option rpcrdma_connect_private :=
    match param.private_data with
    | some pmsg =>
      if pmsg.cp_magic = h.rpcrdma_cmp_magic ∧ pmsg.cp_version = h.RPCRDMA_CMP_VERSION
      then some pmsg else none
    | none => none
  let ia1 :=
    match valid with
    | some _ => { ia0 with ri_reminv_expected := true, ri_implicit_roundup := true }
    | none => ia0
  let rsize :=
    match valid with
    | some pmsg => h.rpcrdma_decode_buffer_size pmsg.cp_send_size
    | none => h.RPCRDMA_V1_DEF_INLINE_SIZE
  let wsize :=
    match valid with
    | some pmsg => h.rpcrdma_decode_buffer_size pmsg.cp_recv_size
    | none => h.RPCRDMA_V1_DEF_INLINE_SIZE
  let cdata := x.rx_data
  let cdata1 := if rsize < cdata.inline_rsize then { cdata with inline_rsize := rsize } else cdata
  let cdata2 :=
    if wsize < cdata1.inline_wsize then { cdata1 with inline_wsize := wsize } else cdata1
  { x with
    rx_ia := ia1,
    rx_data := cdata2,
    calls := x.calls ++ [provider_call.rpcrdma_set_max_header_sizes] }

/-- The kernel's `set_bit(nr, &flags)`. -/
def set_bit (nr : Nat) (flags : Nat) : Nat :=
  flags ||| 2 ^ nr

/-- The kernel's `test_bit(nr, &flags)`. -/
def test_bit (nr : Nat) (flags : Nat) : Bool :=
  flags.testBit nr

/-- The tail of `rpcrdma_conn_upcall` at the label `connected`. -/
def rpcrdma_conn_upcall_connected (x : rpcrdma_xprt) (connstate : Int) : rpcrdma_xprt :=
  { x with
    rx_buf := { x.rx_buf with rb_credits := 1 },
    rx_ep := { x.rx_ep with rep_connected := connstate },
    calls := x.calls ++ [provider_call.rpcrdma_conn_func, provider_call.wake_up_all] }

/-- The state of the transport at the moment the device-removal branch of
`rpcrdma_conn_upcall` goes to sleep in `wait_for_completion`. -/
def rpcrdma_conn_upcall_removal_armed (h : xprt_rdma_h) (x : rpcrdma_xprt) : rpcrdma_xprt :=
  { x with
    rx_ia := { x.rx_ia with ri_flags := set_bit h.RPCRDMA_IAF_REMOVING x.rx_ia.ri_flags },
    rx_ep := { x.rx_ep with rep_connected := -ENODEV },
    calls := x.calls ++
      [provider_call.xprt_force_disconnect, provider_call.wait_for_ri_remove_done] }

/-- The function `rpcrdma_conn_upcall`: its return value and the transport
afterwards.  `w` is what the other threads do to the transport while the
device-removal branch sleeps until `ri_remove_done` is completed. -/
def rpcrdma_conn_upcall (h : xprt_rdma_h) (w : rpcrdma_xprt → rpcrdma_xprt)
    (x : rpcrdma_xprt) (event : rdma_cm_event) : Int × rpcrdma_xprt :=
  match event.event with
  | rdma_cm_event_type.RDMA_CM_EVENT_ADDR_RESOLVED
  | rdma_cm_event_type.RDMA_CM_EVENT_ROUTE_RESOLVED =>
    (0, { x with rx_ia := { x.rx_ia with ri_async_rc := 0 },
                 calls := x.calls ++ [provider_call.complete_ri_done] })
  | rdma_cm_event_type.RDMA_CM_EVENT_ADDR_ERROR =>
    (0, { x with rx_ia := { x.rx_ia with ri_async_rc := -EHOSTUNREACH },
                 calls := x.calls ++ [provider_call.complete_ri_done] })
  | rdma_cm_event_type.RDMA_CM_EVENT_ROUTE_ERROR =>
    (0, { x with rx_ia := { x.rx_ia with ri_async_rc := -ENETUNREACH },
                 calls := x.calls ++ [provider_call.complete_ri_done] })
  | rdma_cm_event_type.RDMA_CM_EVENT_DEVICE_REMOVAL =>
    let x1 := w (rpcrdma_conn_upcall_removal_armed h x)
    (1, { x1 with rx_ia := { x1.rx_ia with ri_id := none, ri_device := none } })
  | rdma_cm_event_type.RDMA_CM_EVENT_ESTABLISHED =>
    (0, rpcrdma_conn_upcall_connected (rpcrdma_update_connect_private h x event.conn) 1)
  | rdma_cm_event_type.RDMA_CM_EVENT_CONNECT_ERROR =>
    (0, rpcrdma_conn_upcall_connected x (-ENOTCONN))
  | rdma_cm_event_type.RDMA_CM_EVENT_UNREACHABLE =>
    (0, rpcrdma_conn_upcall_connected x (-ENETDOWN))
  | rdma_cm_event_type.RDMA_CM_EVENT_REJECTED =>
    (0, rpcrdma_conn_upcall_connected x
      (if event.status = h.IB_CM_REJ_STALE_CONN then -EAGAIN else -ECONNREFUSED))
  | rdma_cm_event_type.RDMA_CM_EVENT_DISCONNECTED =>
    (0, rpcrdma_conn_upcall_connected x (-ECONNABORTED))
  | _ => (0, x)

/-- The upcalls that the provider's event thread delivers, one after the
other. -/
def deliver (h : xprt_rdma_h) (w : rpcrdma_xprt → rpcrdma_xprt) :
    List rdma_cm_event → rpcrdma_xprt → rpcrdma_xprt
  | [], x => x
  | ev :: evs, x => deliver h w evs (rpcrdma_conn_upcall h w x ev).2

/-! ## Posting receives -/

/-- Answers of the provider to one `rpcrdma_ep_post_recv`. -/
structure post_recv_env where
  ib_dma_mapping_error : Bool
  ib_post_recv_rc : Int

/-- The function `__rpcrdma_dma_map_regbuf`: its result, the regbuf afterwards
and the provider calls made. -/
def __rpcrdma_dma_map_regbuf (ia : rpcrdma_ia) (rb : rpcrdma_regbuf)
    (ib_dma_mapping_error : Bool) : Bool × rpcrdma_regbuf × List provider_call :=
  if rb.rg_direction = dma_data_direction.DMA_NONE then (false, rb, [])
  else if ib_dma_mapping_error then
    (false, rb, [provider_call.ib_dma_map_single ia.ri_device])
  else
    (true, { rb with rg_device := ia.ri_device },
     [provider_call.ib_dma_map_single ia.ri_device])

/-- Modelled from the spec: the inline `rpcrdma_dma_map_regbuf` of xprt_rdma.h,
a header that is not among the sources; the spec says a RegBuf is "mapped lazily
before first use", so a mapped buffer is left alone and an unmapped one goes to
`__rpcrdma_dma_map_regbuf`. -/
def rpcrdma_dma_map_regbuf (ia : rpcrdma_ia) (rb : rpcrdma_regbuf)
    (ib_dma_mapping_error : Bool) : Bool × rpcrdma_regbuf × List provider_call :=
  if rpcrdma_regbuf_is_mapped rb then (true, rb, [])
  else __rpcrdma_dma_map_regbuf ia rb ib_dma_mapping_error

/-- The function `rpcrdma_ep_post_recv`; `none` when `rr_rdmabuf` or `ri_id` is
NULL. -/
def rpcrdma_ep_post_recv (e : post_recv_env) (x : rpcrdma_xprt) (rep : ptr) :
    Option (Int × rpcrdma_xprt) :=
  match (rep_at x rep).rr_rdmabuf with
  | none => none
  | some rb =>
    let m := rpcrdma_dma_map_regbuf x.rx_ia rb e.ib_dma_mapping_error
    let x1 := { x with
      rep_mem := x.rep_mem.set rep { rep_at x rep with rr_rdmabuf := some m.2.1 },
      calls := x.calls ++ m.2.2 }
    if !m.1 then some (- EIO, x1)
    else
      match x1.rx_ia.ri_id with
      | none => none
      | some _ =>
        let x2 := { x1 with calls := x1.calls ++ [provider_call.ib_post_recv rep] }
        if e.ib_post_recv_rc ≠ 0 then some (-ENOTCONN, x2)
        else some (0, x2)

/-- The function `rpcrdma_recv_buffer_put`; `rb_recv_count--` is on a C
`int`. -/
def rpcrdma_recv_buffer_put (x : rpcrdma_xprt) (rep : ptr) : rpcrdma_xprt :=
  { x with rx_buf := { x.rx_buf with
      rb_recv_count := int_wrap (x.rx_buf.rb_recv_count - 1),
      rb_recv_bufs := x.rx_buf.rb_recv_bufs ++ [rep] } }

/-- The function `rpcrdma_ep_post_extra_recv`: `n` is the value of `count`
still to go, `i` counts the iterations done. -/
def rpcrdma_ep_post_extra_recv (e : Nat → post_recv_env) :
    Nat → Nat → rpcrdma_xprt → Option (Int × rpcrdma_xprt)
  | 0, _, x => some (0, x)
  | n + 1, i, x =>
    if x.rx_buf.rb_recv_bufs.isEmpty then some (-ENOMEM, x)
    else
      match rpcrdma_buffer_get_rep_locked x.rx_buf with
      | none => some (-ENOMEM, x)
      | some (rep, b) =>
        match rpcrdma_ep_post_recv (e i) { x with rx_buf := b } rep with
        | none => none
        | some (rc, x1) =>
          if rc ≠ 0 then some (rc, rpcrdma_recv_buffer_put x1 rep)
          else rpcrdma_ep_post_extra_recv e n (i + 1) x1

/-- The function `rpcrdma_ep_post`; `none` on a NULL dereference. -/
def rpcrdma_ep_post (e : post_recv_env) (ib_post_send_rc : Int) (x : rpcrdma_xprt)
    (req : ptr) : Option (Int × rpcrdma_xprt) :=
  let posted : Option (Int × rpcrdma_xprt) :=
    match (req_at x req).rl_reply with
    | some rep =>
      match rpcrdma_ep_post_recv e x rep with
      | none => none
      | some (rc, x1) =>
        if rc ≠ 0 then some (rc, x1)
        else some (0, set_rl_reply x1 req none)
    | none => some (0, x)
  match posted with
  | none => none
  | some (rc, x1) =>
    if rc ≠ 0 then some (rc, x1)
    else
      match x1.rx_ia.ri_id with
      | none => none
      | some _ =>
        if ib_post_send_rc ≠ 0 then some (-ENOTCONN, x1) else some (0, x1)

/-! ## Interface adapter -/

/-- Unmap the regbuf of one reply (an iteration of the first loop of
`rpcrdma_ia_remove`). -/
def unmap_rep (x : rpcrdma_xprt) (rep : ptr) : rpcrdma_xprt :=
  let r := rpcrdma_dma_unmap_regbuf (rep_at x rep).rr_rdmabuf
  { x with
    rep_mem := x.rep_mem.set rep { rep_at x rep with rr_rdmabuf := r.1 },
    calls := x.calls ++ r.2 }

/-- Unmap the three regbufs of one request (an iteration of the second loop
of `rpcrdma_ia_remove`). -/
def unmap_req (x : rpcrdma_xprt) (req : ptr) : rpcrdma_xprt :=
  let r1 := rpcrdma_dma_unmap_regbuf (req_at x req).rl_rdmabuf
  let r2 := rpcrdma_dma_unmap_regbuf (req_at x req).rl_sendbuf
  let r3 := rpcrdma_dma_unmap_regbuf (req_at x req).rl_recvbuf
  let r : rpcrdma_req :=
    { req_at x req with rl_rdmabuf := r1.1, rl_sendbuf := r2.1, rl_recvbuf := r3.1 }
  { x with
    req_mem := x.req_mem.set req r,
    calls := x.calls ++ r1.2 ++ r2.2 ++ r3.2 }

/-- The function `rpcrdma_ia_remove`; `none` when `ri_id` is NULL. -/
def rpcrdma_ia_remove (x : rpcrdma_xprt) : Option rpcrdma_xprt :=
  let x0 := { x with calls := x.calls ++ [provider_call.cancel_refresh_worker] }
  match x0.rx_ia.ri_id with
  | none => none
  | some id =>
    let x1 : rpcrdma_xprt :=
      match id.qp with
      | some qp =>
        { x0 with
          rx_ia := { x0.rx_ia with ri_id := some { id with qp := none } },
          calls := x0.calls ++
            [provider_call.ib_drain_qp (some qp), provider_call.rdma_destroy_qp id.handle] }
      | none => x0
    let x2 := { x1 with
      rx_ep := { x1.rx_ep with recv_cq := none, send_cq := none },
      calls := x1.calls ++
        [provider_call.ib_free_cq x1.rx_ep.recv_cq, provider_call.ib_free_cq x1.rx_ep.send_cq] }
    let x3 := x2.rx_buf.rb_recv_bufs.foldl unmap_rep x2
    let x4 := x3.rx_buf.rb_allreqs.foldl unmap_req x3
    let x5 := rpcrdma_destroy_mrs x4
    some { x5 with
      rx_ia := { x5.rx_ia with ri_pd := none },
      calls := x5.calls ++
        [provider_call.ib_dealloc_pd x5.rx_ia.ri_pd, provider_call.complete_ri_remove_done] }

/-- The function `rpcrdma_ia_close`. -/
def rpcrdma_ia_close (x : rpcrdma_xprt) : rpcrdma_xprt :=
  let c1 : List provider_call :=
    match x.rx_ia.ri_id with
    | some id =>
      (match id.qp with
       | some _ => [provider_call.rdma_destroy_qp id.handle]
       | none => []) ++ [provider_call.rdma_destroy_id id.handle]
    | none => []
  let c2 : List provider_call :=
    match x.rx_ia.ri_pd with
    | some pd => [provider_call.ib_dealloc_pd (some pd)]
    | none => []
  { x with
    rx_ia := { x.rx_ia with ri_id := none, ri_device := none, ri_pd := none },
    calls := x.calls ++ c1 ++ c2 }

/-- Answers of the provider to one run of `rpcrdma_create_id`: the result of
`rdma_create_id` (an errno or the handle of the new identifier), the return
codes of the two resolve requests, the return values of the two bounded waits
(negative: interrupted, 0: timed out, positive: completed), the upcalls that
arrive during each wait, and the device that address resolution binds the
identifier to. -/
structure create_id_env where
  rdma_create_id : Except Int Nat
  rdma_resolve_addr_rc : Int
  addr_wait : Int
  addr_events : List rdma_cm_event
  device : Option Nat
  rdma_resolve_route_rc : Int
  route_wait : Int
  route_events : List rdma_cm_event

/-- The label `out` of `rpcrdma_create_id`. -/
def rpcrdma_create_id_out (x : rpcrdma_xprt) (id : rdma_cm_id) (rc : Int) :
    Except Int rdma_cm_id × rpcrdma_xprt :=
  (Except.error rc, { x with calls := x.calls ++ [provider_call.rdma_destroy_id id.handle] })

/-- The function `rpcrdma_create_id`: `ERR_PTR(rc)` or the resolved
identifier. -/
def rpcrdma_create_id (h : xprt_rdma_h) (w : rpcrdma_xprt → rpcrdma_xprt)
    (e : create_id_env) (x : rpcrdma_xprt) : Except Int rdma_cm_id × rpcrdma_xprt :=
  let x0 := { x with calls := x.calls ++ [provider_call.rdma_create_id] }
  match e.rdma_create_id with
  | Except.error rc => (Except.error rc, x0)
  | Except.ok handle =>
    let id0 : rdma_cm_id := { handle := handle, device := none, qp := none }
    let x1 := { x0 with
      rx_ia := { x0.rx_ia with ri_async_rc := -ETIMEDOUT },
      calls := x0.calls ++ [provider_call.rdma_resolve_addr handle] }
    if e.rdma_resolve_addr_rc ≠ 0 then rpcrdma_create_id_out x1 id0 e.rdma_resolve_addr_rc
    else
      let x2 := deliver h w e.addr_events
        { x1 with calls := x1.calls ++ [provider_call.wait_for_ri_done] }
      let id : rdma_cm_id := { id0 with device := e.device }
      if e.addr_wait < 0 then rpcrdma_create_id_out x2 id e.addr_wait
      else if x2.rx_ia.ri_async_rc ≠ 0 then rpcrdma_create_id_out x2 id x2.rx_ia.ri_async_rc
      else
        let x3 := { x2 with
          rx_ia := { x2.rx_ia with ri_async_rc := -ETIMEDOUT },
          calls := x2.calls ++ [provider_call.rdma_resolve_route handle] }
        if e.rdma_resolve_route_rc ≠ 0 then rpcrdma_create_id_out x3 id e.rdma_resolve_route_rc
        else
          let x4 := deliver h w e.route_events
            { x3 with calls := x3.calls ++ [provider_call.wait_for_ri_done] }
          if e.route_wait < 0 then rpcrdma_create_id_out x4 id e.route_wait
          else if x4.rx_ia.ri_async_rc ≠ 0 then
            rpcrdma_create_id_out x4 id x4.rx_ia.ri_async_rc
          else (Except.ok id, x4)

/-- Answers of the provider to one run of `rpcrdma_ia_open`. -/
structure ia_open_env where
  id : create_id_env
  ib_alloc_pd : Except Int Nat
  frwr_is_supported : Bool
  fmr_is_supported : Bool

/-- The function `rpcrdma_ia_open`.  An `ERR_PTR` stored in `ri_id` or `ri_pd`
on the way to `out_err` is written as NULL: `rpcrdma_ia_close`, which runs
next, treats the two alike and overwrites both fields. -/
def rpcrdma_ia_open (h : xprt_rdma_h) (w : rpcrdma_xprt → rpcrdma_xprt)
    (e : ia_open_env) (x : rpcrdma_xprt) : Int × rpcrdma_xprt :=
  match rpcrdma_create_id h w e.id x with
  | (Except.error rc, x1) =>
    (rc, rpcrdma_ia_close { x1 with rx_ia := { x1.rx_ia with ri_id := none } })
  | (Except.ok id, x1) =>
    let x2 := { x1 with
      rx_ia := { x1.rx_ia with ri_id := some id, ri_device := id.device },
      calls := x1.calls ++ [provider_call.ib_alloc_pd id.device] }
    match e.ib_alloc_pd with
    | Except.error rc =>
      (rc, rpcrdma_ia_close { x2 with rx_ia := { x2.rx_ia with ri_pd := none } })
    | Except.ok pd =>
      let x3 := { x2 with rx_ia := { x2.rx_ia with ri_pd := some pd } }
      if h.xprt_rdma_memreg_strategy = h.RPCRDMA_FRMR ∧ e.frwr_is_supported = true then
        (0, { x3 with rx_ia := { x3.rx_ia with
                ri_ops := some memreg_ops.rpcrdma_frwr_memreg_ops } })
      else if (h.xprt_rdma_memreg_strategy = h.RPCRDMA_FRMR ∨
               h.xprt_rdma_memreg_strategy = h.RPCRDMA_MTHCAFMR) ∧
              e.fmr_is_supported = true then
        (0, { x3 with rx_ia := { x3.rx_ia with
                ri_ops := some memreg_ops.rpcrdma_fmr_memreg_ops } })
      else (-EINVAL, rpcrdma_ia_close x3)

/-! ## Endpoint -/

/-- The fields of `struct ib_device_attr` that `rpcrdma_ep_create` reads, C
`int`s all three. -/
structure ib_device_attr where
  max_sge : Int
  max_qp_wr : Int
  max_qp_rd_atom : Int
deriving DecidableEq, Repr

/-- Answers of the provider and of the registration strategy to one run of
`rpcrdma_ep_create`: the attributes of the device, the strategy's `ro_open`
hook (which may rewrite the transport) and its `ro_send_w_inv_ok` flag, and the
results of the two `ib_alloc_cq` calls. -/
structure ep_create_env where
  attrs : ib_device_attr
  ro_open : rpcrdma_xprt → Int × rpcrdma_xprt
  ro_send_w_inv_ok : Nat
  sendcq : Except Int Nat
  recvcq : Except Int Nat

/-- The part of `rpcrdma_ep_create` between the return of `ro_open` and the
first `ib_alloc_cq`: the receive limits, the SGE limits and the cadence of
signalled sends.  `rep_cqinit` is a C `int` that is assigned the `unsigned int`
value `max_send_wr/2 - 1`. -/
def rpcrdma_ep_create_attrs (h : xprt_rdma_h) (max_sge : Nat) (x4 : rpcrdma_xprt) :
    rpcrdma_xprt :=
  let cqinit0 := to_s32 ((x4.rx_ep.max_send_wr / 2 + 2 ^ 32 - 1) % 2 ^ 32)
  let cqinit : Int := if cqinit0 ≤ 2 then 0 else cqinit0
  { x4 with
    rx_ep := { x4.rx_ep with
      max_recv_wr :=
        (((x4.rx_data.max_requests + h.RPCRDMA_BACKWARD_WRS) % 2 ^ 32) + 1) % 2 ^ 32,
      max_send_sge := max_sge,
      max_recv_sge := 1,
      rep_cqinit := cqinit,
      rep_cqcount := cqinit - 0 } }

/-- The part of `rpcrdma_ep_create` from the first `ib_alloc_cq` on: the two
completion queues, the private message and the connection parameters. -/
def rpcrdma_ep_create_cqs (h : xprt_rdma_h) (e : ep_create_env) (x4 : rpcrdma_xprt) :
    Int × rpcrdma_xprt :=
  let x5 := { x4 with calls := x4.calls ++
    [provider_call.ib_alloc_cq ((x4.rx_ep.max_send_wr + 1) % 2 ^ 32)] }
  match e.sendcq with
  | Except.error rc1 => (rc1, x5)
  | Except.ok sendcq =>
    let x6 := { x5 with calls := x5.calls ++
      [provider_call.ib_alloc_cq ((x5.rx_ep.max_recv_wr + 1) % 2 ^ 32)] }
    match e.recvcq with
    | Except.error rc2 =>
      (rc2, { x6 with calls := x6.calls ++ [provider_call.ib_free_cq (some sendcq)] })
    | Except.ok recvcq =>
      let pmsg : rpcrdma_connect_private :=
        { cp_magic := h.rpcrdma_cmp_magic,
          cp_version := h.RPCRDMA_CMP_VERSION,
          cp_flags := x6.rx_ep.rep_cm_private.cp_flags ||| e.ro_send_w_inv_ok,
          cp_send_size := h.rpcrdma_encode_buffer_size x6.rx_data.inline_wsize,
          cp_recv_size := h.rpcrdma_encode_buffer_size x6.rx_data.inline_rsize }
      (0, { x6 with rx_ep := { x6.rx_ep with
        send_cq := some sendcq,
        recv_cq := some recvcq,
        rep_cm_private := pmsg,
        rep_remote_cma :=
          { private_data_set := true,
            initiator_depth := 0,
            responder_resources :=
              if e.attrs.max_qp_rd_atom > 32 then 32
              else (e.attrs.max_qp_rd_atom % 256).toNat,
            retry_count := 6,
            flow_control := 0,
            rnr_retry_count := 0 } } })

/-- The part of `rpcrdma_ep_create` between the two capability checks and the
call of `ro_open`: `max_requests` is cut down to what the device offers and
`max_send_wr` is derived from it. -/
def rpcrdma_ep_create_limits (h : xprt_rdma_h) (e : ep_create_env) (x1 : rpcrdma_xprt) :
    rpcrdma_xprt :=
  let max_qp_wr := to_u32 (e.attrs.max_qp_wr - (h.RPCRDMA_BACKWARD_WRS : Int) - 1)
  let x2 :=
    if x1.rx_data.max_requests > max_qp_wr then
      { x1 with rx_data := { x1.rx_data with max_requests := max_qp_wr } }
    else x1
  { x2 with
    rx_ep := { x2.rx_ep with
      max_send_wr :=
        (((x2.rx_data.max_requests + h.RPCRDMA_BACKWARD_WRS) % 2 ^ 32) + 1) % 2 ^ 32 },
    calls := x2.calls ++ [provider_call.ro_open] }

/-- The function `rpcrdma_ep_create`; `none` when `ri_device` is NULL.  After
the capability checks it runs `rpcrdma_ep_create_limits`, the strategy's
`ro_open`, `rpcrdma_ep_create_attrs` and `rpcrdma_ep_create_cqs`. -/
def rpcrdma_ep_create (h : xprt_rdma_h) (e : ep_create_env) (x : rpcrdma_xprt) :
    Option (Int × rpcrdma_xprt) :=
  match x.rx_ia.ri_device with
  | none => none
  | some _ =>
    let max_sge := min (to_u32 e.attrs.max_sge) h.RPCRDMA_MAX_SEND_SGES
    if max_sge < h.RPCRDMA_MIN_SEND_SGES then some (-ENOMEM, x)
    else
      let x1 := { x with rx_ia := { x.rx_ia with ri_max_send_sges := max_sge } }
      if e.attrs.max_qp_wr ≤ (h.RPCRDMA_BACKWARD_WRS : Int) then some (-ENOMEM, x1)
      else
        match e.ro_open (rpcrdma_ep_create_limits h e x1) with
        | (rc, x4) =>
          if rc ≠ 0 then some (rc, x4)
          else some (rpcrdma_ep_create_cqs h e (rpcrdma_ep_create_attrs h max_sge x4))

/-- Answers to one run of `rpcrdma_ep_disconnect`: the return code of
`rdma_disconnect` and the upcalls that arrive while it waits. -/
structure disconnect_env where
  rdma_disconnect_rc : Int
  events : List rdma_cm_event

/-- The function `rpcrdma_ep_disconnect`; `none` when `ri_id` is NULL at one of
its two uses. -/
def rpcrdma_ep_disconnect (h : xprt_rdma_h) (w : rpcrdma_xprt → rpcrdma_xprt)
    (e : disconnect_env) (x : rpcrdma_xprt) : Option rpcrdma_xprt :=
  match x.rx_ia.ri_id with
  | none => none
  | some id0 =>
    let x1 := { x with calls := x.calls ++ [provider_call.rdma_disconnect id0.handle] }
    let x2 :=
      if e.rdma_disconnect_rc = 0 then
        deliver h w e.events { x1 with calls := x1.calls ++ [provider_call.wait_disconnect] }
      else { x1 with rx_ep := { x1.rx_ep with rep_connected := e.rdma_disconnect_rc } }
    match x2.rx_ia.ri_id with
    | none => none
    | some id => some { x2 with calls := x2.calls ++ [provider_call.ib_drain_qp id.qp] }

/-- The function `rpcrdma_ep_destroy`; `none` on a NULL dereference. -/
def rpcrdma_ep_destroy (h : xprt_rdma_h) (w : rpcrdma_xprt → rpcrdma_xprt)
    (e : disconnect_env) (x : rpcrdma_xprt) : Option rpcrdma_xprt :=
  let x0 := { x with calls := x.calls ++ [provider_call.cancel_connect_worker] }
  let x1 : Option rpcrdma_xprt :=
    match x0.rx_ia.ri_id with
    | none => some x0
    | some id =>
      match id.qp with
      | none => some x0
      | some _ =>
        match rpcrdma_ep_disconnect h w e x0 with
        | none => none
        | some y =>
          match y.rx_ia.ri_id with
          | none => none
          | some id1 =>
            some { y with
              rx_ia := { y.rx_ia with ri_id := some { id1 with qp := none } },
              calls := y.calls ++ [provider_call.rdma_destroy_qp id1.handle] }
  match x1 with
  | none => none
  | some y =>
    let c1 : List provider_call :=
      match y.rx_ep.recv_cq with
      | some cq => [provider_call.ib_free_cq (some cq)]
      | none => []
    let c2 : List provider_call :=
      match y.rx_ep.send_cq with
      | some cq => [provider_call.ib_free_cq (some cq)]
      | none => []
    some { y with calls := y.calls ++ c1 ++ c2 }

/-- Answer of the provider to one `rdma_create_qp`: its return code and, for
return code 0, the handle of the queue pair it hangs on the identifier. -/
structure qp_env where
  rc : Int
  qp : Nat

/-- The provider's `rdma_create_qp` as `verbs.c` sees it: the return code and
the identifier afterwards. -/
def rdma_create_qp (e : qp_env) (id : rdma_cm_id) : Int × rdma_cm_id :=
  if e.rc ≠ 0 then (e.rc, id) else (0, { id with qp := some e.qp })

/-- Answers to one run of `rpcrdma_ep_recreate_xprt`. -/
structure recreate_env where
  ia_open : ia_open_env
  ep_create : ep_create_env
  qp : qp_env
  destroy : disconnect_env
  mrs : create_mrs_env

/-- The function `rpcrdma_ep_recreate_xprt`; `none` on a NULL dereference. -/
def rpcrdma_ep_recreate_xprt (h : xprt_rdma_h) (w : rpcrdma_xprt → rpcrdma_xprt)
    (e : recreate_env) (x : rpcrdma_xprt) : Option (Int × rpcrdma_xprt) :=
  match rpcrdma_ia_open h w e.ia_open x with
  | (rc0, x1) =>
    if rc0 ≠ 0 then some (-EHOSTUNREACH, x1)
    else
      match rpcrdma_ep_create h e.ep_create x1 with
      | none => none
      | some (err, x2) =>
        if err ≠ 0 then some (-ENOMEM, rpcrdma_ia_close x2)
        else
          match x2.rx_ia.ri_id with
          | none => none
          | some id =>
            let q := rdma_create_qp e.qp id
            let x3 := { x2 with
              rx_ia := { x2.rx_ia with ri_id := some q.2 },
              calls := x2.calls ++ [provider_call.rdma_create_qp id.handle] }
            if q.1 ≠ 0 then
              match rpcrdma_ep_destroy h w e.destroy x3 with
              | none => none
              | some x4 => some (-ENETUNREACH, rpcrdma_ia_close x4)
            else some (0, rpcrdma_create_mrs e.mrs x3)

/-- Answers to one run of `rpcrdma_ep_reconnect`. -/
structure reconnect_env where
  disconnect : disconnect_env
  id : create_id_env
  qp : qp_env

/-- The function `rpcrdma_ep_reconnect`; `none` on a NULL dereference. -/
def rpcrdma_ep_reconnect (h : xprt_rdma_h) (w : rpcrdma_xprt → rpcrdma_xprt)
    (e : reconnect_env) (x : rpcrdma_xprt) : Option (Int × rpcrdma_xprt) :=
  match rpcrdma_ep_disconnect h w e.disconnect x with
  | none => none
  | some x1 =>
    match rpcrdma_create_id h w e.id x1 with
    | (Except.error _, x2) => some (-EHOSTUNREACH, x2)
    | (Except.ok id, x2) =>
      if x2.rx_ia.ri_device ≠ id.device then
        some (-ENETUNREACH,
          { x2 with calls := x2.calls ++ [provider_call.rdma_destroy_id id.handle] })
      else
        let q := rdma_create_qp e.qp id
        let x3 := { x2 with calls := x2.calls ++ [provider_call.rdma_create_qp id.handle] }
        if q.1 ≠ 0 then
          some (-ENETUNREACH,
            { x3 with calls := x3.calls ++ [provider_call.rdma_destroy_id id.handle] })
        else
          match x3.rx_ia.ri_id with
          | none => none
          | some old =>
            some (0, { x3 with
              rx_ia := { x3.rx_ia with ri_id := some q.2 },
              calls := x3.calls ++
                [provider_call.rdma_destroy_qp old.handle,
                 provider_call.rdma_destroy_id old.handle] })

/-- Answers to one pass of `rpcrdma_ep_connect` from the label `retry` on:
to the step its `switch` selects, to `rdma_connect`, the upcalls that arrive
while it waits on `rep_connect_wait`, and to the posting of extra receives. -/
structure connect_env where
  qp : qp_env
  recreate : recreate_env
  reconnect : reconnect_env
  rdma_connect_rc : Int
  events : List rdma_cm_event
  extra_recv : Nat → post_recv_env

/-- How one pass of `rpcrdma_ep_connect` from `retry` to the end of its
`wait_event_interruptible` ends: with a NULL dereference, with a return through
`out` or `out_noupdate`, or woken up from the wait. -/
inductive connect_attempt where
  | oops
  | returned (rc : Int) (x : rpcrdma_xprt)
  | woken (x : rpcrdma_xprt)

/-- The label `out` of `rpcrdma_ep_connect`. -/
def rpcrdma_ep_connect_out (rc : Int) (x : rpcrdma_xprt) : Int × rpcrdma_xprt :=
  (rc, if rc ≠ 0 then { x with rx_ep := { x.rx_ep with rep_connected := rc } } else x)

/-- The `switch` of `rpcrdma_ep_connect`: `none` on a NULL dereference, else
whether the function leaves through `out_noupdate` (`Sum.inl`, with the value
returned) or goes on (`Sum.inr`, with `rc`), and the transport. -/
def rpcrdma_ep_connect_switch (h : xprt_rdma_h) (w : rpcrdma_xprt → rpcrdma_xprt)
    (e : connect_env) (x : rpcrdma_xprt) : Option (Sum Int Int × rpcrdma_xprt) :=
  if x.rx_ep.rep_connected = 0 then
    match x.rx_ia.ri_id with
    | none => none
    | some id =>
      let q := rdma_create_qp e.qp id
      let x1 := { x with
        rx_ia := { x.rx_ia with ri_id := some q.2 },
        calls := x.calls ++ [provider_call.rdma_create_qp id.handle] }
      if q.1 ≠ 0 then some (Sum.inl (-ENETUNREACH), x1)
      else some (Sum.inr q.1, x1)
  else if x.rx_ep.rep_connected = -ENODEV then
    match rpcrdma_ep_recreate_xprt h w e.recreate x with
    | none => none
    | some (rc, x1) =>
      if rc ≠ 0 then some (Sum.inl rc, x1) else some (Sum.inr rc, x1)
  else
    match rpcrdma_ep_reconnect h w e.reconnect x with
    | none => none
    | some (rc, x1) => some (Sum.inr rc, x1)

/-- One pass of `rpcrdma_ep_connect` from the label `retry` to the end of its
`wait_event_interruptible`. -/
def rpcrdma_ep_connect_attempt (h : xprt_rdma_h) (w : rpcrdma_xprt → rpcrdma_xprt)
    (e : connect_env) (x : rpcrdma_xprt) : connect_attempt :=
  match rpcrdma_ep_connect_switch h w e x with
  | none => connect_attempt.oops
  | some (Sum.inl rc, x1) => connect_attempt.returned rc x1
  | some (Sum.inr rc, x1) =>
    if rc ≠ 0 then
      connect_attempt.returned (rpcrdma_ep_connect_out rc x1).1 (rpcrdma_ep_connect_out rc x1).2
    else
      let x2 := { x1 with rx_ep := { x1.rx_ep with rep_connected := 0 } }
      match x2.rx_ia.ri_id with
      | none => connect_attempt.oops
      | some id =>
        let x3 := { x2 with calls := x2.calls ++ [provider_call.rdma_connect id.handle] }
        if e.rdma_connect_rc ≠ 0 then
          connect_attempt.returned (rpcrdma_ep_connect_out e.rdma_connect_rc x3).1
            (rpcrdma_ep_connect_out e.rdma_connect_rc x3).2
        else
          connect_attempt.woken
            (deliver h w e.events
              { x3 with calls := x3.calls ++ [provider_call.wait_connect] })

/-- How a call of `rpcrdma_ep_connect` ends: it returns, it runs into a NULL
dereference, or it is still retrying when the scripted answers run out. -/
inductive connect_result where
  | returned (rc : Int) (x : rpcrdma_xprt)
  | oops
  | starved

/-- The function `rpcrdma_ep_connect`, given the answers to each of its passes
through the label `retry`, first pass first. -/
def rpcrdma_ep_connect (h : xprt_rdma_h) (w : rpcrdma_xprt → rpcrdma_xprt) :
    List connect_env → rpcrdma_xprt → connect_result
  | [], _ => connect_result.starved
  | e :: es, x =>
    match rpcrdma_ep_connect_attempt h w e x with
    | connect_attempt.oops => connect_result.oops
    | connect_attempt.returned rc x1 => connect_result.returned rc x1
    | connect_attempt.woken x1 =>
      if x1.rx_ep.rep_connected ≤ 0 then
        if x1.rx_ep.rep_connected = -EAGAIN then rpcrdma_ep_connect h w es x1
        else
          connect_result.returned
            (rpcrdma_ep_connect_out x1.rx_ep.rep_connected x1).1
            (rpcrdma_ep_connect_out x1.rx_ep.rep_connected x1).2
      else
        let extras := x1.rx_buf.rb_bc_srv_max_requests
        if extras ≠ 0 then
          match rpcrdma_ep_post_extra_recv e.extra_recv extras 0 x1 with
          | none => connect_result.oops
          | some (_, x2) => connect_result.returned 0 x2
        else connect_result.returned 0 x1

/-! ## Observing a connect -/

/-- The connected-state a pass was woken up with, if it got as far as the
wait. -/
def connect_attempt.woken_state : connect_attempt → Option Int
  | connect_attempt.woken x => some x.rx_ep.rep_connected
  | _ => none

/-- The passes of `rpcrdma_ep_connect` that all end woken up with
`rep_connected = -EAGAIN`, run one after the other: the transport after the
last of them, `none` when one of them ends otherwise. -/
def stale_attempts (h : xprt_rdma_h) (w : rpcrdma_xprt → rpcrdma_xprt) :
    List connect_env → rpcrdma_xprt → Option rpcrdma_xprt
  | [], x => some x
  | e :: es, x =>
    match rpcrdma_ep_connect_attempt h w e x with
    | connect_attempt.woken x1 =>
      if x1.rx_ep.rep_connected = -EAGAIN then stale_attempts h w es x1 else none
    | _ => none

/-- The value `rpcrdma_ep_connect` returned, if it returned. -/
def connect_result.rc : connect_result → Option Int
  | connect_result.returned rc _ => some rc
  | _ => none

/-- The transport `rpcrdma_ep_connect` left behind, if it returned. -/
def connect_result.xprt : connect_result → Option rpcrdma_xprt
  | connect_result.returned _ x => some x
  | _ => none

/-- Number of `rdma_connect` requests among the calls made so far. -/
def count_rdma_connect (x : rpcrdma_xprt) : Nat :=
  x.calls.countP (fun c => match c with
    | provider_call.rdma_connect _ => true
    | _ => false)

/-- Number of `rdma_resolve_addr` requests among the calls made so far. -/
def count_rdma_resolve_addr (x : rpcrdma_xprt) : Nat :=
  x.calls.countP (fun c => match c with
    | provider_call.rdma_resolve_addr _ => true
    | _ => false)

/-! ## Sample inputs -/

/-- A receive buffer whose third big-endian word is 300. -/
def sample_credit_regbuf : rpcrdma_regbuf :=
  { rg_device := none, rg_direction := dma_data_direction.DMA_FROM_DEVICE,
    rg_length := 12, rg_base := [0, 0, 0, 1, 0, 0, 0, 1, 0, 0, 1, 44] }

/-- A transport limited to 32 requests whose only reply holds
`sample_credit_regbuf`. -/
def sample_credit_xprt : rpcrdma_xprt :=
  { rpcrdma_xprt_zero with
    rx_buf := { rpcrdma_xprt_zero.rx_buf with rb_max_requests := 32 },
    rep_mem := [{ rr_rdmabuf := some sample_credit_regbuf }] }

/-- A zero-filled transport configured with the given `max_requests` and
inline sizes. -/
def sample_xprt (max_requests inline_rsize inline_wsize : Nat) : rpcrdma_xprt :=
  { rpcrdma_xprt_zero with
    rx_data := { max_requests := max_requests, inline_rsize := inline_rsize,
                 inline_wsize := inline_wsize } }

/-- A private message with a wrong magic word that proposes sizes decoding to
4096 bytes. -/
def sample_bad_magic : rpcrdma_connect_private :=
  { cp_magic := 0, cp_version := 1, cp_flags := 0, cp_send_size := 3, cp_recv_size := 3 }

/-- A private message with the right magic word and a wrong version. -/
def sample_bad_version : rpcrdma_connect_private :=
  { cp_magic := 0xf6ab0e18, cp_version := 2, cp_flags := 0, cp_send_size := 7,
    cp_recv_size := 7 }

/-- A transport with an open adapter (identifier 1 with queue pair 3 on device
7, protection domain 5), configured for one request and not yet filled. -/
def sample_open_xprt : rpcrdma_xprt :=
  { sample_xprt 1 16 16 with
    rx_ia := { rpcrdma_xprt_zero.rx_ia with
      ri_id := some { handle := 1, device := some 7, qp := some 3 },
      ri_device := some 7,
      ri_pd := some 5,
      ri_ops := some memreg_ops.rpcrdma_frwr_memreg_ops } }

/-- The pool of `sample_open_xprt` after `rpcrdma_buffer_create`. -/
def sample_pool : rpcrdma_xprt :=
  match rpcrdma_buffer_create buffer_create_env_ok sample_open_xprt with
  | some r => r.2
  | none => sample_open_xprt

/-- A provider that maps the receive buffer and then refuses the receive work
request. -/
def sample_post_fails : post_recv_env :=
  { ib_dma_mapping_error := false, ib_post_recv_rc := -22 }

/-- The transport after `rpcrdma_buffer_get` has handed out request 0 with
reply 1 attached and `rpcrdma_ep_post` of that request has failed in
`ib_post_recv`: the reply is DMA-mapped and still attached. -/
def sample_checked_out : Option (Int × rpcrdma_xprt) :=
  rpcrdma_ep_post sample_post_fails 0 (rpcrdma_buffer_get sample_pool).2 0

/-- The transport of `sample_checked_out` after `rpcrdma_ia_remove`. -/
def sample_removed : Option rpcrdma_xprt :=
  sample_checked_out.bind (fun r => rpcrdma_ia_remove r.2)

/-- An upcall of the given kind and status without private data. -/
def sample_event (k : rdma_cm_event_type) (status : Int) : rdma_cm_event :=
  { event := k, status := status, conn := { private_data := none } }

/-- A provider that resolves address and route at once and binds the new
identifier `handle` to device 7. -/
def sample_create_id_env (handle : Nat) : create_id_env :=
  { rdma_create_id := Except.ok handle,
    rdma_resolve_addr_rc := 0,
    addr_wait := 1,
    addr_events := [sample_event rdma_cm_event_type.RDMA_CM_EVENT_ADDR_RESOLVED 0],
    device := some 7,
    rdma_resolve_route_rc := 0,
    route_wait := 1,
    route_events := [sample_event rdma_cm_event_type.RDMA_CM_EVENT_ROUTE_RESOLVED 0] }

/-- A disconnect that the provider accepts and confirms. -/
def sample_disconnect_env : disconnect_env :=
  { rdma_disconnect_rc := 0,
    events := [sample_event rdma_cm_event_type.RDMA_CM_EVENT_DISCONNECTED 0] }

/-- A re-creation in which every step succeeds and two memory regions can be
registered. -/
def sample_recreate_env (handle : Nat) : recreate_env :=
  { ia_open := { id := sample_create_id_env handle, ib_alloc_pd := Except.ok 6,
                 frwr_is_supported := true, fmr_is_supported := true },
    ep_create := { attrs := { max_sge := 30, max_qp_wr := 1000, max_qp_rd_atom := 16 },
                   ro_open := fun x => (0, x),
                   ro_send_w_inv_ok := 1,
                   sendcq := Except.ok 11,
                   recvcq := Except.ok 12 },
    qp := { rc := 0, qp := 20 + handle },
    destroy := sample_disconnect_env,
    mrs := { kzalloc_ok := fun count => decide (count < 2), ro_init_mr := fun _ => 0 } }

/-- A pass of `rpcrdma_ep_connect` in which every step before the wait
succeeds, a new identifier would get the given handle, and the given upcalls
arrive during the wait. -/
def sample_connect_env (handle : Nat) (events : List rdma_cm_event) : connect_env :=
  { qp := { rc := 0, qp := 20 + handle },
    recreate := sample_recreate_env handle,
    reconnect := { disconnect := sample_disconnect_env,
                   id := sample_create_id_env handle,
                   qp := { rc := 0, qp := 20 + handle } },
    rdma_connect_rc := 0,
    events := events,
    extra_recv := fun _ => { ib_dma_mapping_error := false, ib_post_recv_rc := 0 } }

/-- A pass whose connect request the peer rejects as a stale connection. -/
def sample_stale_env (handle : Nat) : connect_env :=
  sample_connect_env handle
    [sample_event rdma_cm_event_type.RDMA_CM_EVENT_REJECTED upstream_h.IB_CM_REJ_STALE_CONN]

/-- A pass whose connect request is answered by `ESTABLISHED`. -/
def sample_established_env (handle : Nat) : connect_env :=
  sample_connect_env handle [sample_event rdma_cm_event_type.RDMA_CM_EVENT_ESTABLISHED 0]

/-- The filled pool of `sample_pool` on a transport whose connection was
established and then disconnected (`rep_connected = -ECONNABORTED`). -/
def sample_disconnected : rpcrdma_xprt :=
  { sample_pool with rx_ep := { sample_pool.rx_ep with rep_connected := -ECONNABORTED } }

/-- A fill of the region pool in which the third `ro_init_mr` fails. -/
def sample_fill_env : create_mrs_env :=
  { kzalloc_ok := fun _ => true, ro_init_mr := fun i => if i = 2 then - ENOMEM else 0 }

/-- The header with the module parameter `xprt_rdma_memreg_strategy` set to
`RPCRDMA_MTHCAFMR`. -/
def mthcafmr_h : xprt_rdma_h :=
  { upstream_h with xprt_rdma_memreg_strategy := upstream_h.RPCRDMA_MTHCAFMR }

/-- The header with the module parameter `xprt_rdma_memreg_strategy` set to 0,
which is neither `RPCRDMA_FRMR` nor `RPCRDMA_MTHCAFMR`. -/
def bounce_h : xprt_rdma_h :=
  { upstream_h with xprt_rdma_memreg_strategy := 0 }

/-- An open of the adapter in which every step succeeds, on a device that
supports both FRWR and FMR. -/
def sample_ia_open_env : ia_open_env :=
  { id := sample_create_id_env 4, ib_alloc_pd := Except.ok 6,
    frwr_is_supported := true, fmr_is_supported := true }

/-- The open of `sample_ia_open_env` on a device that supports neither FRWR nor
FMR. -/
def sample_unsupported_env : ia_open_env :=
  { sample_ia_open_env with frwr_is_supported := false, fmr_is_supported := false }

/-- A provider that accepts the request to resolve the address and then stays
silent: the bounded wait expires (returns 0) without any upcall. -/
def sample_addr_timeout_id_env : create_id_env :=
  { sample_create_id_env 4 with addr_wait := 0, addr_events := [] }

/-- An open of the adapter whose address resolution runs into the timeout. -/
def sample_addr_timeout_env : ia_open_env :=
  { sample_ia_open_env with id := sample_addr_timeout_id_env }

/-- A provider whose address resolution ends with the upcall `ADDR_ERROR`. -/
def sample_addr_error_id_env : create_id_env :=
  { sample_create_id_env 4 with
    addr_events := [sample_event rdma_cm_event_type.RDMA_CM_EVENT_ADDR_ERROR (-1)] }

/-- An open of the adapter whose address resolution ends with `ADDR_ERROR`. -/
def sample_addr_error_env : ia_open_env :=
  { sample_ia_open_env with id := sample_addr_error_id_env }

/-- An allocator that has no memory for the first request of the pool. -/
def sample_req_fail_env : buffer_create_env :=
  { buffer_create_env_ok with req_kzalloc_ok := fun _ => false }

/-- An allocator that has no memory for the second reply of the pool. -/
def sample_rep_fail_env : buffer_create_env :=
  { buffer_create_env_ok with rep_kzalloc_ok := fun i => decide (i < 1) }

/-- Whether a provider call destroys an identifier or a queue pair. -/
def is_destroy_call : provider_call → Bool
  | provider_call.rdma_destroy_id _ => true
  | provider_call.rdma_destroy_qp _ => true
  | _ => false

/-- The destructions of identifiers and queue pairs in a log of provider
calls, in order. -/
def destroy_calls (cs : List provider_call) : List provider_call :=
  cs.filter is_destroy_call

/-- A reconnect whose new identifier is bound to device 8, not to device 7 of
the adapter. -/
def sample_other_device_env : reconnect_env :=
  { disconnect := sample_disconnect_env,
    id := { sample_create_id_env 4 with device := some 8 },
    qp := { rc := 0, qp := 24 } }

/-- A reconnect in which `rdma_create_qp` on the new identifier fails. -/
def sample_qp_fails_env : reconnect_env :=
  { disconnect := sample_disconnect_env,
    id := sample_create_id_env 4,
    qp := { rc := - ENOMEM, qp := 24 } }

/-- A reconnect in which every step succeeds. -/
def sample_reconnect_env : reconnect_env :=
  { disconnect := sample_disconnect_env,
    id := sample_create_id_env 4,
    qp := { rc := 0, qp := 24 } }

/-- The sample pool with no region handed out. -/
def sample_mw_run : mw_run :=
  { xprt := sample_pool, held := [] }

/-- A caller acquires a region (region 31 of the sample pool), marks it stale,
and the recovery worker makes one pass through its loop. -/
def sample_mw_calls : List mw_call :=
  [mw_call.get, mw_call.defer 31, mw_call.recover]

/-- A device that offers 8 work-queue entries, no more than the backchannel
reservation. -/
def sample_small_device_env : ep_create_env :=
  { (sample_recreate_env 4).ep_create with
    attrs := { max_sge := 30, max_qp_wr := 8, max_qp_rd_atom := 16 } }

/-- A device that offers 13 work-queue entries: room for 4 requests. -/
def sample_tight_device_env : ep_create_env :=
  { (sample_recreate_env 4).ep_create with
    attrs := { max_sge := 30, max_qp_wr := 13, max_qp_rd_atom := 16 } }

/-- The open adapter of `sample_open_xprt`, configured for 32 requests. -/
def sample_open_32 : rpcrdma_xprt :=
  { sample_open_xprt with
    rx_data := { max_requests := 32, inline_rsize := 16, inline_wsize := 16 } }

/-- Whether a provider call is one of the three the recovery worker makes
around a region: taking or dropping `rb_recovery_lock`, or `ro_recover_mr`. -/
def is_recovery_call : provider_call → Bool
  | provider_call.spin_lock_rb_recovery_lock => true
  | provider_call.spin_unlock_rb_recovery_lock => true
  | provider_call.ro_recover_mr _ => true
  | _ => false

/-- The regions on which a log of provider calls invokes `ro_recover_mr`, in
order. -/
def recovered : List provider_call → List ptr
  | [] => []
  | provider_call.ro_recover_mr mw :: cs => mw :: recovered cs
  | _ :: cs => recovered cs

/-- Walk a log of provider calls with the state of `rb_recovery_lock` (`true`:
held): the state at the end, or `none` when the lock is taken while held,
dropped while not held, or `ro_recover_mr` is invoked while it is held. -/
def lock_walk : Bool → List provider_call → Option Bool
  | held, [] => some held
  | held, provider_call.spin_lock_rb_recovery_lock :: cs =>
    if held then none else lock_walk true cs
  | held, provider_call.spin_unlock_rb_recovery_lock :: cs =>
    if held then lock_walk false cs else none
  | held, provider_call.ro_recover_mr _ :: cs =>
    if held then none else lock_walk false cs
  | held, _ :: cs => lock_walk held cs

/-- What "no region is marked stale while the worker runs" asks of a
strategy's `ro_recover_mr`: it leaves the stale list alone, and the calls it
makes itself touch neither `rb_recovery_lock` nor `ro_recover_mr`. -/
def ro_recover_mr_quiet (ro_recover_mr : ptr → rpcrdma_xprt → rpcrdma_xprt) : Prop :=
  ∀ mw x,
    (ro_recover_mr mw x).rx_buf.rb_stale_mrs = x.rx_buf.rb_stale_mrs ∧
    ∃ cs, (ro_recover_mr mw x).calls = x.calls ++ cs ∧
      ∀ c, c ∈ cs → is_recovery_call c = false

/-- The sample pool with the regions 5, 9 and 2 on the stale list. -/
def sample_stale : rpcrdma_xprt :=
  { sample_pool with rx_buf := { sample_pool.rx_buf with rb_stale_mrs := [5, 9, 2] } }

/-- The fresh sample pool with both counters set to `INT_MAX`. -/
def sample_pool_int_max : rpcrdma_xprt :=
  { sample_pool with
    rx_buf := { sample_pool.rx_buf with
      rb_send_count := 2147483647, rb_recv_count := 2147483647 } }

/-- Bookkeeping of a pool in use: the free requests and the held ones are
pairwise distinct live objects, there are fewer than `2 ^ 31` of them,
`rb_send_count` counts the held requests and `rb_recv_count` those of them
that carry a reply. -/
def pool_inv (s : pool_run) : Prop :=
  (s.xprt.rx_buf.rb_send_bufs ++ s.held).Nodup ∧
  s.xprt.rx_buf.rb_send_bufs.length + s.held.length < 2 ^ 31 ∧
  (∀ p ∈ s.xprt.rx_buf.rb_send_bufs ++ s.held, p < s.xprt.req_mem.length) ∧
  s.xprt.rx_buf.rb_send_count = (s.held.length : Int) ∧
  s.xprt.rx_buf.rb_recv_count =
    ((s.held.countP (fun p => (req_at s.xprt p).rl_reply.isSome) : Nat) : Int)

end xprtrdma

/-! # Timer arithmetic (arch/tile/kernel/time.c) -/

namespace tile_time

/-- The fields of `struct clock_event_device` that `ns2cycles` reads, `u32`
both. -/
structure clock_event_device where
  mult : Nat
  shift : Nat
deriving DecidableEq, Repr

/-- The function `ns2cycles`, on the per-cpu `tile_timer` it reads.  `nsecs` is
an `unsigned long`, taken as 64 bits wide, the intermediate values are `u64`
and so is the result (`cycles_t`).  A `shift` of 64 or more is undefined
behaviour in C; the theorems assume a smaller one. -/
def ns2cycles (dev : clock_event_device) (nsecs : Nat) : Nat :=
  let quot := (nsecs % 2 ^ 64) >>> dev.shift
  let rem := (nsecs % 2 ^ 64) &&& (((1 <<< dev.shift) % 2 ^ 64 + 2 ^ 64 - 1) % 2 ^ 64)
  ((quot * dev.mult) % 2 ^ 64 + ((rem * dev.mult) % 2 ^ 64) >>> dev.shift) % 2 ^ 64

/-- A timer with `mult = 3` and `shift = 1`. -/
def sample_dev : clock_event_device :=
  { mult := 3, shift := 1 }

/-- A timer with `mult = 1288490189` and `shift = 32` (300 MHz). -/
def sample_tile_dev : clock_event_device :=
  { mult := 1288490189, shift := 32 }

end tile_time

/-! # EDID aspect ratio (drivers/media/v4l2-core/v4l2-dv-timings.c) -/

namespace v4l2_dv_timings

/-- The `struct v4l2_fract`, two `__u32`. -/
structure v4l2_fract where
  numerator : Nat
  denominator : Nat
deriving DecidableEq, Repr

/-- The function `v4l2_calc_aspect_ratio`; the two arguments are converted to
`u8` on entry. -/
def v4l2_calc_aspect_ratio (hor_landscape vert_portrait : Nat) : v4l2_fract :=
  let hor := hor_landscape % 256
  let vert := vert_portrait % 256
  if hor = 0 ∧ vert = 0 then { numerator := 16, denominator := 9 }
  else if hor ≠ 0 ∧ vert ≠ 0 then { numerator := hor, denominator := vert }
  else
    let ratio := (hor ||| vert) % 256
    let aspect : v4l2_fract :=
      if ratio = 79 then { numerator := 16, denominator := 9 }
      else if ratio = 34 then { numerator := 4, denominator := 3 }
      else if ratio = 68 then { numerator := 15, denominator := 9 }
      else { numerator := hor + 99, denominator := 100 }
    if hor ≠ 0 then aspect
    else { numerator := aspect.denominator, denominator := aspect.numerator }

end v4l2_dv_timings

/-! # Generic actions (net/sched/act_gact.c) -/

namespace act_gact

/-- The errno `EINVAL`. -/
def EINVAL : Int := 22

/-- The errno `EEXIST`. -/
def EEXIST : Int := 17

/-- Constants of headers that are not among the sources: `MAX_RAND` of
linux/tc_act/tc_gact.h and `ACT_P_CREATED` of net/act_api.h. -/
structure gact_h where
  MAX_RAND : Nat
  ACT_P_CREATED : Int

/-- The values of the constants upstream. -/
def upstream_h : gact_h :=
  { MAX_RAND := 3, ACT_P_CREATED := 1 }

/-- The field of `struct tc_gact` (the attribute `TCA_GACT_PARMS`) that
`tcf_gact_init` stores. -/
structure tc_gact where
  action : Int
deriving DecidableEq, Repr

/-- The `struct tc_gact_p` (the attribute `TCA_GACT_PROB`): two `__u16` and an
`int`. -/
structure tc_gact_p where
  ptype : Nat
  pval : Nat
  paction : Int
deriving DecidableEq, Repr

/-- The fields of `struct tcf_gact` that `act_gact.c` reads and writes:
`tcfg_ptype` and `tcfg_pval` are `u16`, `packets` is the content of the
`atomic_t`. -/
structure struct_tcf_gact where
  tcf_action : Int
  tcfg_ptype : Nat
  tcfg_pval : Nat
  tcfg_paction : Int
  packets : Nat
deriving DecidableEq, Repr

/-- What `nla_parse_nested` makes of the attribute `nla`: its return code and
the two entries of `tb` that `tcf_gact_init` looks at. -/
structure gact_attrs where
  err : Int
  parms : Option tc_gact
  prob : Option tc_gact_p
deriving DecidableEq, Repr

/-- Answers of the action table to one `tcf_gact_init`: the action that
`tcf_idr_check` finds (`none`: it finds none), and the return code of
`tcf_idr_create` with the action it hands out. -/
structure idr_env where
  found : Option struct_tcf_gact
  create_rc : Int
  created : struct_tcf_gact
deriving DecidableEq, Repr

/-- The stores of `tcf_gact_init` into the action, in program order: the state
of the action after each of them.  `tcfg_pval` is written before `tcfg_ptype`
(`smp_wmb`); `max_t(u16, 1, pval)` compares the two values as `u16`. -/
def tcf_gact_init_stores (parm : tc_gact) (p_parm : Option tc_gact_p) (gact : struct_tcf_gact) :
    List struct_tcf_gact :=
  let g1 := { gact with tcf_action := parm.action }
  match p_parm with
  | none => [g1]
  | some p =>
    let g2 := { g1 with tcfg_paction := p.paction }
    let g3 := { g2 with tcfg_pval := max 1 (p.pval % 2 ^ 16) }
    let g4 := { g3 with tcfg_ptype := p.ptype % 2 ^ 16 }
    [g1, g2, g3, g4]

/-- The function `tcf_gact_init` with `CONFIG_GACT_PROB` set: its return value
and the action `*a` afterwards (`none` when there is no action), `nla` being
`none` for a NULL attribute. -/
def tcf_gact_init (h : gact_h) (nla : Option gact_attrs) (e : idr_env) (ovr bind : Int) :
    Int × Option struct_tcf_gact :=
  match nla with
  | none => (-EINVAL, e.found)
  | some tb =>
    if tb.err < 0 then (tb.err, e.found)
    else
      match tb.parms with
      | none => (-EINVAL, e.found)
      | some parm =>
        let bad_ptype : Bool :=
          match tb.prob with
          | some p => decide (p.ptype ≥ h.MAX_RAND)
          | none => false
        if bad_ptype then (-EINVAL, e.found)
        else
          match e.found with
          | none =>
            if e.create_rc ≠ 0 then (e.create_rc, none)
            else
              (h.ACT_P_CREATED,
               (tcf_gact_init_stores parm tb.prob e.created).getLast?)
          | some gact =>
            if bind ≠ 0 then (0, some gact)
            else if ovr = 0 then (-EEXIST, some gact)
            else (0, (tcf_gact_init_stores parm tb.prob gact).getLast?)

/-- How a call of `tcf_gact` can go wrong in the probability code: a modulo by
a zero `tcfg_pval`, or a call through an entry of `gact_rand` that holds no
function. -/
inductive gact_fault where
  | division_by_zero
  | no_function
deriving DecidableEq, Repr

/-- The function `gact_net_rand`; `prandom` is the value of `prandom_u32()`. -/
def gact_net_rand (prandom : Nat) (gact : struct_tcf_gact) : Except gact_fault Int :=
  if gact.tcfg_pval = 0 then Except.error gact_fault.division_by_zero
  else if prandom % gact.tcfg_pval ≠ 0 then Except.ok gact.tcf_action
  else Except.ok gact.tcfg_paction

/-- The function `gact_determ`: its result and the action afterwards. -/
def gact_determ (gact : struct_tcf_gact) : Except gact_fault Int × struct_tcf_gact :=
  let pack := (gact.packets + 1) % 2 ^ 32
  let g1 := { gact with packets := pack }
  if g1.tcfg_pval = 0 then (Except.error gact_fault.division_by_zero, g1)
  else if pack % g1.tcfg_pval ≠ 0 then (Except.ok g1.tcf_action, g1)
  else (Except.ok g1.tcfg_paction, g1)

/-- The function `tcf_gact` with `CONFIG_GACT_PROB` set, as far as the action
it returns goes (the statistics it updates are left out): `gact_rand` is the
table `{ NULL, gact_net_rand, gact_determ }`. -/
def tcf_gact (prandom : Nat) (gact : struct_tcf_gact) : Except gact_fault Int × struct_tcf_gact :=
  if gact.tcfg_ptype ≠ 0 then
    if gact.tcfg_ptype = 1 then (gact_net_rand prandom gact, gact)
    else if gact.tcfg_ptype = 2 then gact_determ gact
    else (Except.error gact_fault.no_function, gact)
  else (Except.ok gact.tcf_action, gact)

/-- The modulo of the probability code is safe on an action: a non-zero
`tcfg_ptype` comes with a `tcfg_pval` of at least 1. -/
def gact_ok (gact : struct_tcf_gact) : Prop :=
  gact.tcfg_ptype ≠ 0 → 1 ≤ gact.tcfg_pval

/-- A `kzalloc`ed action, as `tcf_idr_create` is taken to hand it out. -/
def tcf_gact_zero : struct_tcf_gact :=
  { tcf_action := 0, tcfg_ptype := 0, tcfg_pval := 0, tcfg_paction := 0, packets := 0 }

/-- An action with `tcfg_ptype = 2`, `tcfg_pval = 5`. -/
def sample_gact : struct_tcf_gact :=
  { tcf_action := 0, tcfg_ptype := 2, tcfg_pval := 5, tcfg_paction := 2, packets := 0 }

/-- Attributes that supply probability parameters with `pval = 7`. -/
def sample_attrs : gact_attrs :=
  { err := 0, parms := some { action := 1 },
    prob := some { ptype := 1, pval := 7, paction := 2 } }

/-- Attributes that supply probability parameters with `pval = 0`. -/
def sample_attrs_zero : gact_attrs :=
  { err := 0, parms := some { action := 1 },
    prob := some { ptype := 1, pval := 0, paction := 2 } }

end act_gact

namespace xprtrdma

/-! # Theorems -/

/-! ## C integers -/

theorem int_wrap_eq (v : Int) (h1 : -2 ^ 31 ≤ v) (h2 : v < 2 ^ 31) : int_wrap v = v := by
  unfold int_wrap to_s32 to_u32
  split_ifs with h <;> omega

theorem int_wrap_range (v : Int) : -2 ^ 31 ≤ int_wrap v ∧ int_wrap v < 2 ^ 31 := by
  unfold int_wrap to_s32 to_u32
  split_ifs with h <;> omega

theorem int_wrap_dec_inc (c : Int) (h1 : -2 ^ 31 ≤ c) (h2 : c < 2 ^ 31) :
    int_wrap (int_wrap (c + 1) - 1) = c := by
  unfold int_wrap to_s32 to_u32
  split_ifs <;> omega

/-! ## Pool creation -/

theorem create_mrs_loop_frame (e : create_mrs_env) (n count : Nat) (x : rpcrdma_xprt)
    (free all : List ptr) :
    (rpcrdma_create_mrs_loop e n count x free all).2.1.rx_buf = x.rx_buf ∧
    (rpcrdma_create_mrs_loop e n count x free all).2.1.req_mem = x.req_mem ∧
    (rpcrdma_create_mrs_loop e n count x free all).2.1.rep_mem = x.rep_mem ∧
    (rpcrdma_create_mrs_loop e n count x free all).2.1.rx_data = x.rx_data := by
  induction n generalizing count x free all with
  | zero => simp [rpcrdma_create_mrs_loop]
  | succ n ih =>
    unfold rpcrdma_create_mrs_loop
    by_cases h1 : e.kzalloc_ok count = true
    · by_cases h2 : e.ro_init_mr count = 0
      · simp only [h1, h2]
        simpa using ih (count + 1) _ _ _
      · simp [h1, h2]
    · simp [h1]

theorem create_mrs_frame (e : create_mrs_env) (x : rpcrdma_xprt) :
    (rpcrdma_create_mrs e x).rx_buf.rb_send_count = x.rx_buf.rb_send_count ∧
    (rpcrdma_create_mrs e x).rx_buf.rb_recv_count = x.rx_buf.rb_recv_count ∧
    (rpcrdma_create_mrs e x).rx_buf.rb_max_requests = x.rx_buf.rb_max_requests ∧
    (rpcrdma_create_mrs e x).req_mem = x.req_mem ∧
    (rpcrdma_create_mrs e x).rep_mem = x.rep_mem ∧
    (rpcrdma_create_mrs e x).rx_data = x.rx_data := by
  have h := create_mrs_loop_frame e 32 0 x [] []
  simp [rpcrdma_create_mrs, h.1, h.2.1, h.2.2.1, h.2.2.2]

theorem create_reqs_ok (e : buffer_create_env) (he : ∀ i, e.req_kzalloc_ok i = true)
    (n i : Nat) (x : rpcrdma_xprt) :
    (rpcrdma_buffer_create_reqs e n i x).1 = 0 ∧
    (rpcrdma_buffer_create_reqs e n i x).2.rx_buf.rb_send_bufs =
      (List.range' x.req_mem.length n).reverse ++ x.rx_buf.rb_send_bufs ∧
    (rpcrdma_buffer_create_reqs e n i x).2.req_mem.length = x.req_mem.length + n ∧
    (rpcrdma_buffer_create_reqs e n i x).2.rx_buf.rb_send_count = x.rx_buf.rb_send_count ∧
    (rpcrdma_buffer_create_reqs e n i x).2.rx_buf.rb_recv_count = x.rx_buf.rb_recv_count ∧
    (rpcrdma_buffer_create_reqs e n i x).2.rx_buf.rb_max_requests = x.rx_buf.rb_max_requests ∧
    (rpcrdma_buffer_create_reqs e n i x).2.rep_mem = x.rep_mem ∧
    (rpcrdma_buffer_create_reqs e n i x).2.rx_data = x.rx_data := by
  induction n generalizing i x with
  | zero => simp [rpcrdma_buffer_create_reqs]
  | succ n ih =>
    unfold rpcrdma_buffer_create_reqs
    simp only [rpcrdma_create_req, he, Bool.not_true, Bool.false_eq_true, if_false]
    obtain ⟨h1, h2, h3, h4, h5, h6, h7, h8⟩ := ih (i + 1)
      { x with
        req_mem := (x.req_mem ++ [rpcrdma_req_zero]).set x.req_mem.length
          { req_at { x with
              req_mem := x.req_mem ++ [rpcrdma_req_zero],
              rx_buf := { x.rx_buf with rb_allreqs := x.req_mem.length :: x.rx_buf.rb_allreqs } }
              x.req_mem.length with rl_backchannel := false },
        rx_buf := { x.rx_buf with
          rb_allreqs := x.req_mem.length :: x.rx_buf.rb_allreqs,
          rb_send_bufs := x.req_mem.length :: x.rx_buf.rb_send_bufs } }
    refine ⟨h1, ?_, ?_, h4, h5, h6, h7, h8⟩
    · rw [h2]
      simp [List.range'_succ]
    · rw [h3]
      simp
      omega

theorem create_reps_ok (e : buffer_create_env) (he1 : ∀ i, e.rep_kzalloc_ok i = true)
    (he2 : ∀ i, e.regbuf_kmalloc_ok i = true) (n i : Nat) (x : rpcrdma_xprt) :
    (rpcrdma_buffer_create_reps e n i x).1 = 0 ∧
    (rpcrdma_buffer_create_reps e n i x).2.rx_buf.rb_recv_bufs =
      (List.range' x.rep_mem.length n).reverse ++ x.rx_buf.rb_recv_bufs ∧
    (rpcrdma_buffer_create_reps e n i x).2.rx_buf.rb_send_bufs = x.rx_buf.rb_send_bufs ∧
    (rpcrdma_buffer_create_reps e n i x).2.req_mem = x.req_mem ∧
    (rpcrdma_buffer_create_reps e n i x).2.rx_buf.rb_send_count = x.rx_buf.rb_send_count ∧
    (rpcrdma_buffer_create_reps e n i x).2.rx_buf.rb_recv_count = x.rx_buf.rb_recv_count ∧
    (rpcrdma_buffer_create_reps e n i x).2.rx_buf.rb_max_requests = x.rx_buf.rb_max_requests := by
  induction n generalizing i x with
  | zero => simp [rpcrdma_buffer_create_reps]
  | succ n ih =>
    unfold rpcrdma_buffer_create_reps
    simp only [rpcrdma_create_rep, he1, he2, Bool.not_true, Bool.false_eq_true, if_false,
      ne_eq, not_true_eq_false]
    obtain ⟨h1, h2, h3, h4, h5, h6, h7⟩ := ih (i + 1)
      { x with
        rep_mem := x.rep_mem ++ [{ rpcrdma_rep_zero with
          rr_rdmabuf := some (rpcrdma_alloc_regbuf x.rx_data.inline_rsize
            dma_data_direction.DMA_FROM_DEVICE) }],
        rx_buf := { x.rx_buf with rb_recv_bufs := x.rep_mem.length :: x.rx_buf.rb_recv_bufs } }
    refine ⟨h1, ?_, h3, h4, h5, h6, h7⟩
    rw [h2]
    simp [List.range'_succ]

/-- What `rpcrdma_buffer_create` leaves behind when no request, reply or regbuf
allocation fails (the fill of the memory regions may stop early). -/
theorem buffer_create_ok (e : buffer_create_env) (x : rpcrdma_xprt)
    (hreq : ∀ i, e.req_kzalloc_ok i = true) (hrep : ∀ i, e.rep_kzalloc_ok i = true)
    (hrb : ∀ i, e.regbuf_kmalloc_ok i = true)
    (hmax : x.rx_data.max_requests < 2 ^ 32 - 1) :
    ∃ y, rpcrdma_buffer_create e x = some (0, y) ∧
    y.rx_buf.rb_send_bufs =
      (List.range' x.req_mem.length x.rx_data.max_requests).reverse ∧
    y.rx_buf.rb_recv_bufs =
      (List.range' x.rep_mem.length (x.rx_data.max_requests + 1)).reverse ∧
    y.req_mem.length = x.req_mem.length + x.rx_data.max_requests ∧
    y.rx_buf.rb_send_count = x.rx_buf.rb_send_count ∧
    y.rx_buf.rb_recv_count = x.rx_buf.rb_recv_count ∧
    y.rx_buf.rb_max_requests = x.rx_data.max_requests := by
  have F1 := fun y => (create_mrs_frame e.mrs y).1
  have F2 := fun y => (create_mrs_frame e.mrs y).2.1
  have F3 := fun y => (create_mrs_frame e.mrs y).2.2.1
  have F4 := fun y => (create_mrs_frame e.mrs y).2.2.2.1
  have F5 := fun y => (create_mrs_frame e.mrs y).2.2.2.2.1
  have Q1 := fun n i y => (create_reqs_ok e hreq n i y).1
  have Q2 := fun n i y => (create_reqs_ok e hreq n i y).2.1
  have Q3 := fun n i y => (create_reqs_ok e hreq n i y).2.2.1
  have Q4 := fun n i y => (create_reqs_ok e hreq n i y).2.2.2.1
  have Q5 := fun n i y => (create_reqs_ok e hreq n i y).2.2.2.2.1
  have Q6 := fun n i y => (create_reqs_ok e hreq n i y).2.2.2.2.2.1
  have Q7 := fun n i y => (create_reqs_ok e hreq n i y).2.2.2.2.2.2.1
  have R1 := fun n i y => (create_reps_ok e hrep hrb n i y).1
  have R2 := fun n i y => (create_reps_ok e hrep hrb n i y).2.1
  have R3 := fun n i y => (create_reps_ok e hrep hrb n i y).2.2.1
  have R4 := fun n i y => (create_reps_ok e hrep hrb n i y).2.2.2.1
  have R5 := fun n i y => (create_reps_ok e hrep hrb n i y).2.2.2.2.1
  have R6 := fun n i y => (create_reps_ok e hrep hrb n i y).2.2.2.2.2.1
  have R7 := fun n i y => (create_reps_ok e hrep hrb n i y).2.2.2.2.2.2
  unfold rpcrdma_buffer_create
  simp only [Q1, R1, Q6, F3, ne_eq, not_true_eq_false, if_false]
  rw [if_neg (by omega)]
  refine ⟨_, rfl, ?_⟩
  simp [Q2, Q3, Q4, Q5, Q6, Q7, R2, R3, R4, R5, R6, R7, F1, F2, F3, F4, F5]

/-- With `max_requests = 0xffffffff` (or a value no `u32` holds) and no failed
allocation `rpcrdma_buffer_create` does not return: its second loop cannot
end. -/
theorem buffer_create_no_return (e : buffer_create_env) (x : rpcrdma_xprt)
    (hreq : ∀ i, e.req_kzalloc_ok i = true) (hrep : ∀ i, e.rep_kzalloc_ok i = true)
    (hrb : ∀ i, e.regbuf_kmalloc_ok i = true)
    (hmax : 2 ^ 32 - 1 ≤ x.rx_data.max_requests) :
    rpcrdma_buffer_create e x = none := by
  have F3 := fun y => (create_mrs_frame e.mrs y).2.2.1
  have Q1 := fun n i y => (create_reqs_ok e hreq n i y).1
  have Q6 := fun n i y => (create_reqs_ok e hreq n i y).2.2.2.2.2.1
  have R1 := fun n i y => (create_reps_ok e hrep hrb n i y).1
  unfold rpcrdma_buffer_create
  simp only [Q1, R1, Q6, F3, ne_eq, not_true_eq_false, if_false]
  rw [if_pos (by omega)]

/-! ## Pool get and put -/

theorem buffer_get_rep_frame (b : rpcrdma_buffer) :
    (rpcrdma_buffer_get_rep b).2.rb_send_bufs = b.rb_send_bufs ∧
    (rpcrdma_buffer_get_rep b).2.rb_send_count = b.rb_send_count ∧
    (rpcrdma_buffer_get_rep b).2.rb_recv_count =
      (if (rpcrdma_buffer_get_rep b).1.isSome then int_wrap (b.rb_recv_count + 1)
       else b.rb_recv_count) := by
  unfold rpcrdma_buffer_get_rep
  by_cases h1 : b.rb_send_count < b.rb_recv_count
  · simp [h1]
  · cases h2 : b.rb_recv_bufs with
    | nil => simp [h1, h2]
    | cons rep rest => simp [h1, h2, rpcrdma_buffer_get_rep_locked]

theorem buffer_get_nil (x : rpcrdma_xprt) (h : x.rx_buf.rb_send_bufs = []) :
    rpcrdma_buffer_get x = (none, x) := by
  simp [rpcrdma_buffer_get, h]

theorem buffer_get_cons (x : rpcrdma_xprt) (r : ptr) (rest : List ptr)
    (h : x.rx_buf.rb_send_bufs = r :: rest) :
    rpcrdma_buffer_get x =
      (some r,
       set_rl_reply
         { x with rx_buf := (rpcrdma_buffer_get_rep { x.rx_buf with
             rb_send_count := int_wrap (x.rx_buf.rb_send_count + 1),
             rb_send_bufs := rest }).2 }
         r
         (rpcrdma_buffer_get_rep { x.rx_buf with
             rb_send_count := int_wrap (x.rx_buf.rb_send_count + 1),
             rb_send_bufs := rest }).1) := by
  simp [rpcrdma_buffer_get, h, rpcrdma_buffer_get_req_locked]

theorem buffer_get_cons_bufs (x : rpcrdma_xprt) (r : ptr) (rest : List ptr)
    (h : x.rx_buf.rb_send_bufs = r :: rest) :
    (rpcrdma_buffer_get x).1 = some r ∧
    (rpcrdma_buffer_get x).2.rx_buf.rb_send_bufs = rest := by
  rw [buffer_get_cons x r rest h]
  simp [set_rl_reply, (buffer_get_rep_frame _).1]

theorem buffer_put_bufs (x : rpcrdma_xprt) (req : ptr) :
    (rpcrdma_buffer_put x req).rx_buf.rb_send_bufs = x.rx_buf.rb_send_bufs ++ [req] := by
  unfold rpcrdma_buffer_put
  cases (req_at x req).rl_reply <;> simp

theorem buffer_get_n_take (n : Nat) (x : rpcrdma_xprt) (h : n ≤ x.rx_buf.rb_send_bufs.length) :
    (rpcrdma_buffer_get_n n x).1 = (x.rx_buf.rb_send_bufs.take n).map some ∧
    (rpcrdma_buffer_get_n n x).2.rx_buf.rb_send_bufs = x.rx_buf.rb_send_bufs.drop n := by
  induction n generalizing x with
  | zero => simp [rpcrdma_buffer_get_n]
  | succ n ih =>
    cases hl : x.rx_buf.rb_send_bufs with
    | nil => simp [hl] at h
    | cons r rest =>
      obtain ⟨g1, g2⟩ := buffer_get_cons_bufs x r rest hl
      have hn : n ≤ (rpcrdma_buffer_get x).2.rx_buf.rb_send_bufs.length := by
        rw [g2]; simp [hl] at h; exact h
      obtain ⟨i1, i2⟩ := ih (rpcrdma_buffer_get x).2 hn
      simp only [rpcrdma_buffer_get_n, i1, i2, g1, g2]
      simp

/-- C3 (reply spare invariant).  Let no request, reply or regbuf allocation
fail.  For every `max_requests = N` below `0xffffffff`, `rpcrdma_buffer_create`
returns 0 and leaves exactly `N` distinct requests on `rb_send_bufs` and
exactly `N + 1` distinct replies on `rb_recv_bufs`.  For `N = 0xffffffff`, the
one remaining value of the `unsigned int`, it does not return: the loop test
`i <= buf->rb_max_requests` cannot fail.  So whenever the function has
returned, the two free lists hold `N` and `N + 1` buffers. -/
theorem reply_spare_after_create (e : buffer_create_env) (x : rpcrdma_xprt)
    (hreq : ∀ i, e.req_kzalloc_ok i = true) (hrep : ∀ i, e.rep_kzalloc_ok i = true)
    (hrb : ∀ i, e.regbuf_kmalloc_ok i = true) :
    (x.rx_data.max_requests < 2 ^ 32 - 1 →
      ∃ y, rpcrdma_buffer_create e x = some (0, y) ∧
      y.rx_buf.rb_send_bufs.length = x.rx_data.max_requests ∧
      y.rx_buf.rb_send_bufs.Nodup ∧
      y.rx_buf.rb_recv_bufs.length = x.rx_data.max_requests + 1 ∧
      y.rx_buf.rb_recv_bufs.Nodup) ∧
    (x.rx_data.max_requests = 2 ^ 32 - 1 → rpcrdma_buffer_create e x = none) ∧
    (∀ rc y, rpcrdma_buffer_create e x = some (rc, y) →
      rc = 0 ∧
      y.rx_buf.rb_send_bufs.length = x.rx_data.max_requests ∧
      y.rx_buf.rb_recv_bufs.length = x.rx_data.max_requests + 1) := by
  have key : x.rx_data.max_requests < 2 ^ 32 - 1 →
      ∃ y, rpcrdma_buffer_create e x = some (0, y) ∧
      y.rx_buf.rb_send_bufs.length = x.rx_data.max_requests ∧
      y.rx_buf.rb_send_bufs.Nodup ∧
      y.rx_buf.rb_recv_bufs.length = x.rx_data.max_requests + 1 ∧
      y.rx_buf.rb_recv_bufs.Nodup := by
    intro hmax
    obtain ⟨y, h1, h2, h3, -⟩ := buffer_create_ok e x hreq hrep hrb hmax
    refine ⟨y, h1, ?_, ?_, ?_, ?_⟩
    · rw [h2, List.length_reverse, List.length_range']
    · rw [h2]; exact List.nodup_reverse.mpr (List.nodup_range' _ _)
    · rw [h3, List.length_reverse, List.length_range']
    · rw [h3]; exact List.nodup_reverse.mpr (List.nodup_range' _ _)
  refine ⟨key, ?_, ?_⟩
  · intro hmax
    exact buffer_create_no_return e x hreq hrep hrb (le_of_eq hmax.symm)
  · intro rc y hy
    by_cases hmax : x.rx_data.max_requests < 2 ^ 32 - 1
    · obtain ⟨y1, h1, h2, -, h4, -⟩ := key hmax
      rw [h1, Option.some.injEq, Prod.mk.injEq] at hy
      obtain ⟨hrc, hyy⟩ := hy
      subst hyy
      exact ⟨hrc.symm, h2, h4⟩
    · rw [buffer_create_no_return e x hreq hrep hrb (by omega)] at hy
      exact absurd hy (by simp)

/-- A zero-filled transport configured for three requests. -/
theorem reply_spare_after_create_witness :
    ∃ y, rpcrdma_buffer_create buffer_create_env_ok (sample_xprt 3 8 8) = some (0, y) ∧
      y.rx_buf.rb_send_bufs.length = 3 ∧ y.rx_buf.rb_recv_bufs.length = 4 := by
  obtain ⟨y, h1, h2, -, h4, -⟩ := (reply_spare_after_create buffer_create_env_ok
    (sample_xprt 3 8 8) (fun _ => rfl) (fun _ => rfl) (fun _ => rfl)).1 (by decide)
  exact ⟨y, h1, h2, h4⟩

/-- C2 (pool exhaustion).  After `rpcrdma_buffer_create` with no failed
allocation and `max_requests = N`, the first `N` calls of `rpcrdma_buffer_get`
all return a request, the call after them returns NULL and changes nothing, and
once any one of the acquired requests is put back the next call returns a
request (that very one).  `N` is any value below `0xffffffff`; with
`0xffffffff` the creation does not return, so there is no pool to exhaust. -/
theorem pool_exhaustion (e : buffer_create_env) (x : rpcrdma_xprt)
    (hreq : ∀ i, e.req_kzalloc_ok i = true) (hrep : ∀ i, e.rep_kzalloc_ok i = true)
    (hrb : ∀ i, e.regbuf_kmalloc_ok i = true)
    (hmax : x.rx_data.max_requests < 2 ^ 32 - 1) :
    ∃ y, rpcrdma_buffer_create e x = some (0, y) ∧
    (rpcrdma_buffer_get_n x.rx_data.max_requests y).1.length = x.rx_data.max_requests ∧
    (∀ r ∈ (rpcrdma_buffer_get_n x.rx_data.max_requests y).1, r ≠ none) ∧
    rpcrdma_buffer_get (rpcrdma_buffer_get_n x.rx_data.max_requests y).2
      = (none, (rpcrdma_buffer_get_n x.rx_data.max_requests y).2) ∧
    (∀ req,
      some req ∈ (rpcrdma_buffer_get_n x.rx_data.max_requests y).1 →
      (rpcrdma_buffer_get (rpcrdma_buffer_put
        (rpcrdma_buffer_get (rpcrdma_buffer_get_n x.rx_data.max_requests y).2).2
        req)).1 = some req) := by
  obtain ⟨y, hy, hbufs, -⟩ := buffer_create_ok e x hreq hrep hrb hmax
  have hlen : y.rx_buf.rb_send_bufs.length = x.rx_data.max_requests := by
    rw [hbufs]; simp
  obtain ⟨t1, t2⟩ := buffer_get_n_take x.rx_data.max_requests y (le_of_eq hlen.symm)
  have hd : (rpcrdma_buffer_get_n x.rx_data.max_requests y).2.rx_buf.rb_send_bufs = [] := by
    rw [t2]; exact List.drop_eq_nil_of_le (le_of_eq hlen)
  have hg := buffer_get_nil _ hd
  refine ⟨y, hy, ?_, ?_, hg, ?_⟩
  · rw [t1]; simp [hlen]
  · intro r hr
    rw [t1] at hr
    obtain ⟨a, -, ha⟩ := List.mem_map.mp hr
    rw [← ha]; simp
  · intro req _
    rw [hg]
    have hp := buffer_put_bufs (rpcrdma_buffer_get_n x.rx_data.max_requests y).2 req
    rw [hd] at hp
    exact (buffer_get_cons_bufs _ req [] (by simpa using hp)).1

/-- A zero-filled transport configured for two requests: both are handed out,
the third call fails, and after putting request 0 back the next call hands it
out again. -/
theorem pool_exhaustion_witness :
    ∃ y, rpcrdma_buffer_create buffer_create_env_ok (sample_xprt 2 8 8) = some (0, y) ∧
      rpcrdma_buffer_get (rpcrdma_buffer_get_n 2 y).2 = (none, (rpcrdma_buffer_get_n 2 y).2) ∧
      (rpcrdma_buffer_get (rpcrdma_buffer_put
        (rpcrdma_buffer_get (rpcrdma_buffer_get_n 2 y).2).2 0)).1 = some 0 := by
  obtain ⟨y, h1, -, -, h4, h5⟩ := pool_exhaustion buffer_create_env_ok
    (sample_xprt 2 8 8) (fun _ => rfl) (fun _ => rfl) (fun _ => rfl) (by decide)
  refine ⟨y, h1, h4, h5 0 ?_⟩
  have hm : (rpcrdma_buffer_create buffer_create_env_ok (sample_xprt 2 8 8)).map
      (fun r => decide (some 0 ∈ (rpcrdma_buffer_get_n 2 r.2).1)) = some true := by decide
  rw [h1] at hm
  simpa using hm

/-! ## Backpressure -/

theorem req_at_set_rl_reply_ne (y : rpcrdma_xprt) (r p : ptr) (v : Option ptr) (h : p ≠ r) :
    req_at (set_rl_reply y r v) p = req_at y p := by
  simp [req_at, set_rl_reply, List.getD_eq_getElem?_getD, List.getElem?_set, Ne.symm h]

theorem req_at_set_rl_reply_eq (y : rpcrdma_xprt) (r : ptr) (v : Option ptr)
    (h : r < y.req_mem.length) :
    (req_at (set_rl_reply y r v) r).rl_reply = v := by
  simp [req_at, set_rl_reply, List.getD_eq_getElem?_getD, List.getElem?_set, h]

theorem buffer_get_cons_facts (x : rpcrdma_xprt) (r : ptr) (rest : List ptr)
    (h : x.rx_buf.rb_send_bufs = r :: rest) (hr : r < x.req_mem.length) :
    ∃ (v : Option ptr) (x1 : rpcrdma_xprt),
      rpcrdma_buffer_get x = (some r, x1) ∧
      x1.rx_buf.rb_send_bufs = rest ∧
      x1.rx_buf.rb_send_count = int_wrap (x.rx_buf.rb_send_count + 1) ∧
      x1.rx_buf.rb_recv_count =
        (if v.isSome then int_wrap (x.rx_buf.rb_recv_count + 1)
         else x.rx_buf.rb_recv_count) ∧
      x1.req_mem.length = x.req_mem.length ∧
      (req_at x1 r).rl_reply = v ∧
      (∀ p, p ≠ r → req_at x1 p = req_at x p) := by
  obtain ⟨f1, f2, f3⟩ := buffer_get_rep_frame
    { x.rx_buf with rb_send_count := int_wrap (x.rx_buf.rb_send_count + 1),
                    rb_send_bufs := rest }
  refine ⟨(rpcrdma_buffer_get_rep { x.rx_buf with
      rb_send_count := int_wrap (x.rx_buf.rb_send_count + 1), rb_send_bufs := rest }).1, _,
    buffer_get_cons x r rest h, ?_, ?_, ?_, ?_, ?_, ?_⟩
  · exact f1
  · exact f2
  · exact f3
  · simp [set_rl_reply]
  · exact req_at_set_rl_reply_eq _ _ _ hr
  · intro p hp
    rw [req_at_set_rl_reply_ne _ _ _ _ hp]
    rfl

theorem pool_inv_get (s : pool_run) (h : pool_inv s) (s1 : pool_run)
    (hs : pool_step s pool_call.get = some s1) : pool_inv s1 := by
  obtain ⟨hnd, hbound, hval, hsend, hrecv⟩ := h
  cases hl : s.xprt.rx_buf.rb_send_bufs with
  | nil =>
    simp only [pool_step, buffer_get_nil _ hl, Option.some.injEq] at hs
    subst hs
    exact ⟨hnd, hbound, hval, hsend, hrecv⟩
  | cons r rest =>
    rw [hl] at hnd hval
    rw [hl, List.length_cons] at hbound
    have hcp : List.countP (fun p => (req_at s.xprt p).rl_reply.isSome) s.held
        ≤ s.held.length := List.countP_le_length _
    have hr_notin : r ∉ s.held := by
      intro hm
      exact (List.nodup_cons.mp hnd).1 (List.mem_append_right _ hm)
    have hr_lt : r < s.xprt.req_mem.length := hval r (by simp)
    obtain ⟨v, x1, hg, g1, g2, g3, g4, g5, g6⟩ :=
      buffer_get_cons_facts s.xprt r rest hl hr_lt
    simp only [pool_step, hg, Option.some.injEq] at hs
    subst hs
    refine ⟨?_, ?_, ?_, ?_, ?_⟩
    · show (x1.rx_buf.rb_send_bufs ++ r :: s.held).Nodup
      rw [g1]
      exact List.nodup_middle.mpr hnd
    · show x1.rx_buf.rb_send_bufs.length + (r :: s.held).length < 2 ^ 31
      rw [g1, List.length_cons]
      omega
    · intro p hp
      show p < x1.req_mem.length
      rw [g4]
      apply hval
      change p ∈ x1.rx_buf.rb_send_bufs ++ r :: s.held at hp
      rw [g1] at hp
      simp only [List.mem_append, List.mem_cons, List.cons_append] at hp ⊢
      tauto
    · show x1.rx_buf.rb_send_count = ((r :: s.held).length : Int)
      rw [g2, hsend, int_wrap_eq _ (by omega) (by omega)]
      simp
    · show x1.rx_buf.rb_recv_count =
        ((List.countP (fun p => (req_at x1 p).rl_reply.isSome) (r :: s.held) : Nat) : Int)
      have hc : List.countP (fun p => (req_at x1 p).rl_reply.isSome) s.held
          = List.countP (fun p => (req_at s.xprt p).rl_reply.isSome) s.held := by
        apply List.countP_congr
        intro p hp
        have hne : p ≠ r := fun e => hr_notin (e ▸ hp)
        rw [g6 p hne]
      rw [List.countP_cons, hc, g5, g3, hrecv]
      split
      · rw [int_wrap_eq _ (by omega) (by omega)]
        simp
      · simp

theorem pool_inv_put (s : pool_run) (h : pool_inv s) (req : ptr) (s1 : pool_run)
    (hs : pool_step s (pool_call.put req) = some s1) : pool_inv s1 := by
  obtain ⟨hnd, hbound, hval, hsend, hrecv⟩ := h
  by_cases hm : req ∈ s.held
  · simp only [pool_step, hm, if_true, Option.some.injEq] at hs
    subst hs
    have hnh : s.held.Nodup := (List.nodup_append.mp hnd).2.1
    have hperm : (req :: s.held.erase req).Perm s.held := (List.perm_cons_erase hm).symm
    have hbufs := buffer_put_bufs s.xprt req
    have hlen : (rpcrdma_buffer_put s.xprt req).req_mem.length = s.xprt.req_mem.length := by
      unfold rpcrdma_buffer_put
      cases (req_at s.xprt req).rl_reply <;> simp
    have hat : ∀ p, p ≠ req → req_at (rpcrdma_buffer_put s.xprt req) p = req_at s.xprt p := by
      intro p hp
      unfold rpcrdma_buffer_put
      cases (req_at s.xprt req).rl_reply <;>
        simp [req_at, List.getD_eq_getElem?_getD, List.getElem?_set, Ne.symm hp]
    have hcnt : (rpcrdma_buffer_put s.xprt req).rx_buf.rb_send_count =
        int_wrap (s.xprt.rx_buf.rb_send_count - 1) := by
      unfold rpcrdma_buffer_put
      cases (req_at s.xprt req).rl_reply <;> simp
    have hrc : (rpcrdma_buffer_put s.xprt req).rx_buf.rb_recv_count =
        (if (req_at s.xprt req).rl_reply.isSome then int_wrap (s.xprt.rx_buf.rb_recv_count - 1)
         else s.xprt.rx_buf.rb_recv_count) := by
      unfold rpcrdma_buffer_put
      cases (req_at s.xprt req).rl_reply <;> simp
    have hpos : 1 ≤ s.held.length := List.length_pos_of_mem hm
    have hcp : List.countP (fun p => (req_at s.xprt p).rl_reply.isSome) s.held
        ≤ s.held.length := List.countP_le_length _
    refine ⟨?_, ?_, ?_, ?_, ?_⟩
    · show ((rpcrdma_buffer_put s.xprt req).rx_buf.rb_send_bufs ++ s.held.erase req).Nodup
      rw [hbufs, List.append_assoc]
      refine (List.Perm.nodup_iff ?_).mpr hnd
      exact List.Perm.append_left _ hperm
    · show (rpcrdma_buffer_put s.xprt req).rx_buf.rb_send_bufs.length +
        (s.held.erase req).length < 2 ^ 31
      rw [hbufs, List.length_append, List.length_erase_of_mem hm, List.length_singleton]
      omega
    · intro p hp
      show p < (rpcrdma_buffer_put s.xprt req).req_mem.length
      rw [hlen]
      change p ∈ (rpcrdma_buffer_put s.xprt req).rx_buf.rb_send_bufs ++ s.held.erase req at hp
      rw [hbufs] at hp
      apply hval
      simp only [List.mem_append, List.mem_singleton] at hp ⊢
      rcases hp with (hp | hp) | hp
      · exact Or.inl hp
      · exact Or.inr (hp ▸ hm)
      · exact Or.inr (List.mem_of_mem_erase hp)
    · show (rpcrdma_buffer_put s.xprt req).rx_buf.rb_send_count = ((s.held.erase req).length : Int)
      rw [hcnt, hsend, List.length_erase_of_mem hm, int_wrap_eq _ (by omega) (by omega)]
      omega
    · show (rpcrdma_buffer_put s.xprt req).rx_buf.rb_recv_count =
        ((List.countP (fun p => (req_at (rpcrdma_buffer_put s.xprt req) p).rl_reply.isSome)
          (s.held.erase req) : Nat) : Int)
      have hc : List.countP (fun p => (req_at (rpcrdma_buffer_put s.xprt req) p).rl_reply.isSome)
            (s.held.erase req)
          = List.countP (fun p => (req_at s.xprt p).rl_reply.isSome) (s.held.erase req) := by
        apply List.countP_congr
        intro p hp
        have hne : p ≠ req := fun e => (List.Nodup.not_mem_erase hnh) (e ▸ hp)
        rw [hat p hne]
      have hsplit := List.Perm.countP_eq (fun p => (req_at s.xprt p).rl_reply.isSome) hperm
      rw [List.countP_cons] at hsplit
      rw [hc, hrc, hrecv]
      split
      · rw [int_wrap_eq _ (by omega) (by omega), ← hsplit]
        simp [*]
      · rw [← hsplit]
        simp [*]
  · simp [pool_step, hm] at hs

theorem pool_inv_steps (calls : List pool_call) (s : pool_run) (h : pool_inv s) (s1 : pool_run)
    (hs : pool_steps s calls = some s1) : pool_inv s1 := by
  induction calls generalizing s with
  | nil =>
    simp only [pool_steps, Option.some.injEq] at hs
    exact hs ▸ h
  | cons c cs ih =>
    simp only [pool_steps] at hs
    cases hc : pool_step s c with
    | none => simp [hc] at hs
    | some s2 =>
      rw [hc] at hs
      refine ih s2 ?_ hs
      cases c with
      | get => exact pool_inv_get s h s2 hc
      | put req => exact pool_inv_put s h req s2 hc

theorem pool_inv_le (s : pool_run) (h : pool_inv s) :
    s.xprt.rx_buf.rb_recv_count ≤ s.xprt.rx_buf.rb_send_count := by
  obtain ⟨-, -, -, hsend, hrecv⟩ := h
  rw [hsend, hrecv]
  exact_mod_cast List.countP_le_length _

theorem pool_steps_append (s : pool_run) (a b : List pool_call) :
    pool_steps s (a ++ b) = (pool_steps s a).bind (fun s1 => pool_steps s1 b) := by
  induction a generalizing s with
  | nil => rfl
  | cons c cs ih =>
    simp only [List.cons_append, pool_steps]
    cases pool_step s c with
    | none => rfl
    | some s1 => exact ih s1

/-- A get on a pool whose counters are equal and not about to overflow, with a
free reply: both counters grow by 1 and one buffer leaves each free list. -/
theorem buffer_get_counted (x : rpcrdma_xprt) (r : ptr) (rest : List ptr) (p : ptr)
    (prest : List ptr) (c : Int)
    (h : x.rx_buf.rb_send_bufs = r :: rest) (hp : x.rx_buf.rb_recv_bufs = p :: prest)
    (hs : x.rx_buf.rb_send_count = c) (hr : x.rx_buf.rb_recv_count = c)
    (h1 : -2 ^ 31 ≤ c) (h2 : c < 2 ^ 31 - 1) :
    (rpcrdma_buffer_get x).1 = some r ∧
    (rpcrdma_buffer_get x).2.rx_buf.rb_send_count = c + 1 ∧
    (rpcrdma_buffer_get x).2.rx_buf.rb_recv_count = c + 1 ∧
    (rpcrdma_buffer_get x).2.rx_buf.rb_send_bufs = rest ∧
    (rpcrdma_buffer_get x).2.rx_buf.rb_recv_bufs = prest := by
  rw [buffer_get_cons x r rest h]
  have hw : int_wrap (c + 1) = c + 1 := int_wrap_eq _ (by omega) (by omega)
  simp [set_rl_reply, rpcrdma_buffer_get_rep, rpcrdma_buffer_get_rep_locked, hp, hs, hr, hw]

/-- A get on a pool whose counters both stand at `INT_MAX`: `rb_send_count`
wraps around to `INT_MIN`, the gate of `rpcrdma_buffer_get_rep` then sees
`rb_send_count < rb_recv_count` and `rb_recv_count` stays at `INT_MAX`. -/
theorem buffer_get_wraps (x : rpcrdma_xprt) (r : ptr) (rest : List ptr)
    (h : x.rx_buf.rb_send_bufs = r :: rest)
    (hs : x.rx_buf.rb_send_count = 2147483647) (hr : x.rx_buf.rb_recv_count = 2147483647) :
    (rpcrdma_buffer_get x).1 = some r ∧
    (rpcrdma_buffer_get x).2.rx_buf.rb_send_count = -2147483648 ∧
    (rpcrdma_buffer_get x).2.rx_buf.rb_recv_count = 2147483647 := by
  rw [buffer_get_cons x r rest h]
  have hw : int_wrap 2147483648 = -2147483648 := by decide
  simp [set_rl_reply, rpcrdma_buffer_get_rep, hs, hr, hw]

/-- A run of `n` gets on a pool whose counters both count the held requests,
that has more free replies than free requests, and where the counters stay
below `2 ^ 31`: every get attaches a reply and both counters grow by `n`. -/
theorem get_run_counts (n : Nat) : ∀ (s : pool_run),
    s.xprt.rx_buf.rb_send_count = (s.held.length : Int) →
    s.xprt.rx_buf.rb_recv_count = (s.held.length : Int) →
    n ≤ s.xprt.rx_buf.rb_send_bufs.length →
    s.xprt.rx_buf.rb_send_bufs.length < s.xprt.rx_buf.rb_recv_bufs.length →
    s.held.length + n < 2 ^ 31 →
    ∃ s1, pool_steps s (List.replicate n pool_call.get) = some s1 ∧
      s1.xprt.rx_buf.rb_send_count = ((s.held.length + n : Nat) : Int) ∧
      s1.xprt.rx_buf.rb_recv_count = ((s.held.length + n : Nat) : Int) ∧
      s1.xprt.rx_buf.rb_send_bufs.length + n = s.xprt.rx_buf.rb_send_bufs.length := by
  induction n with
  | zero =>
    intro s hs hr _ _ _
    exact ⟨s, rfl, by simpa using hs, by simpa using hr, rfl⟩
  | succ n ih =>
    intro s hs hr hn hlt hb
    cases hl : s.xprt.rx_buf.rb_send_bufs with
    | nil =>
      rw [hl] at hn
      simp at hn
    | cons r rest =>
      cases hq : s.xprt.rx_buf.rb_recv_bufs with
      | nil =>
        rw [hl, hq] at hlt
        simp at hlt
      | cons p prest =>
        rw [hl, hq] at hlt
        rw [hl] at hn
        simp only [List.length_cons] at hlt hn
        obtain ⟨g1, g2, g3, g4, g5⟩ := buffer_get_counted s.xprt r rest p prest _ hl hq hs hr
          (by omega) (by omega)
        cases hget : rpcrdma_buffer_get s.xprt with
        | mk o x1 =>
          rw [hget] at g1 g2 g3 g4 g5
          simp only at g1 g2 g3 g4 g5
          subst g1
          have hstep : pool_step s pool_call.get = some { xprt := x1, held := r :: s.held } := by
            simp only [pool_step, hget]
          obtain ⟨s1, k1, k2, k3, k4⟩ := ih { xprt := x1, held := r :: s.held }
            (by simp only [g2, List.length_cons]; push_cast; ring)
            (by simp only [g3, List.length_cons]; push_cast; ring)
            (by simp only [g4]; omega)
            (by simp only [g4, g5]; omega)
            (by simp only [List.length_cons]; omega)
          refine ⟨s1, ?_, ?_, ?_, ?_⟩
          · simp only [List.replicate_succ, pool_steps, hstep]
            exact k1
          · rw [k2]
            simp only [List.length_cons]
            push_cast
            ring
          · rw [k3]
            simp only [List.length_cons]
            push_cast
            ring
          · simp only [g4] at k4
            simp only [List.length_cons]
            omega

/-- C1, the claim refuted on a concrete input: a zero-filled transport
configured for `2 ^ 31` requests, filled by `rpcrdma_buffer_create` without a
failed allocation, and then `2 ^ 31` calls of `rpcrdma_buffer_get` and no put.
Each of the first `2 ^ 31 - 1` calls counts a request and a reply, which brings
both counters to `INT_MAX`; the last call wraps `rb_send_count` around to
`INT_MIN` and attaches no reply.  Now `rb_recv_count > rb_send_count`. -/
theorem backpressure_breaks_at_int_max :
    ∃ y s,
      rpcrdma_buffer_create buffer_create_env_ok (sample_xprt 2147483648 8 8) = some (0, y) ∧
      y.rx_buf.rb_send_count = 0 ∧ y.rx_buf.rb_recv_count = 0 ∧
      pool_steps { xprt := y, held := [] } (List.replicate 2147483648 pool_call.get) = some s ∧
      s.xprt.rx_buf.rb_send_count = -2147483648 ∧
      s.xprt.rx_buf.rb_recv_count = 2147483647 ∧
      s.xprt.rx_buf.rb_send_count < s.xprt.rx_buf.rb_recv_count := by
  obtain ⟨y, hy, h2, h3, -, h5, h6, -⟩ := buffer_create_ok buffer_create_env_ok
    (sample_xprt 2147483648 8 8) (fun _ => rfl) (fun _ => rfl) (fun _ => rfl) (by decide)
  have hmr : (sample_xprt 2147483648 8 8).rx_data.max_requests = 2147483648 := rfl
  have hlen : y.rx_buf.rb_send_bufs.length = 2147483648 := by
    rw [h2, List.length_reverse, List.length_range', hmr]
  have hrlen : y.rx_buf.rb_recv_bufs.length = 2147483648 + 1 := by
    rw [h3, List.length_reverse, List.length_range', hmr]
  have hs0 : y.rx_buf.rb_send_count = 0 := by rw [h5]; rfl
  have hr0 : y.rx_buf.rb_recv_count = 0 := by rw [h6]; rfl
  obtain ⟨s1, k1, k2, k3, k4⟩ := get_run_counts 2147483647 { xprt := y, held := [] }
    (by simpa using hs0) (by simpa using hr0)
    (by simp only [hlen]; omega) (by simp only [hlen, hrlen]; omega)
    (by simp only [List.length_nil]; omega)
  simp only [List.length_nil, Nat.zero_add] at k2 k3
  simp only [hlen] at k4
  cases hl : s1.xprt.rx_buf.rb_send_bufs with
  | nil =>
    rw [hl] at k4
    simp at k4
  | cons r rest =>
    obtain ⟨w1, w2, w3⟩ := buffer_get_wraps s1.xprt r rest hl (by rw [k2]; rfl) (by rw [k3]; rfl)
    cases hget : rpcrdma_buffer_get s1.xprt with
    | mk o x1 =>
      rw [hget] at w1 w2 w3
      simp only at w1 w2 w3
      subst w1
      have hstep : pool_step s1 pool_call.get = some { xprt := x1, held := r :: s1.held } := by
        simp only [pool_step, hget]
      refine ⟨y, { xprt := x1, held := r :: s1.held }, hy, hs0, hr0, ?_, w2, w3, ?_⟩
      · have hrep : List.replicate 2147483648 pool_call.get =
            List.replicate 2147483647 pool_call.get ++ [pool_call.get] :=
          List.replicate_succ' 2147483647 pool_call.get
        rw [hrep, pool_steps_append, k1]
        simp only [Option.some_bind, pool_steps, hstep]
      · rw [w2, w3]
        decide

/-- C1, amended (backpressure invariant).  Start from a pool of fewer than
`2 ^ 31` requests that `rpcrdma_buffer_create` has just filled without a failed
allocation and whose two counters are 0.  After any finite sequence of
`rpcrdma_buffer_get` calls and of `rpcrdma_buffer_put` calls on requests that a
get returned and that were not put back since, `rb_recv_count ≤ rb_send_count`.
Every prefix of such a sequence is such a sequence, so the bound holds at every
point of a run.  With fewer than `2 ^ 31` requests neither counter, a C `int`,
can overflow. -/
theorem backpressure_invariant (e : buffer_create_env) (x : rpcrdma_xprt)
    (hreq : ∀ i, e.req_kzalloc_ok i = true) (hrep : ∀ i, e.rep_kzalloc_ok i = true)
    (hrb : ∀ i, e.regbuf_kmalloc_ok i = true)
    (hmax : x.rx_data.max_requests < 2 ^ 31)
    (hsend : x.rx_buf.rb_send_count = 0) (hrecv : x.rx_buf.rb_recv_count = 0) :
    ∃ y, rpcrdma_buffer_create e x = some (0, y) ∧
      ∀ (calls : List pool_call) (s : pool_run),
        pool_steps { xprt := y, held := [] } calls = some s →
        s.xprt.rx_buf.rb_recv_count ≤ s.xprt.rx_buf.rb_send_count := by
  obtain ⟨y, hy, h2, -, h4, h5, h6, -⟩ := buffer_create_ok e x hreq hrep hrb (by omega)
  refine ⟨y, hy, ?_⟩
  intro calls s hs
  apply pool_inv_le
  refine pool_inv_steps calls _ ?_ s hs
  refine ⟨?_, ?_, ?_, ?_, ?_⟩
  · simp only [List.append_nil, h2]
    exact List.nodup_reverse.mpr (List.nodup_range' _ _)
  · show y.rx_buf.rb_send_bufs.length + 0 < 2 ^ 31
    rw [h2, List.length_reverse, List.length_range']
    omega
  · intro p hp
    simp only [List.append_nil, h2, List.mem_reverse] at hp
    have hb := (List.mem_range'_1.mp hp).2
    show p < y.req_mem.length
    rw [h4]
    exact hb
  · simp [h5, hsend]
  · simp [h6, hrecv]

/-- A zero-filled transport configured for two requests, then get, get, a get
that finds the pool empty, put of request 1, get, put of request 0. -/
theorem backpressure_invariant_witness :
    ∃ y s, rpcrdma_buffer_create buffer_create_env_ok (sample_xprt 2 8 8) = some (0, y) ∧
      pool_steps { xprt := y, held := [] }
        [pool_call.get, pool_call.get, pool_call.get, pool_call.put 1, pool_call.get,
         pool_call.put 0] = some s ∧
      s.xprt.rx_buf.rb_recv_count ≤ s.xprt.rx_buf.rb_send_count := by
  obtain ⟨y, hy, H⟩ := backpressure_invariant buffer_create_env_ok (sample_xprt 2 8 8)
    (fun _ => rfl) (fun _ => rfl) (fun _ => rfl) (by decide) rfl rfl
  have hsome : (rpcrdma_buffer_create buffer_create_env_ok (sample_xprt 2 8 8)).map
      (fun r => (pool_steps { xprt := r.2, held := [] }
        [pool_call.get, pool_call.get, pool_call.get, pool_call.put 1, pool_call.get,
         pool_call.put 0]).isSome) = some true := by decide
  rw [hy] at hsome
  simp only [Option.map_some', Option.some.injEq] at hsome
  obtain ⟨s, h⟩ := Option.isSome_iff_exists.mp hsome
  exact ⟨y, s, hy, h, H _ s h⟩

/-! ## Credits -/

/-- C4 (credit clamping).  When the reply's buffer holds the peer's credit
value `c` in its third big-endian word, `rpcrdma_update_granted_credits` changes
nothing but `rb_credits`, which becomes 1 when `c = 0`, `rb_max_requests` when
`c > rb_max_requests`, and `c` itself otherwise. -/
theorem credit_clamping (x : rpcrdma_xprt) (rep : ptr) (rb : rpcrdma_regbuf) (c : Nat)
    (hrb : (rep_at x rep).rr_rdmabuf = some rb)
    (hc : be32_to_cpup rb.rg_base 2 = some c) :
    ∃ credits,
      rpcrdma_update_granted_credits x rep =
        some { x with rx_buf := { x.rx_buf with rb_credits := credits } } ∧
      (c = 0 → credits = 1) ∧
      (c > x.rx_buf.rb_max_requests → credits = x.rx_buf.rb_max_requests) ∧
      (c ≠ 0 → c ≤ x.rx_buf.rb_max_requests → credits = c) := by
  refine ⟨if c = 0 then 1
      else if c > x.rx_buf.rb_max_requests then x.rx_buf.rb_max_requests else c, ?_, ?_, ?_, ?_⟩
  · simp [rpcrdma_update_granted_credits, hrb, hc]
  · intro h0
    simp [h0]
  · intro hgt
    have h0 : c ≠ 0 := by omega
    simp [h0, hgt]
  · intro h0 hle
    have : ¬ c > x.rx_buf.rb_max_requests := by omega
    simp [h0, this]

/-- A pool limited to 32 requests; the peer grants 300 credits (bytes
`0 0 1 44`), which is clamped to 32. -/
theorem credit_clamping_witness :
    ∃ credits,
      rpcrdma_update_granted_credits sample_credit_xprt 0 =
        some { sample_credit_xprt with
          rx_buf := { sample_credit_xprt.rx_buf with rb_credits := credits } } ∧
      credits = 32 := by
  obtain ⟨credits, h1, -, h3, -⟩ :=
    credit_clamping sample_credit_xprt 0 sample_credit_regbuf 300 rfl (by decide)
  exact ⟨credits, h1, h3 (by decide)⟩

/-! ## Handshake payload -/

/-- C5, as stated, fails: with the upstream header values, a transport whose
inline sizes are 4096 and an `Established` payload with a wrong magic word (and
proposed sizes that decode to 4096), `rpcrdma_update_connect_private` lowers
both inline sizes to 1024. -/
theorem connect_private_invalid_changes_sizes :
    sample_bad_magic.cp_magic ≠ upstream_h.rpcrdma_cmp_magic ∧
    (sample_xprt 32 4096 4096).rx_data.inline_rsize = 4096 ∧
    (sample_xprt 32 4096 4096).rx_data.inline_wsize = 4096 ∧
    (rpcrdma_update_connect_private upstream_h (sample_xprt 32 4096 4096)
        { private_data := some sample_bad_magic }).rx_data.inline_rsize = 1024 ∧
    (rpcrdma_update_connect_private upstream_h (sample_xprt 32 4096 4096)
        { private_data := some sample_bad_magic }).rx_data.inline_wsize = 1024 := by
  decide

/-- C5, amended.  For a payload whose magic or version does not match,
`rpcrdma_update_connect_private` sets each inline size to the smaller of its old
value and the Version One default `RPCRDMA_V1_DEF_INLINE_SIZE`, whatever sizes
the payload proposes; so a size that is at most the default stays as it
is. -/
theorem connect_private_invalid_payload (h : xprt_rdma_h) (x : rpcrdma_xprt)
    (pmsg : rpcrdma_connect_private)
    (hbad : pmsg.cp_magic ≠ h.rpcrdma_cmp_magic ∨ pmsg.cp_version ≠ h.RPCRDMA_CMP_VERSION) :
    (rpcrdma_update_connect_private h x { private_data := some pmsg }).rx_data.inline_rsize
      = min x.rx_data.inline_rsize h.RPCRDMA_V1_DEF_INLINE_SIZE ∧
    (rpcrdma_update_connect_private h x { private_data := some pmsg }).rx_data.inline_wsize
      = min x.rx_data.inline_wsize h.RPCRDMA_V1_DEF_INLINE_SIZE ∧
    (x.rx_data.inline_rsize ≤ h.RPCRDMA_V1_DEF_INLINE_SIZE →
      (rpcrdma_update_connect_private h x { private_data := some pmsg }).rx_data.inline_rsize
        = x.rx_data.inline_rsize) ∧
    (x.rx_data.inline_wsize ≤ h.RPCRDMA_V1_DEF_INLINE_SIZE →
      (rpcrdma_update_connect_private h x { private_data := some pmsg }).rx_data.inline_wsize
        = x.rx_data.inline_wsize) := by
  have hv : ¬ (pmsg.cp_magic = h.rpcrdma_cmp_magic ∧ pmsg.cp_version = h.RPCRDMA_CMP_VERSION) := by
    rcases hbad with hb | hb
    · exact fun hh => hb hh.1
    · exact fun hh => hb hh.2
  have key : (rpcrdma_update_connect_private h x { private_data := some pmsg }).rx_data.inline_rsize
      = min x.rx_data.inline_rsize h.RPCRDMA_V1_DEF_INLINE_SIZE ∧
    (rpcrdma_update_connect_private h x { private_data := some pmsg }).rx_data.inline_wsize
      = min x.rx_data.inline_wsize h.RPCRDMA_V1_DEF_INLINE_SIZE := by
    simp only [rpcrdma_update_connect_private, hv, if_false]
    constructor
    · by_cases h1 : h.RPCRDMA_V1_DEF_INLINE_SIZE < x.rx_data.inline_rsize
      · by_cases h2 : h.RPCRDMA_V1_DEF_INLINE_SIZE < x.rx_data.inline_wsize
        · simp [h1, h2]; omega
        · simp [h1, h2]; omega
      · by_cases h2 : h.RPCRDMA_V1_DEF_INLINE_SIZE < x.rx_data.inline_wsize
        · simp [h1, h2]; omega
        · simp [h1, h2]; omega
    · by_cases h1 : h.RPCRDMA_V1_DEF_INLINE_SIZE < x.rx_data.inline_rsize
      · by_cases h2 : h.RPCRDMA_V1_DEF_INLINE_SIZE < x.rx_data.inline_wsize
        · simp [h1, h2]; omega
        · simp [h1, h2]; omega
      · by_cases h2 : h.RPCRDMA_V1_DEF_INLINE_SIZE < x.rx_data.inline_wsize
        · simp [h1, h2]; omega
        · simp [h1, h2]; omega
  refine ⟨key.1, key.2, ?_, ?_⟩
  · intro hle
    rw [key.1]; exact min_eq_left hle
  · intro hle
    rw [key.2]; exact min_eq_left hle

/-- A wrong version with inline sizes 4096 and 512: the first drops to the
default 1024, the second stays. -/
theorem connect_private_invalid_payload_witness :
    (rpcrdma_update_connect_private upstream_h (sample_xprt 32 4096 512)
        { private_data := some sample_bad_version }).rx_data.inline_rsize = 1024 ∧
    (rpcrdma_update_connect_private upstream_h (sample_xprt 32 4096 512)
        { private_data := some sample_bad_version }).rx_data.inline_wsize = 512 :=
  have k := connect_private_invalid_payload upstream_h (sample_xprt 32 4096 512)
    sample_bad_version (Or.inr (by decide))
  ⟨k.1, k.2.1⟩

/-! ## Connection upcall -/

theorem test_bit_set_bit (nr flags : Nat) : test_bit nr (set_bit nr flags) = true := by
  simp [test_bit, set_bit, Nat.testBit_or, Nat.testBit_two_pow_self]

/-- C9 (upcall state transitions).  `rpcrdma_conn_upcall` returns 0 on each of
these events and
* on `ESTABLISHED` sets `rep_connected` to 1 and `rb_credits` to 1;
* on `CONNECT_ERROR`, `UNREACHABLE`, `REJECTED` and `DISCONNECTED` sets
  `rep_connected` to `-ENOTCONN`, `-ENETDOWN`, `-ECONNREFUSED` (`-EAGAIN` when
  the reject status is `IB_CM_REJ_STALE_CONN`) and `-ECONNABORTED`, each of them
  negative;
* on `ADDR_RESOLVED`, `ROUTE_RESOLVED`, `ADDR_ERROR` and `ROUTE_ERROR` writes
  0, 0, `-EHOSTUNREACH` and `-ENETUNREACH` to `ri_async_rc`, completes
  `ri_done`, and changes nothing else, `rep_connected` in particular. -/
theorem upcall_state_transitions (h : xprt_rdma_h) (w : rpcrdma_xprt → rpcrdma_xprt)
    (x : rpcrdma_xprt) (status : Int) (conn : rdma_conn_param) :
    ((rpcrdma_conn_upcall h w x
        { event := rdma_cm_event_type.RDMA_CM_EVENT_ESTABLISHED,
          status := status, conn := conn }).2.rx_ep.rep_connected = 1 ∧
     (rpcrdma_conn_upcall h w x
        { event := rdma_cm_event_type.RDMA_CM_EVENT_ESTABLISHED,
          status := status, conn := conn }).2.rx_buf.rb_credits = 1) ∧
    ((rpcrdma_conn_upcall h w x
        { event := rdma_cm_event_type.RDMA_CM_EVENT_CONNECT_ERROR,
          status := status, conn := conn }).2.rx_ep.rep_connected = -ENOTCONN ∧
     -ENOTCONN < 0) ∧
    ((rpcrdma_conn_upcall h w x
        { event := rdma_cm_event_type.RDMA_CM_EVENT_UNREACHABLE,
          status := status, conn := conn }).2.rx_ep.rep_connected = -ENETDOWN ∧
     -ENETDOWN < 0) ∧
    ((rpcrdma_conn_upcall h w x
        { event := rdma_cm_event_type.RDMA_CM_EVENT_REJECTED,
          status := status, conn := conn }).2.rx_ep.rep_connected =
        (if status = h.IB_CM_REJ_STALE_CONN then -EAGAIN else -ECONNREFUSED) ∧
     -EAGAIN < 0 ∧ -ECONNREFUSED < 0) ∧
    ((rpcrdma_conn_upcall h w x
        { event := rdma_cm_event_type.RDMA_CM_EVENT_DISCONNECTED,
          status := status, conn := conn }).2.rx_ep.rep_connected = -ECONNABORTED ∧
     -ECONNABORTED < 0) ∧
    rpcrdma_conn_upcall h w x
        { event := rdma_cm_event_type.RDMA_CM_EVENT_ADDR_RESOLVED,
          status := status, conn := conn } =
      (0, { x with rx_ia := { x.rx_ia with ri_async_rc := 0 },
                   calls := x.calls ++ [provider_call.complete_ri_done] }) ∧
    rpcrdma_conn_upcall h w x
        { event := rdma_cm_event_type.RDMA_CM_EVENT_ROUTE_RESOLVED,
          status := status, conn := conn } =
      (0, { x with rx_ia := { x.rx_ia with ri_async_rc := 0 },
                   calls := x.calls ++ [provider_call.complete_ri_done] }) ∧
    rpcrdma_conn_upcall h w x
        { event := rdma_cm_event_type.RDMA_CM_EVENT_ADDR_ERROR,
          status := status, conn := conn } =
      (0, { x with rx_ia := { x.rx_ia with ri_async_rc := -EHOSTUNREACH },
                   calls := x.calls ++ [provider_call.complete_ri_done] }) ∧
    rpcrdma_conn_upcall h w x
        { event := rdma_cm_event_type.RDMA_CM_EVENT_ROUTE_ERROR,
          status := status, conn := conn } =
      (0, { x with rx_ia := { x.rx_ia with ri_async_rc := -ENETUNREACH },
                   calls := x.calls ++ [provider_call.complete_ri_done] }) ∧
    (∀ k ∈ [rdma_cm_event_type.RDMA_CM_EVENT_ESTABLISHED,
            rdma_cm_event_type.RDMA_CM_EVENT_CONNECT_ERROR,
            rdma_cm_event_type.RDMA_CM_EVENT_UNREACHABLE,
            rdma_cm_event_type.RDMA_CM_EVENT_REJECTED,
            rdma_cm_event_type.RDMA_CM_EVENT_DISCONNECTED],
      (rpcrdma_conn_upcall h w x { event := k, status := status, conn := conn }).1 = 0) := by
  refine ⟨⟨rfl, rfl⟩, ⟨rfl, by decide⟩, ⟨rfl, by decide⟩, ⟨rfl, by decide, by decide⟩,
    ⟨rfl, by decide⟩, rfl, rfl, rfl, rfl, ?_⟩
  intro k hk
  simp only [List.mem_cons, List.mem_singleton, List.not_mem_nil, or_false] at hk
  rcases hk with hk | hk | hk | hk | hk <;> subst hk <;> rfl

/-- C10 (device-removal upcall).  On `DEVICE_REMOVAL`, `rpcrdma_conn_upcall`
sets the removing flag and `rep_connected = -ENODEV` before it goes to sleep,
and when it is woken it clears `ri_id` and `ri_device` and returns 1; when no
other thread touches the transport meanwhile, flag and state are still there at
the return.  On every other event kind it returns 0. -/
theorem upcall_device_removal (h : xprt_rdma_h) (w : rpcrdma_xprt → rpcrdma_xprt)
    (x : rpcrdma_xprt) (status : Int) (conn : rdma_conn_param) :
    test_bit h.RPCRDMA_IAF_REMOVING (rpcrdma_conn_upcall_removal_armed h x).rx_ia.ri_flags = true ∧
    (rpcrdma_conn_upcall_removal_armed h x).rx_ep.rep_connected = -ENODEV ∧
    rpcrdma_conn_upcall h w x
        { event := rdma_cm_event_type.RDMA_CM_EVENT_DEVICE_REMOVAL,
          status := status, conn := conn } =
      (1, { w (rpcrdma_conn_upcall_removal_armed h x) with
            rx_ia := { (w (rpcrdma_conn_upcall_removal_armed h x)).rx_ia with
                       ri_id := none, ri_device := none } }) ∧
    (rpcrdma_conn_upcall h w x
        { event := rdma_cm_event_type.RDMA_CM_EVENT_DEVICE_REMOVAL,
          status := status, conn := conn }).2.rx_ia.ri_id = none ∧
    (rpcrdma_conn_upcall h w x
        { event := rdma_cm_event_type.RDMA_CM_EVENT_DEVICE_REMOVAL,
          status := status, conn := conn }).2.rx_ia.ri_device = none ∧
    test_bit h.RPCRDMA_IAF_REMOVING
      (rpcrdma_conn_upcall h (fun y => y) x
        { event := rdma_cm_event_type.RDMA_CM_EVENT_DEVICE_REMOVAL,
          status := status, conn := conn }).2.rx_ia.ri_flags = true ∧
    (rpcrdma_conn_upcall h (fun y => y) x
        { event := rdma_cm_event_type.RDMA_CM_EVENT_DEVICE_REMOVAL,
          status := status, conn := conn }).2.rx_ep.rep_connected = -ENODEV ∧
    (∀ k, k ≠ rdma_cm_event_type.RDMA_CM_EVENT_DEVICE_REMOVAL →
      (rpcrdma_conn_upcall h w x { event := k, status := status, conn := conn }).1 = 0) := by
  refine ⟨test_bit_set_bit _ _, rfl, rfl, rfl, rfl, test_bit_set_bit _ _, rfl, ?_⟩
  intro k hk
  cases k <;> first | rfl | exact absurd rfl hk

/-! ## Device removal -/

/-- C7 at a failing input.  Request 0 is checked out with reply 1 attached,
and the reply's regbuf is DMA-mapped (its post failed in `ib_post_recv`).
`rpcrdma_ia_remove` returns, leaves both free lists as they were and the request
checked out, but the regbuf of reply 1 is still mapped afterwards: the function
walks `rb_recv_bufs`, the free replies, and a reply attached to a checked-out
request is not on that list. -/
theorem ia_remove_leaves_attached_reply_mapped :
    sample_checked_out.map (fun r => (req_at r.2 0).rl_reply) = some (some 1) ∧
    sample_checked_out.map (fun r => r.2.rx_buf.rb_send_bufs) = some [] ∧
    sample_checked_out.map (fun r => r.2.rx_buf.rb_recv_bufs) = some [0] ∧
    sample_checked_out.map (fun r => r.2.rx_buf.rb_allreqs) = some [0] ∧
    sample_checked_out.map
      (fun r => (rep_at r.2 1).rr_rdmabuf.map rpcrdma_regbuf_is_mapped) = some (some true) ∧
    sample_removed.map (fun y => y.rx_buf.rb_send_bufs) = some [] ∧
    sample_removed.map (fun y => y.rx_buf.rb_recv_bufs) = some [0] ∧
    sample_removed.map
      (fun y => (rep_at y 0).rr_rdmabuf.map rpcrdma_regbuf_is_mapped) = some (some false) ∧
    sample_removed.map
      (fun y => (rep_at y 1).rr_rdmabuf.map rpcrdma_regbuf_is_mapped) = some (some true) := by
  decide

/-! ## Connect -/

/-- C6, as stated, fails.  A transport that was connected and then
disconnected calls `rpcrdma_ep_connect`; the first pass is rejected as a stale
connection, and so is the second.  The call does not stop after one retry and
does not surface the outcome of the second pass (`-EAGAIN`): it makes a third
pass, three `rdma_resolve_addr` and three `rdma_connect` requests in all, and
returns 0 with `rep_connected = 1`. -/
theorem connect_retries_more_than_once :
    (rpcrdma_ep_connect_attempt upstream_h (fun y => y) (sample_stale_env 2)
        sample_disconnected).woken_state = some (-EAGAIN) ∧
    ((stale_attempts upstream_h (fun y => y) [sample_stale_env 2] sample_disconnected).map
        (fun y => (rpcrdma_ep_connect_attempt upstream_h (fun y => y) (sample_stale_env 3)
          y).woken_state)) = some (some (-EAGAIN)) ∧
    (rpcrdma_ep_connect upstream_h (fun y => y)
        [sample_stale_env 2, sample_stale_env 3, sample_established_env 4]
        sample_disconnected).rc = some 0 ∧
    (rpcrdma_ep_connect upstream_h (fun y => y)
        [sample_stale_env 2, sample_stale_env 3, sample_established_env 4]
        sample_disconnected).xprt.map (fun y => y.rx_ep.rep_connected) = some 1 ∧
    (rpcrdma_ep_connect upstream_h (fun y => y)
        [sample_stale_env 2, sample_stale_env 3, sample_established_env 4]
        sample_disconnected).xprt.map count_rdma_connect = some 3 ∧
    (rpcrdma_ep_connect upstream_h (fun y => y)
        [sample_stale_env 2, sample_stale_env 3, sample_established_env 4]
        sample_disconnected).xprt.map count_rdma_resolve_addr = some 3 := by
  decide

theorem ep_connect_out_self (x : rpcrdma_xprt) :
    rpcrdma_ep_connect_out x.rx_ep.rep_connected x = (x.rx_ep.rep_connected, x) := by
  unfold rpcrdma_ep_connect_out
  split <;> rfl

theorem ep_connect_last (h : xprt_rdma_h) (w : rpcrdma_xprt → rpcrdma_xprt)
    (e : connect_env) (rest : List connect_env) (y : rpcrdma_xprt)
    (hlast : (rpcrdma_ep_connect_attempt h w e y).woken_state ≠ some (-EAGAIN)) :
    rpcrdma_ep_connect h w (e :: rest) y = rpcrdma_ep_connect h w [e] y := by
  unfold rpcrdma_ep_connect
  cases ha : rpcrdma_ep_connect_attempt h w e y with
  | oops => rfl
  | returned rc x1 => rfl
  | woken x1 =>
    have hne : x1.rx_ep.rep_connected ≠ -EAGAIN := by
      intro hc
      apply hlast
      rw [ha]
      simp [connect_attempt.woken_state, hc]
    simp only [hne, if_false]

/-- C6, amended.  `rpcrdma_ep_connect` retries after every stale-connection
rejection, however many there are: when each of the first `k` passes is woken
up with `rep_connected = -EAGAIN` and the pass after them is not, the call makes
exactly those `k + 1` passes (the answers scripted for further passes are never
asked for), and it is the outcome of the last pass that is surfaced: if that
pass is woken up with a state `c ≤ 0` the call returns `c` with
`rep_connected = c`, and if it is woken up with a positive state the call
returns 0 unless it runs into a NULL dereference while posting extra
receives (with no extra receives to post it returns 0 and leaves the transport
as the last pass left it). -/
theorem connect_retries_every_stale (h : xprt_rdma_h) (w : rpcrdma_xprt → rpcrdma_xprt)
    (stale : List connect_env) (e : connect_env) (rest : List connect_env)
    (x y : rpcrdma_xprt)
    (hstale : stale_attempts h w stale x = some y)
    (hlast : (rpcrdma_ep_connect_attempt h w e y).woken_state ≠ some (-EAGAIN)) :
    rpcrdma_ep_connect h w (stale ++ e :: rest) x = rpcrdma_ep_connect h w [e] y ∧
    (∀ z, rpcrdma_ep_connect_attempt h w e y = connect_attempt.woken z →
      z.rx_ep.rep_connected ≤ 0 →
      rpcrdma_ep_connect h w (stale ++ e :: rest) x =
        connect_result.returned z.rx_ep.rep_connected z) ∧
    (∀ z, rpcrdma_ep_connect_attempt h w e y = connect_attempt.woken z →
      0 < z.rx_ep.rep_connected →
      ((rpcrdma_ep_connect h w (stale ++ e :: rest) x).rc = some 0 ∨
       rpcrdma_ep_connect h w (stale ++ e :: rest) x = connect_result.oops) ∧
      (z.rx_buf.rb_bc_srv_max_requests = 0 →
        rpcrdma_ep_connect h w (stale ++ e :: rest) x = connect_result.returned 0 z)) := by
  have main : rpcrdma_ep_connect h w (stale ++ e :: rest) x = rpcrdma_ep_connect h w [e] y := by
    induction stale generalizing x with
    | nil =>
      simp only [stale_attempts, Option.some.injEq] at hstale
      subst hstale
      exact ep_connect_last h w e rest x hlast
    | cons e0 es ih =>
      simp only [stale_attempts] at hstale
      cases ha : rpcrdma_ep_connect_attempt h w e0 x with
      | oops => simp [ha] at hstale
      | returned rc x1 => simp [ha] at hstale
      | woken x1 =>
        rw [ha] at hstale
        by_cases hc : x1.rx_ep.rep_connected = -EAGAIN
        · simp only [hc, if_true] at hstale
          have hle : x1.rx_ep.rep_connected ≤ 0 := by rw [hc]; decide
          rw [List.cons_append, rpcrdma_ep_connect, ha]
          simp only [hle, hc, if_true]
          exact ih x1 hstale
        · simp [hc] at hstale
  refine ⟨main, ?_, ?_⟩
  · intro z hz hle
    have hne : z.rx_ep.rep_connected ≠ -EAGAIN := by
      intro hc
      apply hlast
      rw [hz]
      simp [connect_attempt.woken_state, hc]
    rw [main, rpcrdma_ep_connect, hz]
    simp only [hle, hne, if_true, if_false, ep_connect_out_self]
  · intro z hz hpos
    have hnle : ¬ z.rx_ep.rep_connected ≤ 0 := by omega
    rw [main, rpcrdma_ep_connect, hz]
    simp only [hnle, if_false]
    refine ⟨?_, ?_⟩
    · by_cases hx : z.rx_buf.rb_bc_srv_max_requests ≠ 0
      · rw [if_pos hx]
        cases rpcrdma_ep_post_extra_recv e.extra_recv z.rx_buf.rb_bc_srv_max_requests 0 z with
        | none => exact Or.inr rfl
        | some r => exact Or.inl rfl
      · rw [if_neg hx]
        exact Or.inl rfl
    · intro h0
      rw [if_neg (not_not.mpr h0)]

/-- Two stale rejections followed by `ESTABLISHED`, with a fourth answer that
is never asked for: the call ends as the third pass alone does. -/
theorem connect_retries_every_stale_witness :
    rpcrdma_ep_connect upstream_h (fun y => y)
        ([sample_stale_env 2, sample_stale_env 3] ++
          sample_established_env 4 :: [sample_stale_env 5])
        sample_disconnected =
      rpcrdma_ep_connect upstream_h (fun y => y) [sample_established_env 4]
        ((stale_attempts upstream_h (fun y => y) [sample_stale_env 2, sample_stale_env 3]
          sample_disconnected).getD sample_disconnected) :=
  (connect_retries_every_stale upstream_h (fun y => y)
    [sample_stale_env 2, sample_stale_env 3] (sample_established_env 4) [sample_stale_env 5]
    sample_disconnected
    ((stale_attempts upstream_h (fun y => y) [sample_stale_env 2, sample_stale_env 3]
      sample_disconnected).getD sample_disconnected)
    (by decide) (by decide)).1

/-- C20 (RegBuf unmap is idempotent).  A second `rpcrdma_dma_unmap_regbuf`
right after the first changes nothing and calls nothing; the first calls the
provider's `ib_dma_unmap_single` exactly once when the regbuf was mapped and not
at all when it was not; and afterwards the device handle is cleared. -/
theorem dma_unmap_regbuf_idempotent (rb : Option rpcrdma_regbuf) :
    rpcrdma_dma_unmap_regbuf (rpcrdma_dma_unmap_regbuf rb).1 =
      ((rpcrdma_dma_unmap_regbuf rb).1, []) ∧
    (∀ r, rb = some r → rpcrdma_regbuf_is_mapped r = true →
      ∃ dev, r.rg_device = some dev ∧
        rpcrdma_dma_unmap_regbuf rb =
          (some { r with rg_device := none }, [provider_call.ib_dma_unmap_single dev])) ∧
    (∀ r, rb = some r → rpcrdma_regbuf_is_mapped r = false →
      rpcrdma_dma_unmap_regbuf rb = (some r, [])) ∧
    (rb = none → rpcrdma_dma_unmap_regbuf rb = (none, [])) ∧
    (∀ r1, (rpcrdma_dma_unmap_regbuf rb).1 = some r1 →
      r1.rg_device = none ∧ rpcrdma_regbuf_is_mapped r1 = false) := by
  cases rb with
  | none =>
    refine ⟨rfl, ?_, ?_, fun _ => rfl, ?_⟩
    · intro r hr; cases hr
    · intro r hr; cases hr
    · intro r1 h1; simp [rpcrdma_dma_unmap_regbuf] at h1
  | some r =>
    cases hd : r.rg_device with
    | none =>
      have hm : rpcrdma_regbuf_is_mapped r = false := by simp [rpcrdma_regbuf_is_mapped, hd]
      have hu : rpcrdma_dma_unmap_regbuf (some r) = (some r, []) := by
        simp [rpcrdma_dma_unmap_regbuf, hm]
      refine ⟨?_, ?_, ?_, ?_, ?_⟩
      · rw [hu]; exact hu
      · intro r0 hr hmap
        cases hr
        rw [hm] at hmap
        cases hmap
      · intro r0 hr _
        cases hr
        exact hu
      · intro hn; cases hn
      · intro r1 h1
        rw [hu] at h1
        cases h1
        exact ⟨hd, hm⟩
    | some dev =>
      have hm : rpcrdma_regbuf_is_mapped r = true := by simp [rpcrdma_regbuf_is_mapped, hd]
      have hu : rpcrdma_dma_unmap_regbuf (some r) =
          (some { r with rg_device := none }, [provider_call.ib_dma_unmap_single dev]) := by
        simp [rpcrdma_dma_unmap_regbuf, hm, hd]
      refine ⟨?_, ?_, ?_, ?_, ?_⟩
      · rw [hu]
        simp [rpcrdma_dma_unmap_regbuf, rpcrdma_regbuf_is_mapped]
      · intro r0 hr _
        cases hr
        exact ⟨dev, hd, hu⟩
      · intro r0 hr hmap
        cases hr
        rw [hm] at hmap
        cases hmap
      · intro hn; cases hn
      · intro r1 h1
        rw [hu] at h1
        cases h1
        exact ⟨rfl, rfl⟩

/-! ## Memory regions -/

/-- C18 (memory-region acquire).  `rpcrdma_get_mw` on a non-empty free list
returns its first region and takes it off the list (and clears its
`mw_flags`); on an empty free list it returns NULL, leaves the pool as it is,
and schedules the refresh worker exactly when `rep_connected` is not
`-ENODEV`. -/
theorem get_mw_acquire (x : rpcrdma_xprt) :
    (∀ mw rest, x.rx_buf.rb_mws = mw :: rest →
      rpcrdma_get_mw x =
        (some mw,
         { x with
           rx_buf := { x.rx_buf with rb_mws := rest },
           mw_mem := x.mw_mem.set mw { mw_at x mw with mw_flags := 0 } })) ∧
    (x.rx_buf.rb_mws = [] →
      (rpcrdma_get_mw x).1 = none ∧
      (rpcrdma_get_mw x).2.rx_buf = x.rx_buf ∧
      (rpcrdma_get_mw x).2.mw_mem = x.mw_mem ∧
      (x.rx_ep.rep_connected ≠ -ENODEV →
        (rpcrdma_get_mw x).2 =
          { x with calls := x.calls ++
              [provider_call.schedule_refresh_worker, provider_call.cond_resched] }) ∧
      (x.rx_ep.rep_connected = -ENODEV →
        (rpcrdma_get_mw x).2 =
          { x with calls := x.calls ++ [provider_call.cond_resched] })) := by
  refine ⟨?_, ?_⟩
  · intro mw rest h
    simp [rpcrdma_get_mw, h, rpcrdma_pop_mw]
  · intro h
    refine ⟨?_, ?_, ?_, ?_, ?_⟩
    · simp [rpcrdma_get_mw, h]
    · simp [rpcrdma_get_mw, h]
    · simp [rpcrdma_get_mw, h]
    · intro hc
      simp [rpcrdma_get_mw, h, hc]
    · intro hc
      simp [rpcrdma_get_mw, h, hc]

/-- An empty free list on a connected transport (the refresh worker is
scheduled) and a free list of two regions (region 5 is handed out). -/
theorem get_mw_acquire_witness :
    (rpcrdma_get_mw rpcrdma_xprt_zero).1 = none ∧
    (rpcrdma_get_mw rpcrdma_xprt_zero).2.calls =
      [provider_call.schedule_refresh_worker, provider_call.cond_resched] ∧
    (rpcrdma_get_mw
      { rpcrdma_xprt_zero with
        rx_buf := { rpcrdma_xprt_zero.rx_buf with rb_mws := [5, 3] } }).1 = some 5 ∧
    (rpcrdma_get_mw
      { rpcrdma_xprt_zero with
        rx_buf := { rpcrdma_xprt_zero.rx_buf with rb_mws := [5, 3] } }).2.rx_buf.rb_mws = [3] := by
  have h0 := (get_mw_acquire rpcrdma_xprt_zero).2 rfl
  have h1 := (get_mw_acquire
    { rpcrdma_xprt_zero with
      rx_buf := { rpcrdma_xprt_zero.rx_buf with rb_mws := [5, 3] } }).1 5 [3] rfl
  refine ⟨h0.1, ?_, ?_, ?_⟩
  · rw [h0.2.2.2.1 (by decide)]
    rfl
  · rw [h1]
  · rw [h1]

/-! ## Contracts of get and put -/

theorem buffer_get_rep_cases (b : rpcrdma_buffer) :
    (rpcrdma_buffer_get_rep b = (none, b) ∧
      (b.rb_send_count < b.rb_recv_count ∨ b.rb_recv_bufs = [])) ∨
    (∃ p rest, b.rb_recv_bufs = p :: rest ∧ ¬ b.rb_send_count < b.rb_recv_count ∧
      rpcrdma_buffer_get_rep b =
        (some p, { b with rb_recv_count := int_wrap (b.rb_recv_count + 1),
                          rb_recv_bufs := rest })) := by
  unfold rpcrdma_buffer_get_rep
  by_cases h1 : b.rb_send_count < b.rb_recv_count
  · left
    simp [h1]
  · cases h2 : b.rb_recv_bufs with
    | nil =>
      left
      simp [h1]
    | cons p rest =>
      right
      exact ⟨p, rest, rfl, h1, by simp [h1, h2, rpcrdma_buffer_get_rep_locked]⟩

theorem buffer_put_facts (z : rpcrdma_xprt) (q : ptr) :
    (rpcrdma_buffer_put z q).rx_buf.rb_send_count = int_wrap (z.rx_buf.rb_send_count - 1) ∧
    (rpcrdma_buffer_put z q).rx_buf.rb_send_bufs = z.rx_buf.rb_send_bufs ++ [q] ∧
    (rpcrdma_buffer_put z q).rx_buf.rb_recv_count =
      (if (req_at z q).rl_reply.isSome then int_wrap (z.rx_buf.rb_recv_count - 1)
       else z.rx_buf.rb_recv_count) ∧
    (rpcrdma_buffer_put z q).rx_buf.rb_recv_bufs =
      z.rx_buf.rb_recv_bufs ++ (req_at z q).rl_reply.toList ∧
    (q < z.req_mem.length → (req_at (rpcrdma_buffer_put z q) q).rl_reply = none) := by
  unfold rpcrdma_buffer_put
  cases hrep : (req_at z q).rl_reply with
  | none =>
    refine ⟨rfl, rfl, by simp, by simp, ?_⟩
    intro hq
    simp [req_at, List.getD_eq_getElem?_getD, List.getElem?_set, hq]
  | some p =>
    refine ⟨rfl, rfl, by simp, by simp, ?_⟩
    intro hq
    simp [req_at, List.getD_eq_getElem?_getD, List.getElem?_set, hq]

/-- C11, the claim refuted on a concrete input: the sample pool with both
counters at `INT_MAX`, one free request and two free replies.
`rpcrdma_buffer_get` hands out request 0, but `rb_send_count` is `INT_MIN`
afterwards, not `INT_MAX + 1`: the C `int` has wrapped around.  The gate of
`rpcrdma_buffer_get_rep`, evaluated after the increment, then finds
`rb_send_count < rb_recv_count` and attaches no reply. -/
theorem get_wraps_at_int_max :
    sample_pool_int_max.rx_buf.rb_send_bufs = [0] ∧
    sample_pool_int_max.rx_buf.rb_recv_bufs = [1, 0] ∧
    sample_pool_int_max.rx_buf.rb_send_count = 2147483647 ∧
    sample_pool_int_max.rx_buf.rb_recv_count = 2147483647 ∧
    (rpcrdma_buffer_get sample_pool_int_max).1 = some 0 ∧
    (rpcrdma_buffer_get sample_pool_int_max).2.rx_buf.rb_send_count = -2147483648 ∧
    (rpcrdma_buffer_get sample_pool_int_max).2.rx_buf.rb_send_count ≠
      sample_pool_int_max.rx_buf.rb_send_count + 1 ∧
    (req_at (rpcrdma_buffer_get sample_pool_int_max).2 0).rl_reply = none := by
  decide

/-- C11, amended (postcondition of get).  On an empty request free list
`rpcrdma_buffer_get` returns NULL and changes nothing.  Otherwise it returns the
first request of the list, takes it off the list and increments
`rb_send_count`, a C `int`: the pool afterwards is what
`rpcrdma_buffer_get_rep` leaves when it is run on the pool with `rb_send_count`
incremented and the request unlinked, and the result of that
`rpcrdma_buffer_get_rep` is stored in the request's `rl_reply`, no other
request being written.  Whenever `rb_send_count` is below `INT_MAX` the
increment is by exactly 1; at `INT_MAX` the counter wraps around to
`INT_MIN`. -/
theorem buffer_get_postcondition (x : rpcrdma_xprt) :
    (x.rx_buf.rb_send_bufs = [] → rpcrdma_buffer_get x = (none, x)) ∧
    (∀ r rest, x.rx_buf.rb_send_bufs = r :: rest →
      (rpcrdma_buffer_get x).1 = some r ∧
      (rpcrdma_buffer_get x).2.rx_buf =
        (rpcrdma_buffer_get_rep { x.rx_buf with
          rb_send_count := int_wrap (x.rx_buf.rb_send_count + 1), rb_send_bufs := rest }).2 ∧
      (rpcrdma_buffer_get x).2.rx_buf.rb_send_count = int_wrap (x.rx_buf.rb_send_count + 1) ∧
      (rpcrdma_buffer_get x).2.rx_buf.rb_send_bufs = rest ∧
      (rpcrdma_buffer_get x).2.req_mem =
        x.req_mem.set r { req_at x r with
          rl_reply := (rpcrdma_buffer_get_rep { x.rx_buf with
            rb_send_count := int_wrap (x.rx_buf.rb_send_count + 1),
            rb_send_bufs := rest }).1 } ∧
      (r < x.req_mem.length →
        (req_at (rpcrdma_buffer_get x).2 r).rl_reply =
          (rpcrdma_buffer_get_rep { x.rx_buf with
            rb_send_count := int_wrap (x.rx_buf.rb_send_count + 1),
            rb_send_bufs := rest }).1) ∧
      (∀ p, p ≠ r → req_at (rpcrdma_buffer_get x).2 p = req_at x p)) ∧
    (∀ r rest, x.rx_buf.rb_send_bufs = r :: rest →
      -2 ^ 31 ≤ x.rx_buf.rb_send_count → x.rx_buf.rb_send_count < 2 ^ 31 - 1 →
      (rpcrdma_buffer_get x).2.rx_buf.rb_send_count = x.rx_buf.rb_send_count + 1 ∧
      (rpcrdma_buffer_get x).2.rx_buf =
        (rpcrdma_buffer_get_rep { x.rx_buf with
          rb_send_count := x.rx_buf.rb_send_count + 1, rb_send_bufs := rest }).2 ∧
      (r < x.req_mem.length →
        (req_at (rpcrdma_buffer_get x).2 r).rl_reply =
          (rpcrdma_buffer_get_rep { x.rx_buf with
            rb_send_count := x.rx_buf.rb_send_count + 1, rb_send_bufs := rest }).1)) ∧
    (∀ r rest, x.rx_buf.rb_send_bufs = r :: rest →
      x.rx_buf.rb_send_count = 2 ^ 31 - 1 →
      (rpcrdma_buffer_get x).2.rx_buf.rb_send_count = -2 ^ 31) := by
  have main : ∀ r rest, x.rx_buf.rb_send_bufs = r :: rest →
      (rpcrdma_buffer_get x).1 = some r ∧
      (rpcrdma_buffer_get x).2.rx_buf =
        (rpcrdma_buffer_get_rep { x.rx_buf with
          rb_send_count := int_wrap (x.rx_buf.rb_send_count + 1), rb_send_bufs := rest }).2 ∧
      (rpcrdma_buffer_get x).2.rx_buf.rb_send_count = int_wrap (x.rx_buf.rb_send_count + 1) ∧
      (rpcrdma_buffer_get x).2.rx_buf.rb_send_bufs = rest ∧
      (rpcrdma_buffer_get x).2.req_mem =
        x.req_mem.set r { req_at x r with
          rl_reply := (rpcrdma_buffer_get_rep { x.rx_buf with
            rb_send_count := int_wrap (x.rx_buf.rb_send_count + 1),
            rb_send_bufs := rest }).1 } ∧
      (r < x.req_mem.length →
        (req_at (rpcrdma_buffer_get x).2 r).rl_reply =
          (rpcrdma_buffer_get_rep { x.rx_buf with
            rb_send_count := int_wrap (x.rx_buf.rb_send_count + 1),
            rb_send_bufs := rest }).1) ∧
      (∀ p, p ≠ r → req_at (rpcrdma_buffer_get x).2 p = req_at x p) := by
    intro r rest h
    obtain ⟨f1, f2, -⟩ := buffer_get_rep_frame
      { x.rx_buf with rb_send_count := int_wrap (x.rx_buf.rb_send_count + 1),
                      rb_send_bufs := rest }
    rw [buffer_get_cons x r rest h]
    refine ⟨rfl, rfl, f2, f1, rfl, ?_, ?_⟩
    · intro hr
      exact req_at_set_rl_reply_eq _ _ _ hr
    · intro p hp
      rw [req_at_set_rl_reply_ne _ _ _ _ hp]
      rfl
  refine ⟨buffer_get_nil x, main, ?_, ?_⟩
  · intro r rest h h1 h2
    obtain ⟨-, m2, m3, -, -, m6, -⟩ := main r rest h
    have hw : int_wrap (x.rx_buf.rb_send_count + 1) = x.rx_buf.rb_send_count + 1 :=
      int_wrap_eq _ (by omega) (by omega)
    rw [hw] at m2 m3 m6
    exact ⟨m3, m2, m6⟩
  · intro r rest h hmax
    obtain ⟨-, -, m3, -⟩ := main r rest h
    rw [m3, hmax]
    decide

/-- The get on the fresh sample pool hands out request 0 with reply 1 attached
and counts it; a second get finds the request free list empty, returns NULL and
changes nothing. -/
theorem buffer_get_postcondition_witness :
    (rpcrdma_buffer_get sample_pool).1 = some 0 ∧
    (rpcrdma_buffer_get sample_pool).2.rx_buf.rb_send_count = 1 ∧
    (req_at (rpcrdma_buffer_get sample_pool).2 0).rl_reply = some 1 ∧
    rpcrdma_buffer_get (rpcrdma_buffer_get sample_pool).2 =
      (none, (rpcrdma_buffer_get sample_pool).2) := by
  have h := (buffer_get_postcondition sample_pool).2.1 0 [] (by decide)
  have k := (buffer_get_postcondition sample_pool).2.2.1 0 [] (by decide) (by decide) (by decide)
  refine ⟨h.1, ?_, ?_, ?_⟩
  · rw [k.1]; decide
  · rw [k.2.2 (by decide)]; decide
  · exact (buffer_get_postcondition (rpcrdma_buffer_get sample_pool).2).1 (by decide)

/-- C12, the claim refuted on a concrete input: the sample pool with both
counters at `INT_MAX`.  `rpcrdma_buffer_get` hands out request 0 and leaves
`rb_send_count` at `INT_MIN`; `rpcrdma_buffer_put` of request 0 then takes
`rb_send_count` from `INT_MIN` to `INT_MAX`, which restores the value before
the get but is no decrement by 1. -/
theorem put_wraps_at_int_min :
    sample_pool_int_max.rx_buf.rb_send_bufs = [0] ∧
    sample_pool_int_max.rx_buf.rb_send_count = 2147483647 ∧
    (rpcrdma_buffer_get sample_pool_int_max).1 = some 0 ∧
    (rpcrdma_buffer_get sample_pool_int_max).2.rx_buf.rb_send_count = -2147483648 ∧
    (rpcrdma_buffer_put (rpcrdma_buffer_get sample_pool_int_max).2 0).rx_buf.rb_send_count
      = 2147483647 ∧
    (rpcrdma_buffer_put (rpcrdma_buffer_get sample_pool_int_max).2 0).rx_buf.rb_send_count
      ≠ (rpcrdma_buffer_get sample_pool_int_max).2.rx_buf.rb_send_count - 1 := by
  decide

/-- C12, amended (put undoes get).  Take a pool whose request free list is not
empty, whose first request `r` is a live object and whose two counters hold
values of a C `int`.  `rpcrdma_buffer_get` hands out `r`, and
`rpcrdma_buffer_put` of `r` right after it brings `rb_send_count` and
`rb_recv_count` back to their values before the get and both free lists back to
the same buffers (in a rotated order, same lengths), with `rl_reply` of `r`
cleared.  In any state, `rpcrdma_buffer_put` of a request decrements
`rb_send_count`, a C `int`, and appends the request to the free list, clears
its `rl_reply`, and decrements `rb_recv_count` and appends the reply to the
reply free list exactly when a reply was attached.  A decrement is by exactly
1 whenever the counter is above `INT_MIN`; at `INT_MIN` it wraps around to
`INT_MAX`. -/
theorem buffer_put_undoes_get (x : rpcrdma_xprt) (r : ptr) (rest : List ptr)
    (h : x.rx_buf.rb_send_bufs = r :: rest) (hr : r < x.req_mem.length)
    (hsc : -2 ^ 31 ≤ x.rx_buf.rb_send_count ∧ x.rx_buf.rb_send_count < 2 ^ 31)
    (hrc : -2 ^ 31 ≤ x.rx_buf.rb_recv_count ∧ x.rx_buf.rb_recv_count < 2 ^ 31) :
    (rpcrdma_buffer_get x).1 = some r ∧
    (rpcrdma_buffer_put (rpcrdma_buffer_get x).2 r).rx_buf.rb_send_count
      = x.rx_buf.rb_send_count ∧
    (rpcrdma_buffer_put (rpcrdma_buffer_get x).2 r).rx_buf.rb_recv_count
      = x.rx_buf.rb_recv_count ∧
    (rpcrdma_buffer_put (rpcrdma_buffer_get x).2 r).rx_buf.rb_send_bufs.Perm
      x.rx_buf.rb_send_bufs ∧
    (rpcrdma_buffer_put (rpcrdma_buffer_get x).2 r).rx_buf.rb_recv_bufs.Perm
      x.rx_buf.rb_recv_bufs ∧
    (rpcrdma_buffer_put (rpcrdma_buffer_get x).2 r).rx_buf.rb_send_bufs.length
      = x.rx_buf.rb_send_bufs.length ∧
    (rpcrdma_buffer_put (rpcrdma_buffer_get x).2 r).rx_buf.rb_recv_bufs.length
      = x.rx_buf.rb_recv_bufs.length ∧
    (req_at (rpcrdma_buffer_put (rpcrdma_buffer_get x).2 r) r).rl_reply = none ∧
    (∀ (z : rpcrdma_xprt) (q : ptr),
      (rpcrdma_buffer_put z q).rx_buf.rb_send_count = int_wrap (z.rx_buf.rb_send_count - 1) ∧
      (rpcrdma_buffer_put z q).rx_buf.rb_send_bufs = z.rx_buf.rb_send_bufs ++ [q] ∧
      (rpcrdma_buffer_put z q).rx_buf.rb_recv_count =
        (if (req_at z q).rl_reply.isSome then int_wrap (z.rx_buf.rb_recv_count - 1)
         else z.rx_buf.rb_recv_count) ∧
      (rpcrdma_buffer_put z q).rx_buf.rb_recv_bufs =
        z.rx_buf.rb_recv_bufs ++ (req_at z q).rl_reply.toList ∧
      (q < z.req_mem.length → (req_at (rpcrdma_buffer_put z q) q).rl_reply = none) ∧
      (-2 ^ 31 < z.rx_buf.rb_send_count → z.rx_buf.rb_send_count < 2 ^ 31 →
        (rpcrdma_buffer_put z q).rx_buf.rb_send_count = z.rx_buf.rb_send_count - 1) ∧
      (-2 ^ 31 < z.rx_buf.rb_recv_count → z.rx_buf.rb_recv_count < 2 ^ 31 →
        (rpcrdma_buffer_put z q).rx_buf.rb_recv_count =
          z.rx_buf.rb_recv_count - (if (req_at z q).rl_reply.isSome then 1 else 0)) ∧
      (z.rx_buf.rb_send_count = -2 ^ 31 →
        (rpcrdma_buffer_put z q).rx_buf.rb_send_count = 2 ^ 31 - 1)) := by
  have hg := buffer_get_cons x r rest h
  have hv := req_at_set_rl_reply_eq
    { x with rx_buf := (rpcrdma_buffer_get_rep { x.rx_buf with
        rb_send_count := int_wrap (x.rx_buf.rb_send_count + 1), rb_send_bufs := rest }).2 }
    r (rpcrdma_buffer_get_rep { x.rx_buf with
        rb_send_count := int_wrap (x.rx_buf.rb_send_count + 1), rb_send_bufs := rest }).1 hr
  have hlen : (rpcrdma_buffer_get x).2.req_mem.length = x.req_mem.length := by
    rw [hg]; simp [set_rl_reply]
  obtain ⟨p1, p2, p3, p4, p5⟩ := buffer_put_facts (rpcrdma_buffer_get x).2 r
  have hbuf : (rpcrdma_buffer_get x).2.rx_buf = (rpcrdma_buffer_get_rep { x.rx_buf with
        rb_send_count := int_wrap (x.rx_buf.rb_send_count + 1), rb_send_bufs := rest }).2 := by
    rw [hg]; rfl
  have hrep : (req_at (rpcrdma_buffer_get x).2 r).rl_reply = (rpcrdma_buffer_get_rep
      { x.rx_buf with
        rb_send_count := int_wrap (x.rx_buf.rb_send_count + 1), rb_send_bufs := rest }).1 := by
    rw [hg]; exact hv
  have ws := int_wrap_dec_inc x.rx_buf.rb_send_count hsc.1 hsc.2
  have wr := int_wrap_dec_inc x.rx_buf.rb_recv_count hrc.1 hrc.2
  have key : (rpcrdma_buffer_put (rpcrdma_buffer_get x).2 r).rx_buf.rb_send_count
        = x.rx_buf.rb_send_count ∧
      (rpcrdma_buffer_put (rpcrdma_buffer_get x).2 r).rx_buf.rb_recv_count
        = x.rx_buf.rb_recv_count ∧
      (rpcrdma_buffer_put (rpcrdma_buffer_get x).2 r).rx_buf.rb_send_bufs.Perm
        x.rx_buf.rb_send_bufs ∧
      (rpcrdma_buffer_put (rpcrdma_buffer_get x).2 r).rx_buf.rb_recv_bufs.Perm
        x.rx_buf.rb_recv_bufs := by
    rw [p1, p2, p3, p4, hrep, hbuf]
    rcases buffer_get_rep_cases { x.rx_buf with
        rb_send_count := int_wrap (x.rx_buf.rb_send_count + 1), rb_send_bufs := rest } with
      ⟨hn, -⟩ | ⟨p, prest, hp, -, hs⟩
    · rw [hn]
      refine ⟨by simpa using ws, by simp, ?_, by simp⟩
      rw [h]
      simp
    · rw [hs]
      have hp1 : x.rx_buf.rb_recv_bufs = p :: prest := hp
      refine ⟨by simpa using ws, by simpa using wr, ?_, ?_⟩
      · rw [h]
        simp
      · rw [hp1]
        simp
  refine ⟨by rw [hg], key.1, key.2.1, key.2.2.1, key.2.2.2, key.2.2.1.length_eq,
    key.2.2.2.length_eq, p5 (by rw [hlen]; exact hr), ?_⟩
  intro z q
  obtain ⟨q1, q2, q3, q4, q5⟩ := buffer_put_facts z q
  refine ⟨q1, q2, q3, q4, q5, ?_, ?_, ?_⟩
  · intro a1 a2
    rw [q1, int_wrap_eq _ (by omega) (by omega)]
  · intro a1 a2
    rw [q3]
    split
    · rw [int_wrap_eq _ (by omega) (by omega)]
    · simp
  · intro a1
    rw [q1, a1]
    decide

/-- The fresh sample pool: get hands out request 0 with reply 1; after the put
both counters are 0 again and the free lists hold the same buffers. -/
theorem buffer_put_undoes_get_witness :
    (rpcrdma_buffer_get sample_pool).1 = some 0 ∧
    (rpcrdma_buffer_put (rpcrdma_buffer_get sample_pool).2 0).rx_buf.rb_send_count = 0 ∧
    (rpcrdma_buffer_put (rpcrdma_buffer_get sample_pool).2 0).rx_buf.rb_recv_count = 0 ∧
    (rpcrdma_buffer_put (rpcrdma_buffer_get sample_pool).2 0).rx_buf.rb_recv_bufs.Perm
      [1, 0] := by
  have k := buffer_put_undoes_get sample_pool 0 [] (by decide) (by decide) (by decide)
    (by decide)
  exact ⟨k.1, k.2.1, k.2.2.1, k.2.2.2.2.1⟩

/-! ## Filling the region pool -/

theorem create_mrs_loop_spec (e : create_mrs_env) (n : Nat) :
    ∀ (j count : Nat) (x : rpcrdma_xprt) (free all : List ptr), j ≤ n →
    (∀ i, i < j → e.kzalloc_ok (count + i) = true ∧ e.ro_init_mr (count + i) = 0) →
    (j < n → ¬ (e.kzalloc_ok (count + j) = true ∧ e.ro_init_mr (count + j) = 0)) →
    (rpcrdma_create_mrs_loop e n count x free all).1 = count + j ∧
    (rpcrdma_create_mrs_loop e n count x free all).2.1.mw_mem =
      x.mw_mem ++ List.replicate j rpcrdma_mw_zero ∧
    (rpcrdma_create_mrs_loop e n count x free all).2.1.mrs_allocated = x.mrs_allocated ∧
    (rpcrdma_create_mrs_loop e n count x free all).2.2.1 =
      (List.range' x.mw_mem.length j).reverse ++ free ∧
    (rpcrdma_create_mrs_loop e n count x free all).2.2.2 =
      (List.range' x.mw_mem.length j).reverse ++ all := by
  induction n with
  | zero =>
    intro j count x free all hj _ _
    have : j = 0 := by omega
    subst this
    simp [rpcrdma_create_mrs_loop]
  | succ n ih =>
    intro j count x free all hj hok hfail
    unfold rpcrdma_create_mrs_loop
    cases j with
    | zero =>
      have hf := hfail (by omega)
      simp only [Nat.add_zero] at hf
      by_cases hk : e.kzalloc_ok count = true
      · have hi : e.ro_init_mr count ≠ 0 := fun h0 => hf ⟨hk, h0⟩
        simp [hk, hi]
      · simp [hk]
    | succ j =>
      have h0 := hok 0 (by omega)
      simp only [Nat.add_zero] at h0
      have ih1 := ih j (count + 1)
        { x with calls := x.calls ++ [provider_call.ro_init_mr],
                 mw_mem := x.mw_mem ++ [rpcrdma_mw_zero] }
        (x.mw_mem.length :: free) (x.mw_mem.length :: all) (by omega)
        (fun i hi => by
          have := hok (i + 1) (by omega)
          rwa [show count + 1 + i = count + (i + 1) by omega])
        (fun hlt => by
          have := hfail (by omega)
          rwa [show count + 1 + j = count + (j + 1) by omega])
      simp only [h0.1, h0.2, Bool.not_true, Bool.false_eq_true, if_false, ne_eq,
        not_true_eq_false]
      obtain ⟨a1, a2, a3, a4, a5⟩ := ih1
      refine ⟨by rw [a1]; omega, ?_, a3, ?_, ?_⟩
      · rw [a2]
        simp [List.replicate_succ]
      · rw [a4]
        simp [List.range'_succ, List.length_append]
      · rw [a5]
        simp [List.range'_succ, List.length_append]

/-- C19 (partial region fill).  Let `k ≤ 32` be the first attempt of
`rpcrdma_create_mrs` at which `kzalloc` or `ro_init_mr` fails (`k = 32` when
none of the 32 attempts fails).  Then exactly `k` new regions, the next `k`
objects of the arena, are spliced in front of the free list `rb_mws` and in
front of the all-regions list `rb_all`, the regions present before stay behind
them and keep their contents, and `mrs_allocated` is the old value plus `k` in
64-bit unsigned arithmetic, so it grows by exactly `k` unless the counter
wraps.  The function has no return value, so no error is reported; the rest of
the pool is unchanged. -/
theorem create_mrs_partial_fill (e : create_mrs_env) (x : rpcrdma_xprt) (k : Nat)
    (hk : k ≤ 32)
    (hok : ∀ i, i < k → e.kzalloc_ok i = true ∧ e.ro_init_mr i = 0)
    (hfail : k < 32 → ¬ (e.kzalloc_ok k = true ∧ e.ro_init_mr k = 0)) :
    (rpcrdma_create_mrs e x).rx_buf.rb_mws =
      (List.range' x.mw_mem.length k).reverse ++ x.rx_buf.rb_mws ∧
    (rpcrdma_create_mrs e x).rx_buf.rb_all =
      (List.range' x.mw_mem.length k).reverse ++ x.rx_buf.rb_all ∧
    (rpcrdma_create_mrs e x).rx_buf.rb_mws.length = x.rx_buf.rb_mws.length + k ∧
    (rpcrdma_create_mrs e x).rx_buf.rb_all.length = x.rx_buf.rb_all.length + k ∧
    (rpcrdma_create_mrs e x).mrs_allocated = (x.mrs_allocated + k) % 2 ^ 64 ∧
    (x.mrs_allocated + k < 2 ^ 64 →
      (rpcrdma_create_mrs e x).mrs_allocated = x.mrs_allocated + k) ∧
    (rpcrdma_create_mrs e x).mw_mem = x.mw_mem ++ List.replicate k rpcrdma_mw_zero ∧
    (rpcrdma_create_mrs e x).rx_buf.rb_stale_mrs = x.rx_buf.rb_stale_mrs ∧
    (rpcrdma_create_mrs e x).rx_buf.rb_send_bufs = x.rx_buf.rb_send_bufs ∧
    (rpcrdma_create_mrs e x).rx_buf.rb_recv_bufs = x.rx_buf.rb_recv_bufs := by
  obtain ⟨a1, a2, a3, a4, a5⟩ := create_mrs_loop_spec e 32 k 0 x [] [] hk
    (fun i hi => by simpa using hok i hi) (fun h => by simpa using hfail h)
  have hb := (create_mrs_loop_frame e 32 0 x [] []).1
  simp only [Nat.zero_add, List.append_nil] at a1 a4 a5
  have m1 : (rpcrdma_create_mrs e x).rx_buf.rb_mws =
      (List.range' x.mw_mem.length k).reverse ++ x.rx_buf.rb_mws := by
    simp [rpcrdma_create_mrs, a4, hb]
  have m2 : (rpcrdma_create_mrs e x).rx_buf.rb_all =
      (List.range' x.mw_mem.length k).reverse ++ x.rx_buf.rb_all := by
    simp [rpcrdma_create_mrs, a5, hb]
  have m3 : (rpcrdma_create_mrs e x).mrs_allocated = (x.mrs_allocated + k) % 2 ^ 64 := by
    simp [rpcrdma_create_mrs, a1, a3]
  refine ⟨m1, m2, ?_, ?_, m3, ?_, ?_, ?_, ?_, ?_⟩
  · rw [m1]; simp; omega
  · rw [m2]; simp; omega
  · intro hlt
    rw [m3]
    exact Nat.mod_eq_of_lt hlt
  · simp [rpcrdma_create_mrs, a2]
  · simp [rpcrdma_create_mrs, hb]
  · simp [rpcrdma_create_mrs, hb]
  · simp [rpcrdma_create_mrs, hb]

/-- On the sample pool (regions 0 to 31 already present) a fill whose third
registration fails adds the regions 32 and 33 and counts 2. -/
theorem create_mrs_partial_fill_witness :
    (rpcrdma_create_mrs sample_fill_env sample_pool).rx_buf.rb_mws =
      (List.range' sample_pool.mw_mem.length 2).reverse ++ sample_pool.rx_buf.rb_mws ∧
    (rpcrdma_create_mrs sample_fill_env sample_pool).mrs_allocated
      = sample_pool.mrs_allocated + 2 := by
  have k := create_mrs_partial_fill sample_fill_env sample_pool 2 (by decide)
    (by
      intro i hi
      have : i = 0 ∨ i = 1 := by omega
      rcases this with h | h <;> subst h <;> decide)
    (by intro _; decide)
  exact ⟨k.1, k.2.2.2.2.2.1 (by decide)⟩

/-! ## Opening the adapter -/

theorem create_id_ok_id (h : xprt_rdma_h) (w : rpcrdma_xprt → rpcrdma_xprt)
    (e : create_id_env) (x : rpcrdma_xprt) (id : rdma_cm_id) (x1 : rpcrdma_xprt)
    (hid : rpcrdma_create_id h w e x = (Except.ok id, x1)) :
    id.qp = none ∧ id.device = e.device ∧ e.rdma_create_id = Except.ok id.handle := by
  unfold rpcrdma_create_id at hid
  cases hc : e.rdma_create_id with
  | error rc => simp [hc] at hid
  | ok handle =>
    simp only [hc, rpcrdma_create_id_out] at hid
    split_ifs at hid <;> simp only [Prod.mk.injEq, Except.ok.injEq, reduceCtorEq,
      false_and] at hid
    rw [← hid.1]
    exact ⟨rfl, rfl, rfl⟩

/-- C16, the claim refuted on a concrete input: with the module parameter
`xprt_rdma_memreg_strategy` set to `RPCRDMA_MTHCAFMR`, on a device that
supports FRWR (and FMR), `rpcrdma_ia_open` selects the FMR strategy, not FRWR;
and with the parameter set to 0 it fails with `-EINVAL` on the same device. -/
theorem ia_open_skips_supported_frwr :
    sample_ia_open_env.frwr_is_supported = true ∧
    (rpcrdma_ia_open mthcafmr_h (fun y => y) sample_ia_open_env (sample_xprt 1 8 8)).1 = 0 ∧
    (rpcrdma_ia_open mthcafmr_h (fun y => y) sample_ia_open_env
      (sample_xprt 1 8 8)).2.rx_ia.ri_ops = some memreg_ops.rpcrdma_fmr_memreg_ops ∧
    (rpcrdma_ia_open bounce_h (fun y => y) sample_ia_open_env (sample_xprt 1 8 8)).1
      = -EINVAL := by
  decide

/-- C16, amended.  Once `rpcrdma_create_id` has returned an identifier `id` and
`ib_alloc_pd` a protection domain `pd`, the outcome of `rpcrdma_ia_open` is
decided by the module parameter `xprt_rdma_memreg_strategy` first and by the
device second.  With the parameter equal to `RPCRDMA_FRMR`: FRWR when the
device supports it, otherwise FMR when the device supports that.  With the
parameter equal to `RPCRDMA_MTHCAFMR`: FMR when the device supports it, FRWR
not being considered.  In every other case (no considered strategy is
supported, or the parameter has another value) the function returns `-EINVAL`
after `rpcrdma_ia_close`: identifier and protection domain are destroyed and
`ri_id`, `ri_device`, `ri_pd` are NULL.  In the two successful cases the return
value is 0 and identifier, device and protection domain are installed. -/
theorem ia_open_strategy_selection (h : xprt_rdma_h) (w : rpcrdma_xprt → rpcrdma_xprt)
    (e : ia_open_env) (x : rpcrdma_xprt) (id : rdma_cm_id) (x1 : rpcrdma_xprt) (pd : Nat)
    (hid : rpcrdma_create_id h w e.id x = (Except.ok id, x1))
    (hpd : e.ib_alloc_pd = Except.ok pd)
    (hne : h.RPCRDMA_FRMR ≠ h.RPCRDMA_MTHCAFMR) :
    (h.xprt_rdma_memreg_strategy = h.RPCRDMA_FRMR → e.frwr_is_supported = true →
      rpcrdma_ia_open h w e x =
        (0, { x1 with
          rx_ia := { x1.rx_ia with
            ri_id := some id, ri_device := id.device, ri_pd := some pd,
            ri_ops := some memreg_ops.rpcrdma_frwr_memreg_ops },
          calls := x1.calls ++ [provider_call.ib_alloc_pd id.device] })) ∧
    (((h.xprt_rdma_memreg_strategy = h.RPCRDMA_FRMR ∧ e.frwr_is_supported = false) ∨
        h.xprt_rdma_memreg_strategy = h.RPCRDMA_MTHCAFMR) → e.fmr_is_supported = true →
      rpcrdma_ia_open h w e x =
        (0, { x1 with
          rx_ia := { x1.rx_ia with
            ri_id := some id, ri_device := id.device, ri_pd := some pd,
            ri_ops := some memreg_ops.rpcrdma_fmr_memreg_ops },
          calls := x1.calls ++ [provider_call.ib_alloc_pd id.device] })) ∧
    (((h.xprt_rdma_memreg_strategy = h.RPCRDMA_FRMR ∧ e.frwr_is_supported = false ∧
          e.fmr_is_supported = false) ∨
        (h.xprt_rdma_memreg_strategy = h.RPCRDMA_MTHCAFMR ∧ e.fmr_is_supported = false) ∨
        (h.xprt_rdma_memreg_strategy ≠ h.RPCRDMA_FRMR ∧
          h.xprt_rdma_memreg_strategy ≠ h.RPCRDMA_MTHCAFMR)) →
      (rpcrdma_ia_open h w e x).1 = -EINVAL ∧
      (rpcrdma_ia_open h w e x).2.rx_ia.ri_id = none ∧
      (rpcrdma_ia_open h w e x).2.rx_ia.ri_device = none ∧
      (rpcrdma_ia_open h w e x).2.rx_ia.ri_pd = none ∧
      (rpcrdma_ia_open h w e x).2.rx_ia.ri_ops = x1.rx_ia.ri_ops ∧
      (rpcrdma_ia_open h w e x).2.calls =
        x1.calls ++ [provider_call.ib_alloc_pd id.device,
          provider_call.rdma_destroy_id id.handle, provider_call.ib_dealloc_pd (some pd)]) := by
  have hq := (create_id_ok_id h w e.id x id x1 hid).1
  refine ⟨?_, ?_, ?_⟩
  · intro hs hf
    simp [rpcrdma_ia_open, hid, hpd, hs, hf]
  · intro hs hf
    rcases hs with ⟨hs, hw⟩ | hs
    · simp [rpcrdma_ia_open, hid, hpd, hs, hw, hf]
    · have hs1 : ¬ h.RPCRDMA_MTHCAFMR = h.RPCRDMA_FRMR := fun k => hne k.symm
      simp [rpcrdma_ia_open, hid, hpd, hs, hs1, hf]
  · intro hs
    rcases hs with ⟨hs, hw, hm⟩ | ⟨hs, hm⟩ | ⟨hs, hm⟩
    · simp [rpcrdma_ia_open, hid, hpd, hs, hw, hm, rpcrdma_ia_close, hq]
    · have hs1 : ¬ h.RPCRDMA_MTHCAFMR = h.RPCRDMA_FRMR := fun k => hne k.symm
      simp [rpcrdma_ia_open, hid, hpd, hs, hs1, hm, rpcrdma_ia_close, hq]
    · simp [rpcrdma_ia_open, hid, hpd, hs, hm, rpcrdma_ia_close, hq]

/-- With the default parameter (`RPCRDMA_FRMR`) the open of the sample adapter
selects FRWR on a device that supports it, and fails with `-EINVAL` on a device
that supports neither strategy. -/
theorem ia_open_strategy_selection_witness :
    (rpcrdma_ia_open upstream_h (fun y => y) sample_ia_open_env (sample_xprt 1 8 8)).1 = 0 ∧
    (rpcrdma_ia_open upstream_h (fun y => y) sample_ia_open_env
      (sample_xprt 1 8 8)).2.rx_ia.ri_ops = some memreg_ops.rpcrdma_frwr_memreg_ops ∧
    (rpcrdma_ia_open upstream_h (fun y => y) sample_unsupported_env
      (sample_xprt 1 8 8)).1 = -EINVAL ∧
    (rpcrdma_ia_open upstream_h (fun y => y) sample_unsupported_env
      (sample_xprt 1 8 8)).2.rx_ia.ri_id = none := by
  have k1 := ia_open_strategy_selection upstream_h (fun y => y) sample_ia_open_env
    (sample_xprt 1 8 8) { handle := 4, device := some 7, qp := none }
    (rpcrdma_create_id upstream_h (fun y => y) (sample_create_id_env 4) (sample_xprt 1 8 8)).2
    6 rfl rfl (by decide)
  have k2 := ia_open_strategy_selection upstream_h (fun y => y) sample_unsupported_env
    (sample_xprt 1 8 8) { handle := 4, device := some 7, qp := none }
    (rpcrdma_create_id upstream_h (fun y => y) (sample_create_id_env 4) (sample_xprt 1 8 8)).2
    6 rfl rfl (by decide)
  have a := k1.1 rfl rfl
  have b := k2.2.2 (Or.inl ⟨rfl, rfl, rfl⟩)
  exact ⟨by rw [a], by rw [a], b.1, b.2.1⟩

/-- C15, the claim refuted on a concrete input: the provider accepts the
request to resolve the address and no upcall arrives before the bounded wait
expires.  `rpcrdma_ia_open` then returns `-ETIMEDOUT`, the generic timeout
code, not `-EHOSTUNREACH`. -/
theorem ia_open_addr_timeout_is_etimedout :
    sample_addr_timeout_env.id.addr_wait = 0 ∧
    sample_addr_timeout_env.id.addr_events = [] ∧
    (rpcrdma_ia_open upstream_h (fun y => y) sample_addr_timeout_env (sample_xprt 1 8 8)).1
      = -ETIMEDOUT ∧
    -ETIMEDOUT ≠ -EHOSTUNREACH := by
  decide

/-- C15, amended.  Let `rdma_create_id` hand out an identifier `handle`.
Address phase: when the provider rejects `rdma_resolve_addr`, `rpcrdma_ia_open`
returns the provider's code; when the wait is interrupted it returns the code
of the wait; when the wait ends and the only upcall was `ADDR_ERROR` it returns
`-EHOSTUNREACH`; when the wait expires without any upcall it returns
`-ETIMEDOUT`.  Route phase (after an address phase ended by `ADDR_RESOLVED`):
the same with `rdma_resolve_route`, `ROUTE_ERROR` and `-ENETUNREACH`, an
expired wait again giving `-ETIMEDOUT`.  Whenever `rpcrdma_create_id` fails
with a code `rc`, `rpcrdma_ia_open` returns `rc`, the last provider call of
`rpcrdma_create_id` was `rdma_destroy_id` on the new identifier, `ri_id` is
NULL afterwards and `rpcrdma_ia_close` adds at most the release of a
protection domain that was already there. -/
theorem ia_open_resolution_failures (h : xprt_rdma_h) (w : rpcrdma_xprt → rpcrdma_xprt)
    (e : ia_open_env) (x : rpcrdma_xprt) (handle : Nat)
    (hc : e.id.rdma_create_id = Except.ok handle) :
    (e.id.rdma_resolve_addr_rc ≠ 0 →
      (rpcrdma_ia_open h w e x).1 = e.id.rdma_resolve_addr_rc) ∧
    (e.id.rdma_resolve_addr_rc = 0 → e.id.addr_wait < 0 →
      (rpcrdma_ia_open h w e x).1 = e.id.addr_wait) ∧
    (e.id.rdma_resolve_addr_rc = 0 → 0 ≤ e.id.addr_wait →
      (∀ ev, ev.event = rdma_cm_event_type.RDMA_CM_EVENT_ADDR_ERROR →
        e.id.addr_events = [ev] → (rpcrdma_ia_open h w e x).1 = -EHOSTUNREACH) ∧
      (e.id.addr_events = [] → (rpcrdma_ia_open h w e x).1 = -ETIMEDOUT) ∧
      (∀ ev, ev.event = rdma_cm_event_type.RDMA_CM_EVENT_ADDR_RESOLVED →
        e.id.addr_events = [ev] →
        (e.id.rdma_resolve_route_rc ≠ 0 →
          (rpcrdma_ia_open h w e x).1 = e.id.rdma_resolve_route_rc) ∧
        (e.id.rdma_resolve_route_rc = 0 → e.id.route_wait < 0 →
          (rpcrdma_ia_open h w e x).1 = e.id.route_wait) ∧
        (e.id.rdma_resolve_route_rc = 0 → 0 ≤ e.id.route_wait →
          (∀ ev1, ev1.event = rdma_cm_event_type.RDMA_CM_EVENT_ROUTE_ERROR →
            e.id.route_events = [ev1] → (rpcrdma_ia_open h w e x).1 = -ENETUNREACH) ∧
          (e.id.route_events = [] → (rpcrdma_ia_open h w e x).1 = -ETIMEDOUT)))) ∧
    (∀ rc x1, rpcrdma_create_id h w e.id x = (Except.error rc, x1) →
      (rpcrdma_ia_open h w e x).1 = rc ∧
      (∃ pre, x1.calls = pre ++ [provider_call.rdma_destroy_id handle]) ∧
      (rpcrdma_ia_open h w e x).2.rx_ia.ri_id = none ∧
      (rpcrdma_ia_open h w e x).2.calls = x1.calls ++
        (match x1.rx_ia.ri_pd with
         | some pd => [provider_call.ib_dealloc_pd (some pd)]
         | none => [])) := by
  have hE : ETIMEDOUT ≠ 0 := by decide
  have hH : EHOSTUNREACH ≠ 0 := by decide
  have hN : ENETUNREACH ≠ 0 := by decide
  refine ⟨?_, ?_, ?_, ?_⟩
  · intro h1
    simp [rpcrdma_ia_open, rpcrdma_create_id, rpcrdma_create_id_out, hc, h1]
  · intro h1 h2
    simp [rpcrdma_ia_open, rpcrdma_create_id, rpcrdma_create_id_out, hc, h1, h2]
  · intro h1 h2
    have h2n : ¬ e.id.addr_wait < 0 := not_lt.mpr h2
    refine ⟨?_, ?_, ?_⟩
    · intro ev hev hl
      simp [rpcrdma_ia_open, rpcrdma_create_id, rpcrdma_create_id_out, hc, h1, h2n, hl,
        deliver, rpcrdma_conn_upcall, hev, hH]
    · intro hl
      simp [rpcrdma_ia_open, rpcrdma_create_id, rpcrdma_create_id_out, hc, h1, h2n, hl,
        deliver, hE]
    · intro ev hev hl
      refine ⟨?_, ?_, ?_⟩
      · intro h3
        simp [rpcrdma_ia_open, rpcrdma_create_id, rpcrdma_create_id_out, hc, h1, h2n, hl,
          deliver, rpcrdma_conn_upcall, hev, h3]
      · intro h3 h4
        simp [rpcrdma_ia_open, rpcrdma_create_id, rpcrdma_create_id_out, hc, h1, h2n, hl,
          deliver, rpcrdma_conn_upcall, hev, h3, h4]
      · intro h3 h4
        have h4n : ¬ e.id.route_wait < 0 := not_lt.mpr h4
        refine ⟨?_, ?_⟩
        · intro ev1 hev1 hl1
          simp [rpcrdma_ia_open, rpcrdma_create_id, rpcrdma_create_id_out, hc, h1, h2n, hl,
            deliver, rpcrdma_conn_upcall, hev, h3, h4n, hl1, hev1, hN]
        · intro hl1
          simp [rpcrdma_ia_open, rpcrdma_create_id, rpcrdma_create_id_out, hc, h1, h2n, hl,
            deliver, rpcrdma_conn_upcall, hev, h3, h4n, hl1, hE]
  · intro rc x1 hx
    have hpre : ∃ pre, x1.calls = pre ++ [provider_call.rdma_destroy_id handle] := by
      unfold rpcrdma_create_id at hx
      simp only [hc, rpcrdma_create_id_out] at hx
      split_ifs at hx <;> simp only [Prod.mk.injEq, reduceCtorEq, false_and] at hx <;>
        exact ⟨_, by rw [← hx.2]⟩
    refine ⟨by simp [rpcrdma_ia_open, hx], hpre, by simp [rpcrdma_ia_open, hx, rpcrdma_ia_close],
      ?_⟩
    simp [rpcrdma_ia_open, hx, rpcrdma_ia_close]

/-- An address resolution that ends with `ADDR_ERROR` makes the open of the
sample adapter fail with `-EHOSTUNREACH`; one that times out, with
`-ETIMEDOUT`; in both cases `ri_id` is NULL afterwards. -/
theorem ia_open_resolution_failures_witness :
    (rpcrdma_ia_open upstream_h (fun y => y) sample_addr_error_env (sample_xprt 1 8 8)).1
      = -EHOSTUNREACH ∧
    (rpcrdma_ia_open upstream_h (fun y => y) sample_addr_timeout_env (sample_xprt 1 8 8)).1
      = -ETIMEDOUT ∧
    (rpcrdma_ia_open upstream_h (fun y => y) sample_addr_timeout_env
      (sample_xprt 1 8 8)).2.rx_ia.ri_id = none := by
  have k1 := ia_open_resolution_failures upstream_h (fun y => y) sample_addr_error_env
    (sample_xprt 1 8 8) 4 rfl
  have k2 := ia_open_resolution_failures upstream_h (fun y => y) sample_addr_timeout_env
    (sample_xprt 1 8 8) 4 rfl
  refine ⟨(k1.2.2.1 rfl (by decide)).1 _ rfl rfl, (k2.2.2.1 rfl (by decide)).2.1 rfl, ?_⟩
  exact (k2.2.2.2 (-ETIMEDOUT)
    (rpcrdma_create_id upstream_h (fun y => y) sample_addr_timeout_id_env
      (sample_xprt 1 8 8)).2 rfl).2.2.1

/-! ## Failure paths of pool creation -/

theorem destroy_reps_buf : ∀ (l : List ptr) (x : rpcrdma_xprt), x.rx_buf.rb_recv_bufs = l →
    (rpcrdma_buffer_destroy_reps l x).rx_buf = { x.rx_buf with rb_recv_bufs := [] }
  | [], x, h => by
    simp only [rpcrdma_buffer_destroy_reps]
    rw [← h]
  | rep :: rest, x, _ => by
    simp only [rpcrdma_buffer_destroy_reps]
    rw [destroy_reps_buf rest _ (by simp [rpcrdma_destroy_rep])]
    simp [rpcrdma_destroy_rep]

theorem destroy_reqs_buf : ∀ (l : List ptr) (x : rpcrdma_xprt), x.rx_buf.rb_allreqs = l →
    (rpcrdma_buffer_destroy_reqs l x).rx_buf = { x.rx_buf with rb_allreqs := [] }
  | [], x, h => by
    simp only [rpcrdma_buffer_destroy_reqs]
    rw [← h]
  | req :: rest, x, _ => by
    simp only [rpcrdma_buffer_destroy_reqs]
    rw [destroy_reqs_buf rest _ (by simp [rpcrdma_destroy_req])]
    simp [rpcrdma_destroy_req]

theorem destroy_mrs_buf : ∀ (l : List ptr) (x : rpcrdma_xprt), x.rx_buf.rb_all = l →
    (rpcrdma_destroy_mrs_loop l x).rx_buf = { x.rx_buf with rb_all := [] }
  | [], x, h => by
    simp only [rpcrdma_destroy_mrs_loop]
    rw [← h]
  | mw :: rest, x, _ => by
    simp only [rpcrdma_destroy_mrs_loop]
    rw [destroy_mrs_buf rest _ rfl]

/-- What `rpcrdma_buffer_destroy` leaves behind on a pool whose reply free list
was initialised. -/
theorem buffer_destroy_spec (x : rpcrdma_xprt) (hinit : x.rx_buf.rb_recv_bufs_init = true) :
    ∃ y, rpcrdma_buffer_destroy x = some y ∧
      y.rx_buf = { x.rx_buf with
        rb_recv_bufs := [], rb_allreqs := [], rb_all := [],
        rb_send_count := 0, rb_recv_count := 0 } ∧
      y.mrs_allocated = 0 := by
  obtain ⟨x1, h1⟩ : ∃ x1 : rpcrdma_xprt, x1 = { x with calls := x.calls ++
    [provider_call.cancel_recovery_worker, provider_call.cancel_refresh_worker] } := ⟨_, rfl⟩
  obtain ⟨x2, h2⟩ : ∃ x2 : rpcrdma_xprt,
    x2 = rpcrdma_buffer_destroy_reps x1.rx_buf.rb_recv_bufs x1 := ⟨_, rfl⟩
  obtain ⟨x3, h3⟩ : ∃ x3 : rpcrdma_xprt,
    x3 = { x2 with rx_buf := { x2.rx_buf with rb_send_count := 0 } } := ⟨_, rfl⟩
  obtain ⟨x4, h4⟩ : ∃ x4 : rpcrdma_xprt,
    x4 = rpcrdma_buffer_destroy_reqs x3.rx_buf.rb_allreqs x3 := ⟨_, rfl⟩
  obtain ⟨x5, h5⟩ : ∃ x5 : rpcrdma_xprt,
    x5 = { x4 with rx_buf := { x4.rx_buf with rb_recv_count := 0 } } := ⟨_, rfl⟩
  have hd : rpcrdma_buffer_destroy x = some (rpcrdma_destroy_mrs x5) := by
    rw [h5, h4, h3, h2, h1]
    unfold rpcrdma_buffer_destroy
    simp only [hinit, Bool.not_true, Bool.false_eq_true, if_false]
  have b2 : x2.rx_buf = { x1.rx_buf with rb_recv_bufs := [] } := by
    rw [h2]
    exact destroy_reps_buf _ _ rfl
  have b4 : x4.rx_buf = { x3.rx_buf with rb_allreqs := [] } := by
    rw [h4]
    exact destroy_reqs_buf _ _ rfl
  have b6 : (rpcrdma_destroy_mrs x5).rx_buf = { x5.rx_buf with rb_all := [] } :=
    destroy_mrs_buf _ _ rfl
  refine ⟨_, hd, ?_, rfl⟩
  rw [b6, h5]
  simp only []
  rw [b4, h3]
  simp only []
  rw [b2, h1]

theorem buffer_destroy_map (rc : Int) (z : rpcrdma_xprt)
    (hz : z.rx_buf.rb_recv_bufs_init = true) :
    ∃ y, Option.map (fun y => (rc, y)) (rpcrdma_buffer_destroy z) = some (rc, y) ∧
      y.rx_buf.rb_allreqs = [] ∧ y.rx_buf.rb_recv_bufs = [] ∧ y.rx_buf.rb_all = [] ∧
      y.rx_buf.rb_send_count = 0 ∧ y.rx_buf.rb_recv_count = 0 := by
  obtain ⟨y, hy, hb, -⟩ := buffer_destroy_spec z hz
  exact ⟨y, by rw [hy]; rfl, by rw [hb], by rw [hb], by rw [hb], by rw [hb], by rw [hb]⟩

theorem create_mrs_init (e : create_mrs_env) (x : rpcrdma_xprt) :
    (rpcrdma_create_mrs e x).rx_buf.rb_recv_bufs_init = x.rx_buf.rb_recv_bufs_init := by
  simp [rpcrdma_create_mrs, (create_mrs_loop_frame e 32 0 x [] []).1]

theorem create_reqs_init (e : buffer_create_env) (n : Nat) : ∀ (i : Nat) (x : rpcrdma_xprt),
    (rpcrdma_buffer_create_reqs e n i x).2.rx_buf.rb_recv_bufs_init
      = x.rx_buf.rb_recv_bufs_init := by
  induction n with
  | zero => intro i x; rfl
  | succ n ih =>
    intro i x
    unfold rpcrdma_buffer_create_reqs
    by_cases hk : e.req_kzalloc_ok i = true
    · simp only [rpcrdma_create_req, hk, Bool.not_true, Bool.false_eq_true, if_false]
      rw [ih]
    · simp [rpcrdma_create_req, hk]

theorem create_reqs_max (e : buffer_create_env) (n : Nat) : ∀ (i : Nat) (x : rpcrdma_xprt),
    (rpcrdma_buffer_create_reqs e n i x).2.rx_buf.rb_max_requests
      = x.rx_buf.rb_max_requests := by
  induction n with
  | zero => intro i x; rfl
  | succ n ih =>
    intro i x
    unfold rpcrdma_buffer_create_reqs
    by_cases hk : e.req_kzalloc_ok i = true
    · simp only [rpcrdma_create_req, hk, Bool.not_true, Bool.false_eq_true, if_false]
      rw [ih]
    · simp [rpcrdma_create_req, hk]

theorem create_reqs_fail (e : buffer_create_env) (n : Nat) :
    ∀ (k i : Nat) (x : rpcrdma_xprt), k < n →
    (∀ j, j < k → e.req_kzalloc_ok (i + j) = true) → e.req_kzalloc_ok (i + k) = false →
    (rpcrdma_buffer_create_reqs e n i x).1 = -ENOMEM := by
  induction n with
  | zero => intro k i x hk; omega
  | succ n ih =>
    intro k i x hk hok hfail
    unfold rpcrdma_buffer_create_reqs
    cases k with
    | zero =>
      simp only [Nat.add_zero] at hfail
      simp [rpcrdma_create_req, hfail]
    | succ k =>
      have h0 := hok 0 (by omega)
      simp only [Nat.add_zero] at h0
      simp only [rpcrdma_create_req, h0, Bool.not_true, Bool.false_eq_true, if_false]
      exact ih k (i + 1) _ (by omega)
        (fun j hj => by
          have := hok (j + 1) (by omega)
          rwa [show i + 1 + j = i + (j + 1) by omega])
        (by rwa [show i + 1 + k = i + (k + 1) by omega])

theorem create_reqs_pass (e : buffer_create_env) (n : Nat) :
    ∀ (i : Nat) (x : rpcrdma_xprt), (∀ j, j < n → e.req_kzalloc_ok (i + j) = true) →
    (rpcrdma_buffer_create_reqs e n i x).1 = 0 := by
  induction n with
  | zero => intro i x _; rfl
  | succ n ih =>
    intro i x hok
    unfold rpcrdma_buffer_create_reqs
    have h0 := hok 0 (by omega)
    simp only [Nat.add_zero] at h0
    simp only [rpcrdma_create_req, h0, Bool.not_true, Bool.false_eq_true, if_false]
    exact ih (i + 1) _ (fun j hj => by
      have := hok (j + 1) (by omega)
      rwa [show i + 1 + j = i + (j + 1) by omega])

theorem create_reps_init (e : buffer_create_env) (n : Nat) : ∀ (i : Nat) (x : rpcrdma_xprt),
    (rpcrdma_buffer_create_reps e n i x).2.rx_buf.rb_recv_bufs_init
      = x.rx_buf.rb_recv_bufs_init := by
  induction n with
  | zero => intro i x; rfl
  | succ n ih =>
    intro i x
    unfold rpcrdma_buffer_create_reps
    by_cases h1 : e.rep_kzalloc_ok i = true
    · by_cases h2 : e.regbuf_kmalloc_ok i = true
      · simp only [rpcrdma_create_rep, h1, h2, Bool.not_true, Bool.false_eq_true, if_false,
          ne_eq, not_true_eq_false]
        rw [ih]
      · simp [rpcrdma_create_rep, h1, h2, ENOMEM]
    · simp [rpcrdma_create_rep, h1, ENOMEM]

theorem create_reps_fail (e : buffer_create_env) (n : Nat) :
    ∀ (k i : Nat) (x : rpcrdma_xprt), k < n →
    (∀ j, j < k → e.rep_kzalloc_ok (i + j) = true ∧ e.regbuf_kmalloc_ok (i + j) = true) →
    ¬ (e.rep_kzalloc_ok (i + k) = true ∧ e.regbuf_kmalloc_ok (i + k) = true) →
    (rpcrdma_buffer_create_reps e n i x).1 = -ENOMEM := by
  induction n with
  | zero => intro k i x hk; omega
  | succ n ih =>
    intro k i x hk hok hfail
    unfold rpcrdma_buffer_create_reps
    cases k with
    | zero =>
      simp only [Nat.add_zero] at hfail
      by_cases h1 : e.rep_kzalloc_ok i = true
      · have h2 : ¬ e.regbuf_kmalloc_ok i = true := fun h2 => hfail ⟨h1, h2⟩
        simp [rpcrdma_create_rep, h1, h2, ENOMEM]
      · simp [rpcrdma_create_rep, h1, ENOMEM]
    | succ k =>
      have h0 := hok 0 (by omega)
      simp only [Nat.add_zero] at h0
      simp only [rpcrdma_create_rep, h0.1, h0.2, Bool.not_true, Bool.false_eq_true, if_false,
        ne_eq, not_true_eq_false]
      exact ih k (i + 1) _ (by omega)
        (fun j hj => by
          have := hok (j + 1) (by omega)
          rwa [show i + 1 + j = i + (j + 1) by omega])
        (by rwa [show i + 1 + k = i + (k + 1) by omega])

/-- C14 (pool creation is not all-or-nothing).  `rpcrdma_buffer_create` runs on
a transport whose `rb_recv_bufs` list head has not been initialised.  When the
`kzalloc` of a request fails (the first failure at request `k`, below
`max_requests`), the function does not return: it reaches
`rpcrdma_buffer_destroy` before `INIT_LIST_HEAD(&buf->rb_recv_bufs)` has run,
and the teardown dereferences NULL.  When all requests are created and the
creation of a reply fails (the first failure at reply `j`, at most
`max_requests`), the function returns `-ENOMEM` and the teardown is complete:
the all-requests list, the reply free list and the all-regions list are empty
and both counters are 0. -/
theorem buffer_create_failure (e : buffer_create_env) (x : rpcrdma_xprt)
    (hinit : x.rx_buf.rb_recv_bufs_init = false) :
    (∀ k, k < x.rx_data.max_requests → (∀ i, i < k → e.req_kzalloc_ok i = true) →
      e.req_kzalloc_ok k = false → rpcrdma_buffer_create e x = none) ∧
    (∀ j, j ≤ x.rx_data.max_requests →
      (∀ i, i < x.rx_data.max_requests → e.req_kzalloc_ok i = true) →
      (∀ i, i < j → e.rep_kzalloc_ok i = true ∧ e.regbuf_kmalloc_ok i = true) →
      ¬ (e.rep_kzalloc_ok j = true ∧ e.regbuf_kmalloc_ok j = true) →
      ∃ y, rpcrdma_buffer_create e x = some (-ENOMEM, y) ∧
        y.rx_buf.rb_allreqs = [] ∧ y.rx_buf.rb_recv_bufs = [] ∧ y.rx_buf.rb_all = [] ∧
        y.rx_buf.rb_send_count = 0 ∧ y.rx_buf.rb_recv_count = 0) := by
  have hE : (-ENOMEM : Int) ≠ 0 := by decide
  have F3 := fun y => (create_mrs_frame e.mrs y).2.2.1
  refine ⟨?_, ?_⟩
  · intro k hk hok hfail
    have Q1 := fun y => create_reqs_fail e x.rx_data.max_requests k 0 y hk
      (fun j hj => by simpa using hok j hj) (by simpa using hfail)
    unfold rpcrdma_buffer_create
    simp only [F3, Q1, ne_eq, hE, not_false_eq_true, if_true]
    unfold rpcrdma_buffer_destroy
    simp [create_reqs_init, create_mrs_init, hinit]
  · intro j hj hreq hok hfail
    have Q1 := fun y => create_reqs_pass e x.rx_data.max_requests 0 y
      (fun j hj => by simpa using hreq j hj)
    have R1 := fun y => create_reps_fail e (x.rx_data.max_requests + 1) j 0 y (by omega)
      (fun i hi => by simpa using hok i hi) (by simpa using hfail)
    have Q6 := create_reqs_max e
    unfold rpcrdma_buffer_create
    simp only [F3, Q1, Q6, R1, ne_eq, hE, not_false_eq_true, if_true, not_true_eq_false,
      if_false]
    refine buffer_destroy_map _ _ ?_
    rw [create_reps_init]

/-- The zero-filled sample transport with room for one request: when the
`kzalloc` of that request fails, the creation of the pool ends in a NULL
dereference; when the `kzalloc` of the second reply fails, it returns
`-ENOMEM`. -/
theorem buffer_create_failure_witness :
    (sample_xprt 1 8 8).rx_buf.rb_recv_bufs_init = false ∧
    rpcrdma_buffer_create sample_req_fail_env (sample_xprt 1 8 8) = none ∧
    (rpcrdma_buffer_create sample_rep_fail_env (sample_xprt 1 8 8)).map (fun r => r.1)
      = some (-ENOMEM) := by
  have k := buffer_create_failure sample_req_fail_env (sample_xprt 1 8 8) rfl
  have k2 := buffer_create_failure sample_rep_fail_env (sample_xprt 1 8 8) rfl
  refine ⟨rfl, k.1 0 (by decide) (by intro i hi; omega) rfl, ?_⟩
  obtain ⟨y, hy, -⟩ := k2.2 1 (by decide) (by intro i _; rfl)
    (by
      intro i hi
      have : i = 0 := by omega
      subst this
      decide)
    (by decide)
  rw [hy]
  rfl

/-! ## Reconnecting -/

theorem upcall_no_removal (h : xprt_rdma_h) (w : rpcrdma_xprt → rpcrdma_xprt)
    (x : rpcrdma_xprt) (ev : rdma_cm_event)
    (hev : ev.event ≠ rdma_cm_event_type.RDMA_CM_EVENT_DEVICE_REMOVAL) :
    (rpcrdma_conn_upcall h w x ev).2.rx_ia.ri_id = x.rx_ia.ri_id ∧
    (rpcrdma_conn_upcall h w x ev).2.rx_ia.ri_device = x.rx_ia.ri_device ∧
    destroy_calls (rpcrdma_conn_upcall h w x ev).2.calls = destroy_calls x.calls := by
  rcases ev with ⟨k, st, conn⟩
  cases k <;>
    first
    | exact absurd rfl hev
    | (simp only [rpcrdma_conn_upcall, rpcrdma_conn_upcall_connected,
        rpcrdma_update_connect_private, destroy_calls, List.filter_append]
       refine ⟨?_, ?_, ?_⟩ <;> first | rfl | (split <;> rfl) | simp [is_destroy_call])

theorem deliver_no_removal (h : xprt_rdma_h) (w : rpcrdma_xprt → rpcrdma_xprt) :
    ∀ (evs : List rdma_cm_event) (x : rpcrdma_xprt),
    (∀ ev, ev ∈ evs → ev.event ≠ rdma_cm_event_type.RDMA_CM_EVENT_DEVICE_REMOVAL) →
    (deliver h w evs x).rx_ia.ri_id = x.rx_ia.ri_id ∧
    (deliver h w evs x).rx_ia.ri_device = x.rx_ia.ri_device ∧
    destroy_calls (deliver h w evs x).calls = destroy_calls x.calls
  | [], x, _ => ⟨rfl, rfl, rfl⟩
  | ev :: evs, x, hevs => by
    obtain ⟨a1, a2, a3⟩ := upcall_no_removal h w x ev (hevs ev (List.mem_cons_self _ _))
    obtain ⟨b1, b2, b3⟩ := deliver_no_removal h w evs (rpcrdma_conn_upcall h w x ev).2
      (fun e1 he1 => hevs e1 (List.mem_cons_of_mem _ he1))
    simp only [deliver]
    exact ⟨b1.trans a1, b2.trans a2, b3.trans a3⟩

theorem destroy_calls_nil : destroy_calls [] = [] := rfl

theorem destroy_calls_cons (c : provider_call) (cs : List provider_call) :
    destroy_calls (c :: cs) =
      if is_destroy_call c = true then c :: destroy_calls cs else destroy_calls cs := by
  simp only [destroy_calls, List.filter_cons]

theorem destroy_calls_append (a b : List provider_call) :
    destroy_calls (a ++ b) = destroy_calls a ++ destroy_calls b := by
  simp only [destroy_calls, List.filter_append]

theorem ep_disconnect_no_removal (h : xprt_rdma_h) (w : rpcrdma_xprt → rpcrdma_xprt)
    (e : disconnect_env) (x : rpcrdma_xprt) (old : rdma_cm_id)
    (hold : x.rx_ia.ri_id = some old)
    (hd : ∀ ev, ev ∈ e.events →
      ev.event ≠ rdma_cm_event_type.RDMA_CM_EVENT_DEVICE_REMOVAL) :
    ∃ x1, rpcrdma_ep_disconnect h w e x = some x1 ∧
      x1.rx_ia.ri_id = some old ∧ x1.rx_ia.ri_device = x.rx_ia.ri_device ∧
      destroy_calls x1.calls = destroy_calls x.calls := by
  unfold rpcrdma_ep_disconnect
  simp only [hold]
  by_cases hrc : e.rdma_disconnect_rc = 0
  · obtain ⟨d1, d2, d3⟩ := deliver_no_removal h w e.events
      { x with calls := x.calls ++ [provider_call.rdma_disconnect old.handle] ++
          [provider_call.wait_disconnect] } hd
    simp only [hrc, if_true]
    rw [d1]
    simp only [hold]
    refine ⟨_, rfl, ?_, ?_, ?_⟩
    · simp only [d1, hold]
    · simp only [d2]
    · simpa [destroy_calls_append, destroy_calls_cons, destroy_calls_nil, is_destroy_call]
        using d3
  · simp only [hrc, if_false, hold]
    refine ⟨_, rfl, hold, rfl, ?_⟩
    simp [destroy_calls_append, destroy_calls_cons, destroy_calls_nil, is_destroy_call]

theorem create_id_no_removal (h : xprt_rdma_h) (w : rpcrdma_xprt → rpcrdma_xprt)
    (e : create_id_env) (x : rpcrdma_xprt)
    (ha : ∀ ev, ev ∈ e.addr_events →
      ev.event ≠ rdma_cm_event_type.RDMA_CM_EVENT_DEVICE_REMOVAL)
    (hr : ∀ ev, ev ∈ e.route_events →
      ev.event ≠ rdma_cm_event_type.RDMA_CM_EVENT_DEVICE_REMOVAL) :
    (rpcrdma_create_id h w e x).2.rx_ia.ri_id = x.rx_ia.ri_id ∧
    (rpcrdma_create_id h w e x).2.rx_ia.ri_device = x.rx_ia.ri_device ∧
    (∀ id, (rpcrdma_create_id h w e x).1 = Except.ok id →
      destroy_calls (rpcrdma_create_id h w e x).2.calls = destroy_calls x.calls) := by
  have A1 := fun y => (deliver_no_removal h w e.addr_events y ha).1
  have A2 := fun y => (deliver_no_removal h w e.addr_events y ha).2.1
  have A3 := fun y => (deliver_no_removal h w e.addr_events y ha).2.2
  have R1 := fun y => (deliver_no_removal h w e.route_events y hr).1
  have R2 := fun y => (deliver_no_removal h w e.route_events y hr).2.1
  have R3 := fun y => (deliver_no_removal h w e.route_events y hr).2.2
  unfold rpcrdma_create_id
  cases hc : e.rdma_create_id with
  | error rc => simp
  | ok handle =>
    simp only [rpcrdma_create_id_out]
    split_ifs <;>
      simp [A1, A2, A3, R1, R2, R3, destroy_calls_append, destroy_calls_cons,
        destroy_calls_nil, is_destroy_call]

/-- C17 (a failed reconnect keeps the old identifier).  Let the adapter hold an
identifier `old`, and let no `DEVICE_REMOVAL` upcall arrive while
`rpcrdma_ep_reconnect` waits.  The disconnect at its start returns.  When
`rpcrdma_create_id` then fails, the function returns `-EHOSTUNREACH` and the
adapter still holds `old`.  When it hands out an identifier `id` that is bound
to another device than the adapter's, or `rdma_create_qp` on `id` fails, the
function returns `-ENETUNREACH`, the adapter still holds `old` with its queue
pair, and the only identifier or queue pair destroyed during the call is `id`.
When `id` is on the adapter's device and `rdma_create_qp` succeeds, the function
returns 0, the adapter holds `id` with its new queue pair, and what was
destroyed during the call is the queue pair of `old`, then `old` itself. -/
theorem ep_reconnect_keeps_old_id (h : xprt_rdma_h) (w : rpcrdma_xprt → rpcrdma_xprt)
    (e : reconnect_env) (x : rpcrdma_xprt) (old : rdma_cm_id)
    (hold : x.rx_ia.ri_id = some old)
    (hd : ∀ ev, ev ∈ e.disconnect.events →
      ev.event ≠ rdma_cm_event_type.RDMA_CM_EVENT_DEVICE_REMOVAL)
    (ha : ∀ ev, ev ∈ e.id.addr_events →
      ev.event ≠ rdma_cm_event_type.RDMA_CM_EVENT_DEVICE_REMOVAL)
    (hr : ∀ ev, ev ∈ e.id.route_events →
      ev.event ≠ rdma_cm_event_type.RDMA_CM_EVENT_DEVICE_REMOVAL) :
    ∃ x1, rpcrdma_ep_disconnect h w e.disconnect x = some x1 ∧
      (∀ rc x2, rpcrdma_create_id h w e.id x1 = (Except.error rc, x2) →
        rpcrdma_ep_reconnect h w e x = some (-EHOSTUNREACH, x2) ∧
        x2.rx_ia.ri_id = some old) ∧
      (∀ id x2, rpcrdma_create_id h w e.id x1 = (Except.ok id, x2) →
        ((x.rx_ia.ri_device ≠ id.device ∨ e.qp.rc ≠ 0) →
          ∃ y, rpcrdma_ep_reconnect h w e x = some (-ENETUNREACH, y) ∧
            y.rx_ia.ri_id = some old ∧
            y.rx_ia = x2.rx_ia ∧
            destroy_calls y.calls =
              destroy_calls x.calls ++ [provider_call.rdma_destroy_id id.handle]) ∧
        (x.rx_ia.ri_device = id.device → e.qp.rc = 0 →
          ∃ y, rpcrdma_ep_reconnect h w e x = some (0, y) ∧
            y.rx_ia.ri_id = some { id with qp := some e.qp.qp } ∧
            destroy_calls y.calls =
              destroy_calls x.calls ++ [provider_call.rdma_destroy_qp old.handle,
                provider_call.rdma_destroy_id old.handle])) := by
  obtain ⟨x1, hx1, i1, v1, c1⟩ := ep_disconnect_no_removal h w e.disconnect x old hold hd
  obtain ⟨i2, v2, c2⟩ := create_id_no_removal h w e.id x1 ha hr
  refine ⟨x1, hx1, ?_, ?_⟩
  · intro rc x2 hx2
    rw [hx2] at i2
    refine ⟨by simp [rpcrdma_ep_reconnect, hx1, hx2], ?_⟩
    exact i2.trans i1
  · intro id x2 hx2
    rw [hx2] at i2 v2 c2
    have i3 : x2.rx_ia.ri_id = some old := i2.trans i1
    have v3 : x2.rx_ia.ri_device = x.rx_ia.ri_device := v2.trans v1
    have c3 : destroy_calls x2.calls = destroy_calls x.calls := (c2 id rfl).trans c1
    refine ⟨?_, ?_⟩
    · intro hf
      by_cases hdev : x.rx_ia.ri_device = id.device
      · have hq : e.qp.rc ≠ 0 := hf.resolve_left (fun k => k hdev)
        refine ⟨{ x2 with calls := x2.calls ++ [provider_call.rdma_create_qp id.handle] ++
          [provider_call.rdma_destroy_id id.handle] }, ?_, i3, rfl, ?_⟩
        · simp [rpcrdma_ep_reconnect, hx1, hx2, v3, hdev, rdma_create_qp, hq]
        · simp [destroy_calls_append, destroy_calls_cons, destroy_calls_nil, is_destroy_call,
            c3]
      · refine ⟨{ x2 with calls := x2.calls ++ [provider_call.rdma_destroy_id id.handle] },
          ?_, i3, rfl, ?_⟩
        · simp [rpcrdma_ep_reconnect, hx1, hx2, v3, hdev]
        · simp [destroy_calls_append, destroy_calls_cons, destroy_calls_nil, is_destroy_call,
            c3]
    · intro hdev hq
      refine ⟨{ x2 with
        rx_ia := { x2.rx_ia with ri_id := some { id with qp := some e.qp.qp } },
        calls := x2.calls ++ [provider_call.rdma_create_qp id.handle] ++
          [provider_call.rdma_destroy_qp old.handle,
           provider_call.rdma_destroy_id old.handle] }, ?_, rfl, ?_⟩
      · simp [rpcrdma_ep_reconnect, hx1, hx2, v3, hdev, rdma_create_qp, hq, i3]
      · simp [destroy_calls_append, destroy_calls_cons, destroy_calls_nil, is_destroy_call, c3]

/-- On the sample adapter (identifier 1 with queue pair 3 on device 7): a
reconnect whose `rdma_create_qp` fails, and one whose new identifier is bound
to device 8, return `-ENETUNREACH` and leave identifier 1 with queue pair 3 in
place; a reconnect that succeeds returns 0 and installs identifier 4 with
queue pair 24. -/
theorem ep_reconnect_keeps_old_id_witness :
    (rpcrdma_ep_reconnect upstream_h (fun y => y) sample_qp_fails_env sample_open_xprt).map
        (fun r => (r.1, r.2.rx_ia.ri_id))
      = some (-ENETUNREACH, some { handle := 1, device := some 7, qp := some 3 }) ∧
    (rpcrdma_ep_reconnect upstream_h (fun y => y) sample_other_device_env sample_open_xprt).map
        (fun r => (r.1, r.2.rx_ia.ri_id))
      = some (-ENETUNREACH, some { handle := 1, device := some 7, qp := some 3 }) ∧
    (rpcrdma_ep_reconnect upstream_h (fun y => y) sample_reconnect_env sample_open_xprt).map
        (fun r => (r.1, r.2.rx_ia.ri_id))
      = some (0, some { handle := 4, device := some 7, qp := some 24 }) := by
  obtain ⟨x1, hx1, -, hok⟩ := ep_reconnect_keeps_old_id upstream_h (fun y => y)
    sample_qp_fails_env sample_open_xprt { handle := 1, device := some 7, qp := some 3 } rfl
    (by decide) (by decide) (by decide)
  obtain ⟨z1, hz1, -, hok1⟩ := ep_reconnect_keeps_old_id upstream_h (fun y => y)
    sample_reconnect_env sample_open_xprt { handle := 1, device := some 7, qp := some 3 } rfl
    (by decide) (by decide) (by decide)
  obtain ⟨u1, hu1, -, hok2⟩ := ep_reconnect_keeps_old_id upstream_h (fun y => y)
    sample_other_device_env sample_open_xprt { handle := 1, device := some 7, qp := some 3 }
    rfl (by decide) (by decide) (by decide)
  have e0 : rpcrdma_ep_disconnect upstream_h (fun y => y) sample_disconnect_env
      sample_open_xprt = some ((rpcrdma_ep_disconnect upstream_h (fun y => y)
        sample_disconnect_env sample_open_xprt).getD sample_open_xprt) := rfl
  have a1 : x1 = (rpcrdma_ep_disconnect upstream_h (fun y => y)
      sample_disconnect_env sample_open_xprt).getD sample_open_xprt :=
    Option.some.inj (hx1.symm.trans e0)
  have a2 : z1 = (rpcrdma_ep_disconnect upstream_h (fun y => y)
      sample_disconnect_env sample_open_xprt).getD sample_open_xprt :=
    Option.some.inj (hz1.symm.trans e0)
  have a3 : u1 = (rpcrdma_ep_disconnect upstream_h (fun y => y)
      sample_disconnect_env sample_open_xprt).getD sample_open_xprt :=
    Option.some.inj (hu1.symm.trans e0)
  subst a1
  subst a2
  subst a3
  obtain ⟨y, hy, hid, -⟩ := (hok { handle := 4, device := some 7, qp := none }
    (rpcrdma_create_id upstream_h (fun y => y) (sample_create_id_env 4) _).2 rfl).1
    (Or.inr (by decide))
  obtain ⟨y1, hy1, hid1, -⟩ := (hok1 { handle := 4, device := some 7, qp := none }
    (rpcrdma_create_id upstream_h (fun y => y) (sample_create_id_env 4) _).2 rfl).2
    rfl rfl
  obtain ⟨y2, hy2, hid2, -⟩ := (hok2 { handle := 4, device := some 8, qp := none }
    (rpcrdma_create_id upstream_h (fun y => y) sample_other_device_env.id _).2 rfl).1
    (Or.inl (by decide))
  refine ⟨?_, ?_, ?_⟩
  · rw [hy]
    simp only [Option.map_some', hid]
  · rw [hy2]
    simp only [Option.map_some', hid2]
  · rw [hy1]
    simp only [Option.map_some', hid1]
    rfl

/-! ## Exclusivity of the region lists -/

theorem nodup_move_first (a b c : List ptr) (m : ptr) :
    (a ++ [m] ++ b ++ c).Nodup ↔ (m :: (a ++ b ++ c)).Nodup := by
  have p : (a ++ [m] ++ b ++ c).Perm (m :: (a ++ b ++ c)) := by
    simp [List.append_assoc]
  exact p.nodup_iff

theorem nodup_move_second (a b c : List ptr) (m : ptr) :
    (a ++ (b ++ [m]) ++ c).Nodup ↔ (m :: (a ++ b ++ c)).Nodup := by
  have p : (a ++ (b ++ [m]) ++ c).Perm (m :: (a ++ b ++ c)) := by
    have := @List.perm_middle ptr m (a ++ b) c
    simpa [List.append_assoc] using this
  exact p.nodup_iff

theorem nodup_move_third (a b c : List ptr) (m : ptr) :
    (a ++ b ++ (m :: c)).Nodup ↔ (m :: (a ++ b ++ c)).Nodup :=
  (@List.perm_middle ptr m (a ++ b) c).nodup_iff

theorem nodup_held_erase (a b held : List ptr) (m : ptr) (hm : m ∈ held) :
    (a ++ b ++ held).Nodup ↔ (m :: (a ++ b ++ held.erase m)).Nodup := by
  have p : (a ++ b ++ held).Perm (a ++ b ++ (m :: held.erase m)) :=
    List.Perm.append_left _ (List.perm_cons_erase hm)
  rw [p.nodup_iff]
  exact nodup_move_third a b (held.erase m) m

theorem mw_inv_step (ro : ptr → rpcrdma_xprt → rpcrdma_xprt) (hro : ro_recover_mr_sane ro)
    (s s1 : mw_run) (c : mw_call) (h : mw_inv s) (hs : mw_step ro s c = some s1) :
    mw_inv s1 := by
  unfold mw_inv at h ⊢
  cases c with
  | get =>
    cases hm : s.xprt.rx_buf.rb_mws with
    | nil =>
      simp [mw_step, rpcrdma_get_mw, hm] at hs
      rw [← hs]
      simpa [hm] using h
    | cons mw rest =>
      simp [mw_step, rpcrdma_get_mw, hm, rpcrdma_pop_mw] at hs
      rw [← hs]
      rw [hm] at h
      simp only []
      rw [nodup_move_third]
      simpa using h
  | put mw =>
    by_cases hmem : mw ∈ s.held
    · simp [mw_step, hmem, rpcrdma_put_mw, rpcrdma_push_mw] at hs
      rw [← hs]
      simp only []
      rw [nodup_move_first]
      exact (nodup_held_erase _ _ _ mw hmem).mp h
    · simp [mw_step, hmem] at hs
  | defer mw =>
    by_cases hmem : mw ∈ s.held
    · simp [mw_step, hmem, rpcrdma_defer_mr_recovery, rpcrdma_push_mw] at hs
      rw [← hs]
      simp only []
      rw [nodup_move_second]
      exact (nodup_held_erase _ _ _ mw hmem).mp h
    · simp [mw_step, hmem] at hs
  | recover =>
    simp only [mw_step, Option.some.injEq] at hs
    rw [← hs]
    simp only [rpcrdma_mr_recovery_worker_iter]
    cases hm : s.xprt.rx_buf.rb_stale_mrs with
    | nil =>
      simp only [rpcrdma_pop_mw]
      simpa [hm] using h
    | cons mw rest =>
      simp only [rpcrdma_pop_mw]
      rw [hm] at h
      have hn : (mw :: (s.xprt.rx_buf.rb_mws ++ rest ++ s.held)).Nodup := by
        have p := @List.perm_middle ptr mw s.xprt.rx_buf.rb_mws
          (rest ++ s.held)
        have := p.nodup_iff.mp (by simpa [List.append_assoc] using h)
        simpa [List.append_assoc] using this
      obtain ⟨q1, q2⟩ := hro mw
        { s.xprt with
          rx_buf := { s.xprt.rx_buf with rb_stale_mrs := rest },
          calls := s.xprt.calls ++
            [provider_call.spin_unlock_rb_recovery_lock, provider_call.ro_recover_mr mw] }
      rw [q1]
      rcases q2 with q2 | q2
      · rw [q2]
        exact (List.nodup_cons.mp hn).2
      · rw [q2]
        simp only [rpcrdma_push_mw]
        rw [nodup_move_first]
        exact hn

theorem mw_inv_steps (ro : ptr → rpcrdma_xprt → rpcrdma_xprt) (hro : ro_recover_mr_sane ro) :
    ∀ (calls : List mw_call) (s s1 : mw_run), mw_inv s → mw_steps ro s calls = some s1 →
    mw_inv s1
  | [], s, s1, h, hs => by
    simp only [mw_steps, Option.some.injEq] at hs
    rw [← hs]
    exact h
  | c :: cs, s, s1, h, hs => by
    simp only [mw_steps] at hs
    cases hc : mw_step ro s c with
    | none => simp [hc] at hs
    | some s2 =>
      simp only [hc] at hs
      exact mw_inv_steps ro hro cs s2 s1 (mw_inv_step ro hro s s2 c h hc) hs

theorem recovery_iter_stale (ro : ptr → rpcrdma_xprt → rpcrdma_xprt)
    (hro : ro_recover_mr_sane ro) (x : rpcrdma_xprt) (mw : ptr) (rest : List ptr)
    (hm : x.rx_buf.rb_stale_mrs = mw :: rest) :
    (rpcrdma_mr_recovery_worker_iter ro x).rx_buf.rb_stale_mrs = rest := by
  simp only [rpcrdma_mr_recovery_worker_iter, hm, rpcrdma_pop_mw]
  exact (hro mw _).1

theorem recovery_loop_drains (ro : ptr → rpcrdma_xprt → rpcrdma_xprt)
    (hro : ro_recover_mr_sane ro) :
    ∀ (fuel : Nat) (x : rpcrdma_xprt), x.rx_buf.rb_stale_mrs.length ≤ fuel →
    ∃ y, rpcrdma_mr_recovery_worker_loop ro fuel x = some y ∧ y.rx_buf.rb_stale_mrs = []
  | 0, x, hl => by
    have hnil : x.rx_buf.rb_stale_mrs = [] := List.length_eq_zero.mp (Nat.le_zero.mp hl)
    exact ⟨x, by simp [rpcrdma_mr_recovery_worker_loop, hnil], hnil⟩
  | fuel + 1, x, hl => by
    cases hm : x.rx_buf.rb_stale_mrs with
    | nil => exact ⟨x, by simp [rpcrdma_mr_recovery_worker_loop, hm], hm⟩
    | cons mw rest =>
      have hrest := recovery_iter_stale ro hro x mw rest hm
      obtain ⟨y, hy, hy0⟩ := recovery_loop_drains ro hro fuel
        (rpcrdma_mr_recovery_worker_iter ro x) (by
          rw [hrest]
          rw [hm] at hl
          simpa using hl)
      exact ⟨y, by simp [rpcrdma_mr_recovery_worker_loop, hm, hy], hy0⟩

/-- C13 (exclusivity of the region lists).  Start from regions that are
pairwise distinct across the free list `rb_mws`, the stale list
`rb_stale_mrs` and the callers, and run any sequence of `rpcrdma_get_mw`,
`rpcrdma_put_mw` and `rpcrdma_defer_mr_recovery` of held regions, and passes
of the recovery worker, whose `ro_recover_mr` either keeps the region or
releases it with `rpcrdma_put_mw`.  Afterwards no region is on both lists, a
held region is on neither list, a region that `rpcrdma_get_mw` returns next is
on neither list and was not held, the region that the recovery worker
processes next is off the stale list after that pass, and a full run of
`rpcrdma_mr_recovery_worker` returns with the stale list empty. -/
theorem mw_list_exclusivity (ro : ptr → rpcrdma_xprt → rpcrdma_xprt)
    (hro : ro_recover_mr_sane ro) (s0 s : mw_run) (calls : List mw_call)
    (h0 : mw_inv s0) (hs : mw_steps ro s0 calls = some s) :
    (∀ mw, ¬ (mw ∈ s.xprt.rx_buf.rb_mws ∧ mw ∈ s.xprt.rx_buf.rb_stale_mrs)) ∧
    (∀ mw, mw ∈ s.held →
      mw ∉ s.xprt.rx_buf.rb_mws ∧ mw ∉ s.xprt.rx_buf.rb_stale_mrs) ∧
    (∀ mw, (rpcrdma_get_mw s.xprt).1 = some mw →
      mw ∉ (rpcrdma_get_mw s.xprt).2.rx_buf.rb_mws ∧
      mw ∉ (rpcrdma_get_mw s.xprt).2.rx_buf.rb_stale_mrs ∧
      mw ∉ s.held) ∧
    (∀ mw rest, s.xprt.rx_buf.rb_stale_mrs = mw :: rest →
      (rpcrdma_mr_recovery_worker_iter ro s.xprt).rx_buf.rb_stale_mrs = rest ∧
      mw ∉ (rpcrdma_mr_recovery_worker_iter ro s.xprt).rx_buf.rb_stale_mrs) ∧
    (∃ y, rpcrdma_mr_recovery_worker ro s.xprt.rx_buf.rb_stale_mrs.length s.xprt = some y ∧
      y.rx_buf.rb_stale_mrs = []) := by
  have hi : mw_inv s := mw_inv_steps ro hro calls s0 s h0 hs
  have hi1 := hi
  unfold mw_inv at hi1
  have hA := List.nodup_append.mp hi1
  have hB := List.nodup_append.mp hA.1
  refine ⟨?_, ?_, ?_, ?_, ?_⟩
  · intro mw hmw
    exact hB.2.2 hmw.1 hmw.2
  · intro mw hmw
    refine ⟨fun k => hA.2.2 (List.mem_append_left _ k) hmw,
      fun k => hA.2.2 (List.mem_append_right _ k) hmw⟩
  · intro mw hg
    have hstep : mw_step ro s mw_call.get =
        some { xprt := (rpcrdma_get_mw s.xprt).2, held := mw :: s.held } := by
      simp only [mw_step]
      rw [show rpcrdma_get_mw s.xprt = (some mw, (rpcrdma_get_mw s.xprt).2) from
        Prod.ext hg rfl]
    have hj := mw_inv_step ro hro s _ mw_call.get hi hstep
    unfold mw_inv at hj
    have hC := List.nodup_append.mp hj
    have hD := List.nodup_cons.mp hC.2.1
    refine ⟨fun k => hC.2.2 (List.mem_append_left _ k) (List.mem_cons_self _ _),
      fun k => hC.2.2 (List.mem_append_right _ k) (List.mem_cons_self _ _), hD.1⟩
  · intro mw rest hm
    have hrest := recovery_iter_stale ro hro s.xprt mw rest hm
    refine ⟨hrest, ?_⟩
    rw [hrest]
    rw [hm] at hB
    exact (List.nodup_cons.mp hB.2.1).1
  · obtain ⟨y, hy, hy0⟩ := recovery_loop_drains ro hro s.xprt.rx_buf.rb_stale_mrs.length
      { s.xprt with calls := s.xprt.calls ++ [provider_call.spin_lock_rb_recovery_lock] }
      (Nat.le_refl _)
    have hy1 : rpcrdma_mr_recovery_worker_loop ro s.xprt.rx_buf.rb_stale_mrs.length
        { s.xprt with calls := s.xprt.calls ++ [provider_call.spin_lock_rb_recovery_lock] }
        = some y := hy
    refine ⟨{ y with calls := y.calls ++ [provider_call.spin_unlock_rb_recovery_lock] },
      ?_, hy0⟩
    simp only [rpcrdma_mr_recovery_worker, hy1, Option.map_some']

/-- On the sample pool: a caller acquires region 31 and marks it stale, the
recovery worker releases it; region 31 is then on the free list only. -/
theorem mw_list_exclusivity_witness :
    ro_recover_mr_sane ro_recover_mr_release ∧
    mw_inv sample_mw_run ∧
    (∀ mw, ¬ (mw ∈ ((mw_steps ro_recover_mr_release sample_mw_run
        sample_mw_calls).getD sample_mw_run).xprt.rx_buf.rb_mws ∧
      mw ∈ ((mw_steps ro_recover_mr_release sample_mw_run
        sample_mw_calls).getD sample_mw_run).xprt.rx_buf.rb_stale_mrs)) := by
  have hro : ro_recover_mr_sane ro_recover_mr_release := fun mw x => ⟨rfl, Or.inr rfl⟩
  have h0 : mw_inv sample_mw_run := by
    unfold mw_inv
    decide
  exact ⟨hro, h0, (mw_list_exclusivity ro_recover_mr_release hro sample_mw_run
    ((mw_steps ro_recover_mr_release sample_mw_run sample_mw_calls).getD sample_mw_run)
    sample_mw_calls h0 (by decide)).1⟩

/-! ## The gate of get_reply -/

/-- C24, the claim refuted on a concrete input: the pool of the sample
transport with both counters at `INT_MAX` and the replies 1 and 0 free.  The
gate is open (`rb_send_count < rb_recv_count` does not hold, the reply free
list is not empty), `rpcrdma_buffer_get_rep` returns reply 1, and
`rb_recv_count` is `INT_MIN` afterwards, not `INT_MAX + 1`: the C `int` has
wrapped around. -/
theorem get_rep_wraps_at_int_max :
    sample_pool_int_max.rx_buf.rb_send_count = 2147483647 ∧
    sample_pool_int_max.rx_buf.rb_recv_count = 2147483647 ∧
    sample_pool_int_max.rx_buf.rb_recv_bufs = [1, 0] ∧
    (rpcrdma_buffer_get_rep sample_pool_int_max.rx_buf).1 = some 1 ∧
    (rpcrdma_buffer_get_rep sample_pool_int_max.rx_buf).2.rb_recv_count = -2147483648 ∧
    (rpcrdma_buffer_get_rep sample_pool_int_max.rx_buf).2.rb_recv_count ≠
      sample_pool_int_max.rx_buf.rb_recv_count + 1 := by
  decide

/-- C24, amended (gate of get_reply).  `rpcrdma_buffer_get_rep` returns NULL
and leaves the pool as it is when `rb_send_count < rb_recv_count` or when the
reply free list is empty.  Otherwise it returns the first reply of
`rb_recv_bufs`, takes it off the list and increments `rb_recv_count`, a C
`int`, changing nothing else.  Whenever `rb_recv_count` is below `INT_MAX` the
increment is by exactly 1; at `INT_MAX` the counter wraps around to
`INT_MIN`. -/
theorem buffer_get_rep_gate (b : rpcrdma_buffer) :
    (b.rb_send_count < b.rb_recv_count → rpcrdma_buffer_get_rep b = (none, b)) ∧
    (b.rb_recv_bufs = [] → rpcrdma_buffer_get_rep b = (none, b)) ∧
    (∀ p rest, ¬ b.rb_send_count < b.rb_recv_count → b.rb_recv_bufs = p :: rest →
      rpcrdma_buffer_get_rep b =
        (some p, { b with rb_recv_count := int_wrap (b.rb_recv_count + 1),
                          rb_recv_bufs := rest })) ∧
    (∀ p rest, ¬ b.rb_send_count < b.rb_recv_count → b.rb_recv_bufs = p :: rest →
      -2 ^ 31 ≤ b.rb_recv_count → b.rb_recv_count < 2 ^ 31 - 1 →
      rpcrdma_buffer_get_rep b =
        (some p, { b with rb_recv_count := b.rb_recv_count + 1, rb_recv_bufs := rest })) ∧
    (∀ p rest, ¬ b.rb_send_count < b.rb_recv_count → b.rb_recv_bufs = p :: rest →
      b.rb_recv_count = 2 ^ 31 - 1 →
      rpcrdma_buffer_get_rep b =
        (some p, { b with rb_recv_count := -2 ^ 31, rb_recv_bufs := rest })) := by
  have main : ∀ p rest, ¬ b.rb_send_count < b.rb_recv_count → b.rb_recv_bufs = p :: rest →
      rpcrdma_buffer_get_rep b =
        (some p, { b with rb_recv_count := int_wrap (b.rb_recv_count + 1),
                          rb_recv_bufs := rest }) := by
    intro p rest h1 h2
    simp [rpcrdma_buffer_get_rep, h1, h2, rpcrdma_buffer_get_rep_locked]
  refine ⟨?_, ?_, main, ?_, ?_⟩
  · intro h1
    simp [rpcrdma_buffer_get_rep, h1]
  · intro h2
    simp [rpcrdma_buffer_get_rep, h2]
  · intro p rest h1 h2 h3 h4
    rw [main p rest h1 h2, int_wrap_eq _ (by omega) (by omega)]
  · intro p rest h1 h2 h3
    have hw : int_wrap (b.rb_recv_count + 1) = -2 ^ 31 := by
      rw [h3]
      decide
    rw [main p rest h1 h2, hw]

/-- The pool of the fresh sample transport: both counters are 0 and the
replies 1 and 0 are free; `rpcrdma_buffer_get_rep` returns reply 1 and
`rb_recv_count` becomes 1. -/
theorem buffer_get_rep_gate_witness :
    rpcrdma_buffer_get_rep sample_pool.rx_buf =
      (some 1, { sample_pool.rx_buf with rb_recv_count := 1, rb_recv_bufs := [0] }) :=
  (buffer_get_rep_gate sample_pool.rx_buf).2.2.2.1 1 [0] (by decide) (by decide) (by decide)
    (by decide)

/-! ## Inline sizes at connect time -/

theorem shrink_min (c : rpcrdma_create_data_internal) (r w : Nat) :
    (if w < (if r < c.inline_rsize then { c with inline_rsize := r } else c).inline_wsize then
        { (if r < c.inline_rsize then { c with inline_rsize := r } else c) with
          inline_wsize := w }
      else (if r < c.inline_rsize then { c with inline_rsize := r } else c))
      = { c with inline_rsize := min c.inline_rsize r, inline_wsize := min c.inline_wsize w } := by
  by_cases h1 : r < c.inline_rsize
  · by_cases h2 : w < c.inline_wsize
    · simp [h1, h2, Nat.min_eq_right (Nat.le_of_lt h1), Nat.min_eq_right (Nat.le_of_lt h2)]
    · simp [h1, h2, Nat.min_eq_right (Nat.le_of_lt h1), Nat.min_eq_left (Nat.le_of_not_lt h2)]
  · by_cases h2 : w < c.inline_wsize
    · simp [h1, h2, Nat.min_eq_left (Nat.le_of_not_lt h1), Nat.min_eq_right (Nat.le_of_lt h2)]
    · simp [h1, h2, Nat.min_eq_left (Nat.le_of_not_lt h1), Nat.min_eq_left (Nat.le_of_not_lt h2)]

theorem update_connect_private_valid (h : xprt_rdma_h) (x : rpcrdma_xprt)
    (pmsg : rpcrdma_connect_private)
    (hv : pmsg.cp_magic = h.rpcrdma_cmp_magic ∧ pmsg.cp_version = h.RPCRDMA_CMP_VERSION) :
    (rpcrdma_update_connect_private h x { private_data := some pmsg }).rx_data =
      { x.rx_data with
        inline_rsize := min x.rx_data.inline_rsize
          (h.rpcrdma_decode_buffer_size pmsg.cp_send_size),
        inline_wsize := min x.rx_data.inline_wsize
          (h.rpcrdma_decode_buffer_size pmsg.cp_recv_size) } := by
  simp only [rpcrdma_update_connect_private, hv, and_self, if_true]
  exact shrink_min x.rx_data _ _

theorem update_connect_private_default (h : xprt_rdma_h) (x : rpcrdma_xprt)
    (param : rdma_conn_param)
    (hv : ∀ pmsg, param.private_data = some pmsg →
      ¬ (pmsg.cp_magic = h.rpcrdma_cmp_magic ∧ pmsg.cp_version = h.RPCRDMA_CMP_VERSION)) :
    (rpcrdma_update_connect_private h x param).rx_data =
      { x.rx_data with
        inline_rsize := min x.rx_data.inline_rsize h.RPCRDMA_V1_DEF_INLINE_SIZE,
        inline_wsize := min x.rx_data.inline_wsize h.RPCRDMA_V1_DEF_INLINE_SIZE } := by
  cases hp : param.private_data with
  | none =>
    simp only [rpcrdma_update_connect_private, hp]
    exact shrink_min x.rx_data _ _
  | some pmsg =>
    have hv1 := hv pmsg hp
    simp only [rpcrdma_update_connect_private, hp, hv1, if_false]
    exact shrink_min x.rx_data _ _

/-- C27 (inline sizes only shrink at connect time).  For every transport and
every private payload, `rpcrdma_update_connect_private` sets `inline_rsize` to
the minimum of its old value and `r`, and `inline_wsize` to the minimum of its
old value and `w`, and leaves `max_requests` alone.  When the payload is
present with matching magic and version, `r` and `w` are the decoded
`cp_send_size` and `cp_recv_size`; when the payload is absent or its magic or
version does not match, both are `RPCRDMA_V1_DEF_INLINE_SIZE`.  So neither
size ever grows, and any two payloads that are absent or do not match give the
same sizes, whatever their size fields hold. -/
theorem connect_private_sizes_only_shrink (h : xprt_rdma_h) (x : rpcrdma_xprt)
    (param : rdma_conn_param) :
    (∀ pmsg, param.private_data = some pmsg →
      pmsg.cp_magic = h.rpcrdma_cmp_magic → pmsg.cp_version = h.RPCRDMA_CMP_VERSION →
      (rpcrdma_update_connect_private h x param).rx_data =
        { x.rx_data with
          inline_rsize := min x.rx_data.inline_rsize
            (h.rpcrdma_decode_buffer_size pmsg.cp_send_size),
          inline_wsize := min x.rx_data.inline_wsize
            (h.rpcrdma_decode_buffer_size pmsg.cp_recv_size) }) ∧
    ((∀ pmsg, param.private_data = some pmsg →
        ¬ (pmsg.cp_magic = h.rpcrdma_cmp_magic ∧ pmsg.cp_version = h.RPCRDMA_CMP_VERSION)) →
      (rpcrdma_update_connect_private h x param).rx_data =
        { x.rx_data with
          inline_rsize := min x.rx_data.inline_rsize h.RPCRDMA_V1_DEF_INLINE_SIZE,
          inline_wsize := min x.rx_data.inline_wsize h.RPCRDMA_V1_DEF_INLINE_SIZE }) ∧
    (rpcrdma_update_connect_private h x param).rx_data.inline_rsize ≤ x.rx_data.inline_rsize ∧
    (rpcrdma_update_connect_private h x param).rx_data.inline_wsize ≤ x.rx_data.inline_wsize ∧
    (∀ other : rdma_conn_param,
      (∀ pmsg, param.private_data = some pmsg →
        ¬ (pmsg.cp_magic = h.rpcrdma_cmp_magic ∧ pmsg.cp_version = h.RPCRDMA_CMP_VERSION)) →
      (∀ pmsg, other.private_data = some pmsg →
        ¬ (pmsg.cp_magic = h.rpcrdma_cmp_magic ∧ pmsg.cp_version = h.RPCRDMA_CMP_VERSION)) →
      (rpcrdma_update_connect_private h x other).rx_data =
        (rpcrdma_update_connect_private h x param).rx_data) := by
  have hvalid : ∀ pmsg, param.private_data = some pmsg →
      pmsg.cp_magic = h.rpcrdma_cmp_magic → pmsg.cp_version = h.RPCRDMA_CMP_VERSION →
      (rpcrdma_update_connect_private h x param).rx_data =
        { x.rx_data with
          inline_rsize := min x.rx_data.inline_rsize
            (h.rpcrdma_decode_buffer_size pmsg.cp_send_size),
          inline_wsize := min x.rx_data.inline_wsize
            (h.rpcrdma_decode_buffer_size pmsg.cp_recv_size) } := by
    intro pmsg hp hm hver
    have hparam : param = { private_data := some pmsg } := by
      cases param
      simp only [rdma_conn_param.mk.injEq]
      exact hp
    rw [hparam]
    exact update_connect_private_valid h x pmsg ⟨hm, hver⟩
  have hle : (rpcrdma_update_connect_private h x param).rx_data.inline_rsize
        ≤ x.rx_data.inline_rsize ∧
      (rpcrdma_update_connect_private h x param).rx_data.inline_wsize
        ≤ x.rx_data.inline_wsize := by
    by_cases hc : ∀ pmsg, param.private_data = some pmsg →
        ¬ (pmsg.cp_magic = h.rpcrdma_cmp_magic ∧ pmsg.cp_version = h.RPCRDMA_CMP_VERSION)
    · rw [update_connect_private_default h x param hc]
      exact ⟨Nat.min_le_left _ _, Nat.min_le_left _ _⟩
    · push_neg at hc
      obtain ⟨pmsg, hp, hm, hver⟩ := hc
      rw [hvalid pmsg hp hm hver]
      exact ⟨Nat.min_le_left _ _, Nat.min_le_left _ _⟩
  refine ⟨hvalid, update_connect_private_default h x param, hle.1, hle.2, ?_⟩
  intro other h1 h2
  rw [update_connect_private_default h x param h1, update_connect_private_default h x other h2]

/-! ## Creating the endpoint -/

theorem to_s32_cqinit (m : Nat) (hm : m < 2 ^ 32) :
    to_s32 ((m / 2 + 2 ^ 32 - 1) % 2 ^ 32) = ((m / 2 : Nat) : Int) - 1 := by
  have hk : m / 2 < 2 ^ 31 := by omega
  generalize m / 2 = k at hk
  unfold to_s32
  by_cases h0 : k = 0
  · subst h0
    norm_num
  · have e1 : (k + 2 ^ 32 - 1) % 2 ^ 32 = k - 1 := by
      have : k + 2 ^ 32 - 1 = (k - 1) + 2 ^ 32 := by omega
      rw [this, Nat.add_mod_right]
      exact Nat.mod_eq_of_lt (by omega)
    rw [e1]
    have e2 : (k - 1) % 2 ^ 32 = k - 1 := Nat.mod_eq_of_lt (by omega)
    rw [e2]
    have e3 : k - 1 < 2 ^ 31 := by omega
    rw [if_pos e3]
    omega

/-- C21 (an under-provisioned device is rejected).  On an adapter with a
device, when the device's `max_qp_wr` is at most `RPCRDMA_BACKWARD_WRS` (so in
particular when it is smaller), `rpcrdma_ep_create` returns `-ENOMEM`, has made
no provider call (no completion queue was allocated), and has left
`max_requests`, the inline sizes and every field of the endpoint, the
queue-pair attributes among them, as they were. -/
theorem ep_create_rejects_small_device (h : xprt_rdma_h) (e : ep_create_env)
    (x : rpcrdma_xprt) (d : Nat) (hd : x.rx_ia.ri_device = some d)
    (hwr : e.attrs.max_qp_wr ≤ (h.RPCRDMA_BACKWARD_WRS : Int)) :
    ∃ y, rpcrdma_ep_create h e x = some (-ENOMEM, y) ∧
      y.rx_data = x.rx_data ∧ y.rx_ep = x.rx_ep ∧ y.calls = x.calls ∧
      y.rx_buf = x.rx_buf := by
  unfold rpcrdma_ep_create
  simp only [hd]
  by_cases hs : min (to_u32 e.attrs.max_sge) h.RPCRDMA_MAX_SEND_SGES < h.RPCRDMA_MIN_SEND_SGES
  · simp only [hs, if_true]
    exact ⟨x, rfl, rfl, rfl, rfl, rfl⟩
  · simp only [hs, if_false, hwr, if_true]
    exact ⟨_, rfl, rfl, rfl, rfl, rfl⟩

/-- A device with `max_qp_wr = 8` against the reservation of 8: the endpoint
of the sample adapter is not created. -/
theorem ep_create_rejects_small_device_witness :
    (rpcrdma_ep_create upstream_h sample_small_device_env sample_open_xprt).map
        (fun r => (r.1, r.2.calls, r.2.rx_data.max_requests))
      = some (-ENOMEM, sample_open_xprt.calls, sample_open_xprt.rx_data.max_requests) := by
  obtain ⟨y, hy, h1, -, h3, -⟩ := ep_create_rejects_small_device upstream_h
    sample_small_device_env sample_open_xprt 7 rfl (by decide)
  rw [hy, Option.map_some', h1, h3]

theorem ep_create_cqs_frame (h : xprt_rdma_h) (e : ep_create_env) (z : rpcrdma_xprt) :
    (rpcrdma_ep_create_cqs h e z).2.rx_data = z.rx_data ∧
    (rpcrdma_ep_create_cqs h e z).2.rx_ep.max_send_wr = z.rx_ep.max_send_wr ∧
    (rpcrdma_ep_create_cqs h e z).2.rx_ep.max_recv_wr = z.rx_ep.max_recv_wr ∧
    (rpcrdma_ep_create_cqs h e z).2.rx_ep.rep_cqinit = z.rx_ep.rep_cqinit := by
  unfold rpcrdma_ep_create_cqs
  cases e.sendcq with
  | error rc1 => exact ⟨rfl, rfl, rfl, rfl⟩
  | ok sendcq =>
    cases e.recvcq with
    | error rc2 => exact ⟨rfl, rfl, rfl, rfl⟩
    | ok recvcq => exact ⟨rfl, rfl, rfl, rfl⟩

theorem ep_create_past_checks (h : xprt_rdma_h) (e : ep_create_env) (x : rpcrdma_xprt)
    (d : Nat) (hd : x.rx_ia.ri_device = some d)
    (hsge : ¬ min (to_u32 e.attrs.max_sge) h.RPCRDMA_MAX_SEND_SGES < h.RPCRDMA_MIN_SEND_SGES)
    (hwr : ¬ e.attrs.max_qp_wr ≤ (h.RPCRDMA_BACKWARD_WRS : Int))
    (hro : (e.ro_open (rpcrdma_ep_create_limits h e
      { x with rx_ia := { x.rx_ia with
          ri_max_send_sges := min (to_u32 e.attrs.max_sge) h.RPCRDMA_MAX_SEND_SGES } })).1 = 0) :
    rpcrdma_ep_create h e x =
      some (rpcrdma_ep_create_cqs h e
        (rpcrdma_ep_create_attrs h (min (to_u32 e.attrs.max_sge) h.RPCRDMA_MAX_SEND_SGES)
          (e.ro_open (rpcrdma_ep_create_limits h e
            { x with rx_ia := { x.rx_ia with
                ri_max_send_sges :=
                  min (to_u32 e.attrs.max_sge) h.RPCRDMA_MAX_SEND_SGES } })).2)) := by
  unfold rpcrdma_ep_create
  simp only [hd] at hro ⊢
  simp only [hsge, hwr, if_false, hro, ne_eq, not_true_eq_false]

theorem ep_set_attrs_frame (X : rpcrdma_xprt) (r s : Nat) (c d : Int) :
    ({ X with rx_ep := { X.rx_ep with
        max_recv_wr := r, max_send_sge := s, max_recv_sge := 1,
        rep_cqinit := c, rep_cqcount := d } } : rpcrdma_xprt).rx_ep.max_send_wr
      = X.rx_ep.max_send_wr ∧
    ({ X with rx_ep := { X.rx_ep with
        max_recv_wr := r, max_send_sge := s, max_recv_sge := 1,
        rep_cqinit := c, rep_cqcount := d } } : rpcrdma_xprt).rx_data = X.rx_data ∧
    ({ X with rx_ep := { X.rx_ep with
        max_recv_wr := r, max_send_sge := s, max_recv_sge := 1,
        rep_cqinit := c, rep_cqcount := d } } : rpcrdma_xprt).rx_ep.max_recv_wr = r ∧
    ({ X with rx_ep := { X.rx_ep with
        max_recv_wr := r, max_send_sge := s, max_recv_sge := 1,
        rep_cqinit := c, rep_cqcount := d } } : rpcrdma_xprt).rx_ep.rep_cqinit = c :=
  ⟨rfl, rfl, rfl, rfl⟩

theorem ep_create_attrs_eq (h : xprt_rdma_h) (s : Nat) (X : rpcrdma_xprt) :
    rpcrdma_ep_create_attrs h s X =
      { X with rx_ep := { X.rx_ep with
          max_recv_wr :=
            (((X.rx_data.max_requests + h.RPCRDMA_BACKWARD_WRS) % 2 ^ 32) + 1) % 2 ^ 32,
          max_send_sge := s,
          max_recv_sge := 1,
          rep_cqinit :=
            (if to_s32 ((X.rx_ep.max_send_wr / 2 + 2 ^ 32 - 1) % 2 ^ 32) ≤ 2 then 0
              else to_s32 ((X.rx_ep.max_send_wr / 2 + 2 ^ 32 - 1) % 2 ^ 32)),
          rep_cqcount :=
            (if to_s32 ((X.rx_ep.max_send_wr / 2 + 2 ^ 32 - 1) % 2 ^ 32) ≤ 2 then 0
              else to_s32 ((X.rx_ep.max_send_wr / 2 + 2 ^ 32 - 1) % 2 ^ 32)) - 0 } } :=
  rfl

theorem ep_create_attrs_frame (h : xprt_rdma_h) (s : Nat) (X : rpcrdma_xprt) :
    (rpcrdma_ep_create_attrs h s X).rx_ep.max_send_wr = X.rx_ep.max_send_wr ∧
    (rpcrdma_ep_create_attrs h s X).rx_data = X.rx_data ∧
    (rpcrdma_ep_create_attrs h s X).rx_ep.max_recv_wr =
      ((X.rx_data.max_requests + h.RPCRDMA_BACKWARD_WRS) % 2 ^ 32 + 1) % 2 ^ 32 ∧
    (rpcrdma_ep_create_attrs h s X).rx_ep.rep_cqinit =
      (if to_s32 ((X.rx_ep.max_send_wr / 2 + 2 ^ 32 - 1) % 2 ^ 32) ≤ 2 then (0 : Int)
        else to_s32 ((X.rx_ep.max_send_wr / 2 + 2 ^ 32 - 1) % 2 ^ 32)) := by
  rw [ep_create_attrs_eq]
  exact ep_set_attrs_frame X _ s _ _

theorem cqinit_cases (m : Nat) (hm : m < 2 ^ 32) :
    (2 < ((m / 2 : Nat) : Int) - 1 →
      (if to_s32 ((m / 2 + 2 ^ 32 - 1) % 2 ^ 32) ≤ 2 then (0 : Int)
        else to_s32 ((m / 2 + 2 ^ 32 - 1) % 2 ^ 32)) = ((m / 2 : Nat) : Int) - 1) ∧
    (((m / 2 : Nat) : Int) - 1 ≤ 2 →
      (if to_s32 ((m / 2 + 2 ^ 32 - 1) % 2 ^ 32) ≤ 2 then (0 : Int)
        else to_s32 ((m / 2 + 2 ^ 32 - 1) % 2 ^ 32)) = 0) := by
  rw [to_s32_cqinit m hm]
  exact ⟨fun hgt => if_neg (not_le.mpr hgt), fun hle => if_pos hle⟩

theorem to_u32_of_nonneg (v : Int) (h0 : 0 ≤ v) (h1 : v < 2 ^ 32) : to_u32 v = v.toNat := by
  unfold to_u32
  rw [Int.emod_eq_of_lt h0 h1]

theorem ep_create_limits_spec (h : xprt_rdma_h) (e : ep_create_env) (x1 : rpcrdma_xprt) :
    (rpcrdma_ep_create_limits h e x1).rx_data.max_requests =
      min x1.rx_data.max_requests
        (to_u32 (e.attrs.max_qp_wr - (h.RPCRDMA_BACKWARD_WRS : Int) - 1)) ∧
    (rpcrdma_ep_create_limits h e x1).rx_ep.max_send_wr =
      (((rpcrdma_ep_create_limits h e x1).rx_data.max_requests
        + h.RPCRDMA_BACKWARD_WRS) % 2 ^ 32 + 1) % 2 ^ 32 := by
  unfold rpcrdma_ep_create_limits
  by_cases hc : x1.rx_data.max_requests >
      to_u32 (e.attrs.max_qp_wr - (h.RPCRDMA_BACKWARD_WRS : Int) - 1)
  · simp only [hc, if_true]
    exact ⟨(Nat.min_eq_right (Nat.le_of_lt hc)).symm, trivial⟩
  · simp only [hc, if_false]
    exact ⟨(Nat.min_eq_left (Nat.le_of_not_lt hc)).symm, trivial⟩

/-- C25 (cadence of signalled sends).  Let `rpcrdma_ep_create` get past its
capability checks and let the strategy's `ro_open` succeed, leaving some `u32`
value `max_send_wr` in the queue-pair attributes.  Then the call returns with
that `max_send_wr` still in place and with `rep_cqinit` equal to
`max_send_wr/2 - 1` (integer division) when that number is greater than 2, and
equal to 0 when it is at most 2 (for `max_send_wr` below 2 the number is -1:
`rep_cqinit` is a signed `int`). -/
theorem ep_create_cqinit (h : xprt_rdma_h) (e : ep_create_env) (x : rpcrdma_xprt) (d : Nat)
    (hd : x.rx_ia.ri_device = some d)
    (hsge : ¬ min (to_u32 e.attrs.max_sge) h.RPCRDMA_MAX_SEND_SGES < h.RPCRDMA_MIN_SEND_SGES)
    (hwr : ¬ e.attrs.max_qp_wr ≤ (h.RPCRDMA_BACKWARD_WRS : Int))
    (hro : ∀ z, (e.ro_open z).1 = 0)
    (hu32 : ∀ z, z.rx_ep.max_send_wr < 2 ^ 32 →
      (e.ro_open z).2.rx_ep.max_send_wr < 2 ^ 32) :
    ∃ rc y, rpcrdma_ep_create h e x = some (rc, y) ∧
      y.rx_ep.max_send_wr = (e.ro_open (rpcrdma_ep_create_limits h e
        { x with rx_ia := { x.rx_ia with
            ri_max_send_sges :=
              min (to_u32 e.attrs.max_sge) h.RPCRDMA_MAX_SEND_SGES } })).2.rx_ep.max_send_wr ∧
      (2 < ((y.rx_ep.max_send_wr / 2 : Nat) : Int) - 1 →
        y.rx_ep.rep_cqinit = ((y.rx_ep.max_send_wr / 2 : Nat) : Int) - 1) ∧
      (((y.rx_ep.max_send_wr / 2 : Nat) : Int) - 1 ≤ 2 → y.rx_ep.rep_cqinit = 0) := by
  have hp := ep_create_past_checks h e x d hd hsge hwr (hro _)
  obtain ⟨X, hX⟩ : ∃ X : rpcrdma_xprt, X = (e.ro_open (rpcrdma_ep_create_limits h e
      { x with rx_ia := { x.rx_ia with
          ri_max_send_sges :=
            min (to_u32 e.attrs.max_sge) h.RPCRDMA_MAX_SEND_SGES } })).2 := ⟨_, rfl⟩
  rw [← hX] at hp ⊢
  obtain ⟨-, f2, -, f4⟩ := ep_create_cqs_frame h e
    (rpcrdma_ep_create_attrs h (min (to_u32 e.attrs.max_sge) h.RPCRDMA_MAX_SEND_SGES) X)
  have hm : X.rx_ep.max_send_wr < 2 ^ 32 := by
    rw [hX]
    apply hu32
    rw [(ep_create_limits_spec h e _).2]
    exact Nat.mod_lt _ (by norm_num)
  have hc := cqinit_cases _ hm
  obtain ⟨g2, -, -, g4⟩ := ep_create_attrs_frame h
    (min (to_u32 e.attrs.max_sge) h.RPCRDMA_MAX_SEND_SGES) X
  refine ⟨(rpcrdma_ep_create_cqs h e (rpcrdma_ep_create_attrs h
      (min (to_u32 e.attrs.max_sge) h.RPCRDMA_MAX_SEND_SGES) X)).1,
    (rpcrdma_ep_create_cqs h e (rpcrdma_ep_create_attrs h
      (min (to_u32 e.attrs.max_sge) h.RPCRDMA_MAX_SEND_SGES) X)).2, hp, ?_, ?_, ?_⟩
  · rw [f2, g2]
  · rw [f4, f2, g2, g4]
    exact hc.1
  · rw [f4, f2, g2, g4]
    exact hc.2

/-- The sample adapter on the sample device (`max_qp_wr = 1000`), one request
configured: `max_send_wr` is 1 + 8 + 1 = 10 and the cadence 10/2 - 1 = 4. -/
theorem ep_create_cqinit_witness :
    (rpcrdma_ep_create upstream_h (sample_recreate_env 4).ep_create sample_open_xprt).map
        (fun r => (r.2.rx_ep.max_send_wr, r.2.rx_ep.rep_cqinit)) = some (10, 4) := by
  obtain ⟨rc, y, hy, hms, hgt, -⟩ := ep_create_cqinit upstream_h
    (sample_recreate_env 4).ep_create sample_open_xprt 7 rfl (by decide) (by decide)
    (fun _ => rfl) (fun z hz => hz)
  have hms1 : y.rx_ep.max_send_wr = 10 := by
    rw [hms]
    decide
  rw [hms1] at hgt
  rw [hy, Option.map_some', hms1, hgt (by decide)]
  rfl

/-- C29 (work-request limits fit the device).  Let `rpcrdma_ep_create` get past
its capability checks (`max_qp_wr > RPCRDMA_BACKWARD_WRS`, `max_qp_wr` being a
C `int`), and let the strategy's `ro_open` succeed and leave `rx_data` and the
endpoint as they are.  Then the call returns with `max_requests` equal to the
minimum of the requested `max_requests` and
`max_qp_wr - RPCRDMA_BACKWARD_WRS - 1`, with
`max_send_wr = max_recv_wr = max_requests + RPCRDMA_BACKWARD_WRS + 1`, and with
that number at most `max_qp_wr`; the subtraction is not negative, so its
conversion to `unsigned int` does not wrap, and neither do the additions. -/
theorem ep_create_wr_limits (h : xprt_rdma_h) (e : ep_create_env) (x : rpcrdma_xprt) (d : Nat)
    (hd : x.rx_ia.ri_device = some d)
    (hsge : ¬ min (to_u32 e.attrs.max_sge) h.RPCRDMA_MAX_SEND_SGES < h.RPCRDMA_MIN_SEND_SGES)
    (hwr : ¬ e.attrs.max_qp_wr ≤ (h.RPCRDMA_BACKWARD_WRS : Int))
    (hint : e.attrs.max_qp_wr < 2 ^ 31)
    (hro : ∀ z, (e.ro_open z).1 = 0 ∧ (e.ro_open z).2.rx_data = z.rx_data ∧
      (e.ro_open z).2.rx_ep = z.rx_ep) :
    ∃ rc y, rpcrdma_ep_create h e x = some (rc, y) ∧
      (y.rx_data.max_requests : Int) =
        min (x.rx_data.max_requests : Int)
          (e.attrs.max_qp_wr - (h.RPCRDMA_BACKWARD_WRS : Int) - 1) ∧
      y.rx_ep.max_send_wr = y.rx_data.max_requests + h.RPCRDMA_BACKWARD_WRS + 1 ∧
      y.rx_ep.max_recv_wr = y.rx_data.max_requests + h.RPCRDMA_BACKWARD_WRS + 1 ∧
      (y.rx_ep.max_send_wr : Int) ≤ e.attrs.max_qp_wr ∧
      0 ≤ e.attrs.max_qp_wr - (h.RPCRDMA_BACKWARD_WRS : Int) - 1 ∧
      to_u32 (e.attrs.max_qp_wr - (h.RPCRDMA_BACKWARD_WRS : Int) - 1) =
        (e.attrs.max_qp_wr - (h.RPCRDMA_BACKWARD_WRS : Int) - 1).toNat := by
  have hp := ep_create_past_checks h e x d hd hsge hwr (hro _).1
  obtain ⟨Z, hZ⟩ : ∃ Z : rpcrdma_xprt, Z = rpcrdma_ep_create_limits h e
      { x with rx_ia := { x.rx_ia with
          ri_max_send_sges :=
            min (to_u32 e.attrs.max_sge) h.RPCRDMA_MAX_SEND_SGES } } := ⟨_, rfl⟩
  rw [← hZ] at hp
  obtain ⟨l1, l2⟩ := ep_create_limits_spec h e
      { x with rx_ia := { x.rx_ia with
          ri_max_send_sges :=
            min (to_u32 e.attrs.max_sge) h.RPCRDMA_MAX_SEND_SGES } }
  rw [← hZ] at l1 l2
  have l1a : Z.rx_data.max_requests = min x.rx_data.max_requests
      (to_u32 (e.attrs.max_qp_wr - (h.RPCRDMA_BACKWARD_WRS : Int) - 1)) := l1
  obtain ⟨-, r2, r3⟩ := hro Z
  obtain ⟨f1, f2, f3, -⟩ := ep_create_cqs_frame h e
    (rpcrdma_ep_create_attrs h (min (to_u32 e.attrs.max_sge) h.RPCRDMA_MAX_SEND_SGES)
      (e.ro_open Z).2)
  obtain ⟨g2a, g1a, g3a, -⟩ := ep_create_attrs_frame h
    (min (to_u32 e.attrs.max_sge) h.RPCRDMA_MAX_SEND_SGES) (e.ro_open Z).2
  have g1 : (rpcrdma_ep_create_attrs h
      (min (to_u32 e.attrs.max_sge) h.RPCRDMA_MAX_SEND_SGES) (e.ro_open Z).2).rx_data
        = Z.rx_data := g1a.trans r2
  have g2 : (rpcrdma_ep_create_attrs h
      (min (to_u32 e.attrs.max_sge) h.RPCRDMA_MAX_SEND_SGES) (e.ro_open Z).2).rx_ep.max_send_wr
        = Z.rx_ep.max_send_wr := by
    rw [g2a, r3]
  have g3 : (rpcrdma_ep_create_attrs h
      (min (to_u32 e.attrs.max_sge) h.RPCRDMA_MAX_SEND_SGES) (e.ro_open Z).2).rx_ep.max_recv_wr
        = ((Z.rx_data.max_requests + h.RPCRDMA_BACKWARD_WRS) % 2 ^ 32 + 1) % 2 ^ 32 := by
    rw [g3a, r2]
  have h0 : 0 ≤ e.attrs.max_qp_wr - (h.RPCRDMA_BACKWARD_WRS : Int) - 1 := by omega
  have hu := to_u32_of_nonneg (e.attrs.max_qp_wr - (h.RPCRDMA_BACKWARD_WRS : Int) - 1) h0
    (by omega)
  have hreq : (Z.rx_data.max_requests : Int) = min (x.rx_data.max_requests : Int)
      (e.attrs.max_qp_wr - (h.RPCRDMA_BACKWARD_WRS : Int) - 1) := by
    rw [l1a, hu]
    rcases Nat.le_total x.rx_data.max_requests
      (e.attrs.max_qp_wr - (h.RPCRDMA_BACKWARD_WRS : Int) - 1).toNat with hc | hc
    · rw [Nat.min_eq_left hc]
      omega
    · rw [Nat.min_eq_right hc]
      omega
  have hsmall : Z.rx_data.max_requests + h.RPCRDMA_BACKWARD_WRS + 1 < 2 ^ 31 := by
    have := min_le_right (x.rx_data.max_requests : Int)
      (e.attrs.max_qp_wr - (h.RPCRDMA_BACKWARD_WRS : Int) - 1)
    omega
  have hmod : ((Z.rx_data.max_requests + h.RPCRDMA_BACKWARD_WRS) % 2 ^ 32 + 1) % 2 ^ 32
      = Z.rx_data.max_requests + h.RPCRDMA_BACKWARD_WRS + 1 := by
    rw [Nat.mod_eq_of_lt (by omega), Nat.mod_eq_of_lt (by omega)]
  refine ⟨(rpcrdma_ep_create_cqs h e (rpcrdma_ep_create_attrs h
      (min (to_u32 e.attrs.max_sge) h.RPCRDMA_MAX_SEND_SGES) (e.ro_open Z).2)).1,
    (rpcrdma_ep_create_cqs h e (rpcrdma_ep_create_attrs h
      (min (to_u32 e.attrs.max_sge) h.RPCRDMA_MAX_SEND_SGES) (e.ro_open Z).2)).2, hp,
    ?_, ?_, ?_, ?_, h0, hu⟩
  · rw [f1, g1]
    exact hreq
  · rw [f1, f2, g1, g2, l2, hmod]
  · rw [f1, f3, g1, g3, hmod]
  · rw [f2, g2, l2, hmod]
    have := min_le_right (x.rx_data.max_requests : Int)
      (e.attrs.max_qp_wr - (h.RPCRDMA_BACKWARD_WRS : Int) - 1)
    omega

/-- The sample adapter asking for 32 requests on a device with
`max_qp_wr = 13`: `max_requests` becomes 13 - 8 - 1 = 4 and both work-request
limits become 4 + 8 + 1 = 13. -/
theorem ep_create_wr_limits_witness :
    (rpcrdma_ep_create upstream_h sample_tight_device_env sample_open_32).map
        (fun r => (r.2.rx_data.max_requests, r.2.rx_ep.max_send_wr, r.2.rx_ep.max_recv_wr))
      = some (4, 13, 13) := by
  obtain ⟨rc, y, hy, h1, h2, h3, -⟩ := ep_create_wr_limits upstream_h
    sample_tight_device_env sample_open_32 7 rfl (by decide) (by decide) (by decide)
    (fun _ => ⟨rfl, rfl, rfl⟩)
  have h1a : y.rx_data.max_requests = 4 := by
    have e1 : min ((sample_open_32.rx_data.max_requests : Nat) : Int)
        (sample_tight_device_env.attrs.max_qp_wr - (upstream_h.RPCRDMA_BACKWARD_WRS : Int) - 1)
        = 4 := by decide
    rw [e1] at h1
    exact_mod_cast h1
  rw [hy, Option.map_some', h2, h3, h1a]
  rfl

/-! ## Extra receives -/

theorem ep_post_recv_frame (e : post_recv_env) (x x1 : rpcrdma_xprt) (rep : ptr) (rc : Int)
    (hp : rpcrdma_ep_post_recv e x rep = some (rc, x1)) :
    x1.rx_buf = x.rx_buf := by
  unfold rpcrdma_ep_post_recv at hp
  cases hb : (rep_at x rep).rr_rdmabuf with
  | none => simp [hb] at hp
  | some rb =>
    simp only [hb] at hp
    cases hid : x.rx_ia.ri_id with
    | none =>
      simp only [hid] at hp
      split_ifs at hp
      simp only [Option.some.injEq, Prod.mk.injEq] at hp
      rw [← hp.2]
    | some id =>
      simp only [hid] at hp
      split_ifs at hp <;>
        (simp only [Option.some.injEq, Prod.mk.injEq] at hp
         rw [← hp.2])

/-- C28 (a failed post of an extra receive unbalances the pool).  Whenever
`rpcrdma_ep_post_extra_recv` returns an error that comes from posting a
receive (any error but the `-ENOMEM` of an empty reply free list), the reply
whose post failed is back on the reply free list, at its tail, the replies
posted before it are gone from the list, and `rb_recv_count` is one less than
before the call: the reply was taken with `rpcrdma_buffer_get_rep_locked`,
which does not count, and handed back with `rpcrdma_recv_buffer_put`, which
decrements.  The counter is a C `int`: the decrement is by exactly 1 unless it
stood at `INT_MIN`. -/
theorem post_extra_recv_failure (e : Nat → post_recv_env) (n : Nat) :
    ∀ (i : Nat) (x y : rpcrdma_xprt) (rc : Int),
    rpcrdma_ep_post_extra_recv e n i x = some (rc, y) → rc ≠ 0 → rc ≠ -ENOMEM →
    y.rx_buf.rb_recv_count = int_wrap (x.rx_buf.rb_recv_count - 1) ∧
    (-2 ^ 31 < x.rx_buf.rb_recv_count → x.rx_buf.rb_recv_count < 2 ^ 31 →
      y.rx_buf.rb_recv_count = x.rx_buf.rb_recv_count - 1) ∧
    y.rx_buf.rb_send_count = x.rx_buf.rb_send_count ∧
    ∃ posted rep rest, x.rx_buf.rb_recv_bufs = posted ++ rep :: rest ∧
      y.rx_buf.rb_recv_bufs = rest ++ [rep] := by
  induction n with
  | zero =>
    intro i x y rc hres hrc _
    simp only [rpcrdma_ep_post_extra_recv, Option.some.injEq, Prod.mk.injEq] at hres
    exact absurd hres.1.symm hrc
  | succ n ih =>
    intro i x y rc hres hrc hne
    unfold rpcrdma_ep_post_extra_recv at hres
    cases hl : x.rx_buf.rb_recv_bufs with
    | nil =>
      simp only [hl, List.isEmpty_nil, if_true, Option.some.injEq, Prod.mk.injEq] at hres
      exact absurd hres.1.symm hne
    | cons rep rest =>
      simp only [hl, List.isEmpty_cons, Bool.false_eq_true, if_false,
        rpcrdma_buffer_get_rep_locked] at hres
      cases hp : rpcrdma_ep_post_recv (e i)
          { x with rx_buf := { x.rx_buf with rb_recv_bufs := rest } } rep with
      | none => simp [hp] at hres
      | some r =>
        obtain ⟨rc1, x1⟩ := r
        have hf := ep_post_recv_frame (e i) _ x1 rep rc1 hp
        simp only [hp] at hres
        by_cases h1 : rc1 = 0
        · simp only [h1, ne_eq, not_true_eq_false, if_false] at hres
          obtain ⟨a1, a1b, a2, posted, rep1, rest1, a3, a4⟩ :=
            ih (i + 1) x1 y rc hres hrc hne
          rw [hf] at a1 a1b a2 a3
          refine ⟨a1, a1b, a2, rep :: posted, rep1, rest1, ?_, a4⟩
          simp only [List.cons_append, List.cons.injEq, true_and]
          exact a3
        · simp only [ne_eq, h1, not_false_eq_true, if_true, Option.some.injEq,
            Prod.mk.injEq] at hres
          rw [← hres.2]
          simp only [rpcrdma_recv_buffer_put, hf]
          refine ⟨trivial, ?_, trivial, [], rep, rest, rfl, rfl⟩
          intro b1 b2
          exact int_wrap_eq _ (by omega) (by omega)

/-- Failing input: the fresh sample pool (replies 1 and 0 free, both counters
0) and one extra receive whose `ib_post_recv` is refused.  The call returns
`-ENOTCONN`, reply 1 is at the tail of the free list, and `rb_recv_count` is
-1. -/
theorem post_extra_recv_failure_witness :
    sample_pool.rx_buf.rb_recv_count = 0 ∧
    sample_pool.rx_buf.rb_recv_bufs = [1, 0] ∧
    (rpcrdma_ep_post_extra_recv (fun _ => sample_post_fails) 1 0 sample_pool).map
        (fun r => (r.1, r.2.rx_buf.rb_recv_count, r.2.rx_buf.rb_recv_bufs))
      = some (-ENOTCONN, -1, [0, 1]) := by
  have hres : rpcrdma_ep_post_extra_recv (fun _ => sample_post_fails) 1 0 sample_pool =
      some (-ENOTCONN,
        ((rpcrdma_ep_post_extra_recv (fun _ => sample_post_fails) 1 0 sample_pool).getD
          (0, sample_pool)).2) := by decide
  have k := post_extra_recv_failure (fun _ => sample_post_fails) 1 0 sample_pool _ _ hres
    (by decide) (by decide)
  refine ⟨by decide, by decide, ?_⟩
  rw [hres, Option.map_some', k.2.1 (by decide) (by decide)]
  decide

/-! ## The recovery worker -/

theorem recovered_append (a b : List provider_call) :
    recovered (a ++ b) = recovered a ++ recovered b := by
  induction a with
  | nil => rfl
  | cons c cs ih =>
    cases c <;> simp [recovered, ih]

theorem recovered_quiet (cs : List provider_call)
    (hq : ∀ c, c ∈ cs → is_recovery_call c = false) : recovered cs = [] := by
  induction cs with
  | nil => rfl
  | cons c cs ih =>
    have hc := hq c (List.mem_cons_self _ _)
    have ih1 := ih (fun c1 h1 => hq c1 (List.mem_cons_of_mem _ h1))
    cases c <;> simp_all [recovered, is_recovery_call]

theorem lock_walk_quiet (cs t : List provider_call) (b : Bool)
    (hq : ∀ c, c ∈ cs → is_recovery_call c = false) :
    lock_walk b (cs ++ t) = lock_walk b t := by
  induction cs with
  | nil => rfl
  | cons c cs ih =>
    have hc := hq c (List.mem_cons_self _ _)
    have ih1 := ih (fun c1 h1 => hq c1 (List.mem_cons_of_mem _ h1))
    cases c <;> simp_all [lock_walk, is_recovery_call]

theorem recovered_pass (mw : ptr) :
    recovered [provider_call.spin_unlock_rb_recovery_lock, provider_call.ro_recover_mr mw]
      = [mw] ∧
    recovered [provider_call.spin_lock_rb_recovery_lock] = [] ∧
    recovered [provider_call.spin_unlock_rb_recovery_lock] = [] :=
  ⟨rfl, rfl, rfl⟩

theorem lock_walk_lock (cs : List provider_call) :
    lock_walk false (provider_call.spin_lock_rb_recovery_lock :: cs) = lock_walk true cs := by
  simp [lock_walk]

theorem lock_walk_unlock (cs : List provider_call) :
    lock_walk true (provider_call.spin_unlock_rb_recovery_lock :: cs) = lock_walk false cs := by
  simp [lock_walk]

theorem lock_walk_recover (mw : ptr) (cs : List provider_call) :
    lock_walk false (provider_call.ro_recover_mr mw :: cs) = lock_walk false cs := by
  simp [lock_walk]

theorem recovery_loop_spec (ro : ptr → rpcrdma_xprt → rpcrdma_xprt)
    (hq : ro_recover_mr_quiet ro) :
    ∀ (l : List ptr) (x : rpcrdma_xprt), x.rx_buf.rb_stale_mrs = l →
    ∃ y cs, rpcrdma_mr_recovery_worker_loop ro l.length x = some y ∧
      y.rx_buf.rb_stale_mrs = [] ∧ y.calls = x.calls ++ cs ∧ recovered cs = l ∧
      (∀ t, lock_walk true (cs ++ t) = lock_walk true t) ∧
      (∀ fuel, fuel < l.length → rpcrdma_mr_recovery_worker_loop ro fuel x = none) ∧
      (∀ fuel, l.length ≤ fuel → rpcrdma_mr_recovery_worker_loop ro fuel x = some y)
  | [], x, hl => by
    refine ⟨x, [], ?_, hl, by simp, rfl, fun t => rfl, ?_, ?_⟩
    · simp [rpcrdma_mr_recovery_worker_loop, hl]
    · intro fuel hf
      exact absurd hf (Nat.not_lt_zero _)
    · intro fuel _
      cases fuel <;> simp [rpcrdma_mr_recovery_worker_loop, hl]
  | mw :: rest, x, hl => by
    obtain ⟨q1, cs0, q2, q3⟩ := hq mw
      { x with
        rx_buf := { x.rx_buf with rb_stale_mrs := rest },
        calls := x.calls ++
          [provider_call.spin_unlock_rb_recovery_lock, provider_call.ro_recover_mr mw] }
    have hiter : rpcrdma_mr_recovery_worker_iter ro x =
        { ro mw { x with
            rx_buf := { x.rx_buf with rb_stale_mrs := rest },
            calls := x.calls ++
              [provider_call.spin_unlock_rb_recovery_lock, provider_call.ro_recover_mr mw] } with
          calls := (ro mw { x with
            rx_buf := { x.rx_buf with rb_stale_mrs := rest },
            calls := x.calls ++
              [provider_call.spin_unlock_rb_recovery_lock,
               provider_call.ro_recover_mr mw] }).calls ++
            [provider_call.spin_lock_rb_recovery_lock] } := by
      simp only [rpcrdma_mr_recovery_worker_iter, hl, rpcrdma_pop_mw]
    obtain ⟨y, cs, r1, r2, r3, r4, r5, r6, r7⟩ := recovery_loop_spec ro hq rest
      (rpcrdma_mr_recovery_worker_iter ro x) (by rw [hiter]; exact q1)
    have hne : x.rx_buf.rb_stale_mrs.isEmpty = false := by rw [hl]; rfl
    refine ⟨y, [provider_call.spin_unlock_rb_recovery_lock, provider_call.ro_recover_mr mw]
      ++ cs0 ++ [provider_call.spin_lock_rb_recovery_lock] ++ cs, ?_, r2, ?_, ?_, ?_, ?_, ?_⟩
    · simp only [List.length_cons, rpcrdma_mr_recovery_worker_loop, hne, Bool.false_eq_true,
        if_false]
      exact r1
    · rw [r3, hiter]
      simp only [q2, List.append_assoc]
    · rw [recovered_append, recovered_append, recovered_append, (recovered_pass mw).1,
        (recovered_pass mw).2.1, recovered_quiet cs0 q3, r4]
      rfl
    · intro t
      have ea : [provider_call.spin_unlock_rb_recovery_lock, provider_call.ro_recover_mr mw]
          ++ cs0 ++ [provider_call.spin_lock_rb_recovery_lock] ++ cs ++ t =
          provider_call.spin_unlock_rb_recovery_lock :: provider_call.ro_recover_mr mw ::
            (cs0 ++ provider_call.spin_lock_rb_recovery_lock :: (cs ++ t)) := by
        simp only [List.append_assoc, List.cons_append, List.nil_append]
      rw [ea, lock_walk_unlock, lock_walk_recover, lock_walk_quiet cs0 _ false q3,
        lock_walk_lock]
      exact r5 t
    · intro fuel hf
      cases fuel with
      | zero => simp [rpcrdma_mr_recovery_worker_loop, hne]
      | succ f =>
        simp only [rpcrdma_mr_recovery_worker_loop, hne, Bool.false_eq_true, if_false]
        exact r6 f (by simpa using hf)
    · intro fuel hf
      cases fuel with
      | zero => simp at hf
      | succ f =>
        simp only [rpcrdma_mr_recovery_worker_loop, hne, Bool.false_eq_true, if_false]
        exact r7 f (by simpa using hf)

/-- C26 (the recovery worker drains the stale list).  Let the strategy's
`ro_recover_mr` mark no region stale and leave `rb_recovery_lock` alone.  On a
stale list of `n` regions `rpcrdma_mr_recovery_worker` returns after exactly
`n` passes through its loop (fewer passes do not suffice, and more are not
made), with the stale list empty.  The calls it has made invoke
`ro_recover_mr` on exactly the regions of the initial stale list, once per
entry and in the order of the list, and the lock discipline holds along them:
the lock is free at the start and at the end, is never taken twice, and every
`ro_recover_mr` is invoked while it is not held. -/
theorem recovery_worker_drains (ro : ptr → rpcrdma_xprt → rpcrdma_xprt)
    (hq : ro_recover_mr_quiet ro) (x : rpcrdma_xprt) :
    ∃ y cs, rpcrdma_mr_recovery_worker ro x.rx_buf.rb_stale_mrs.length x = some y ∧
      y.rx_buf.rb_stale_mrs = [] ∧
      y.calls = x.calls ++ cs ∧
      recovered cs = x.rx_buf.rb_stale_mrs ∧
      lock_walk false cs = some false ∧
      (∀ fuel, fuel < x.rx_buf.rb_stale_mrs.length →
        rpcrdma_mr_recovery_worker ro fuel x = none) ∧
      (∀ fuel, x.rx_buf.rb_stale_mrs.length ≤ fuel →
        rpcrdma_mr_recovery_worker ro fuel x = some y) := by
  obtain ⟨y, cs, r1, r2, r3, r4, r5, r6, r7⟩ := recovery_loop_spec ro hq
    x.rx_buf.rb_stale_mrs
    { x with calls := x.calls ++ [provider_call.spin_lock_rb_recovery_lock] } rfl
  refine ⟨{ y with calls := y.calls ++ [provider_call.spin_unlock_rb_recovery_lock] },
    [provider_call.spin_lock_rb_recovery_lock] ++ cs ++
      [provider_call.spin_unlock_rb_recovery_lock], ?_, r2, ?_, ?_, ?_, ?_, ?_⟩
  · simp only [rpcrdma_mr_recovery_worker, r1, Option.map_some']
  · simp only [r3, List.append_assoc]
  · rw [recovered_append, recovered_append, (recovered_pass 0).2.1, (recovered_pass 0).2.2, r4]
    simp only [List.nil_append, List.append_nil]
  · have ea : [provider_call.spin_lock_rb_recovery_lock] ++ cs ++
        [provider_call.spin_unlock_rb_recovery_lock] =
        provider_call.spin_lock_rb_recovery_lock ::
          (cs ++ [provider_call.spin_unlock_rb_recovery_lock]) := by
      simp only [List.append_assoc, List.cons_append, List.nil_append]
    rw [ea, lock_walk_lock, r5, lock_walk_unlock]
    rfl
  · intro fuel hf
    simp only [rpcrdma_mr_recovery_worker, r6 fuel hf, Option.map_none']
  · intro fuel hf
    simp only [rpcrdma_mr_recovery_worker, r7 fuel hf, Option.map_some']

/-- The sample pool with the regions 5, 9 and 2 stale and a strategy that
releases what it recovers: the worker invokes `ro_recover_mr` on 5, 9 and 2,
returns with the stale list empty, and two passes are not enough. -/
theorem recovery_worker_drains_witness :
    ro_recover_mr_quiet ro_recover_mr_release ∧
    (rpcrdma_mr_recovery_worker ro_recover_mr_release 3 sample_stale).map
        (fun y => (y.rx_buf.rb_stale_mrs, recovered y.calls)) = some ([], [5, 9, 2]) ∧
    rpcrdma_mr_recovery_worker ro_recover_mr_release 2 sample_stale = none := by
  have hq : ro_recover_mr_quiet ro_recover_mr_release :=
    fun mw x => ⟨rfl, [], by simp [ro_recover_mr_release, rpcrdma_put_mw], by simp⟩
  obtain ⟨y, cs, h1, h2, h3, h4, -, h6, -⟩ :=
    recovery_worker_drains ro_recover_mr_release hq sample_stale
  have h1a : rpcrdma_mr_recovery_worker ro_recover_mr_release 3 sample_stale = some y := h1
  refine ⟨hq, ?_, h6 2 (by decide)⟩
  rw [h1a, Option.map_some', h2, h3, recovered_append, h4]
  rfl

end xprtrdma

namespace tile_time

/-! ## ns2cycles -/

/-- C22, the claim refuted on a concrete input: with `mult = 3`, `shift = 1`
and `nsecs = 12297829382473034411` neither product overflows 64 bits
(`quot * mult` is `2 ^ 64 - 1`, `rem * mult` is 3), yet their sum does:
`ns2cycles` returns 0, while the unsplit value `(nsecs * mult) >> shift` over
unbounded integers is `2 ^ 64`. -/
theorem ns2cycles_sum_wraps :
    (12297829382473034411 >>> sample_dev.shift) * sample_dev.mult = 2 ^ 64 - 1 ∧
    (12297829382473034411 &&& (2 ^ sample_dev.shift - 1)) * sample_dev.mult = 3 ∧
    ns2cycles sample_dev 12297829382473034411 = 0 ∧
    (12297829382473034411 * sample_dev.mult) >>> sample_dev.shift = 2 ^ 64 := by
  decide

theorem split_mul_div (n m s : Nat) :
    (n / 2 ^ s) * m + ((n % 2 ^ s) * m) / 2 ^ s = (n * m) / 2 ^ s := by
  have hpos : 0 < 2 ^ s := Nat.pow_pos (by norm_num)
  have e1 : n * m = (n % 2 ^ s) * m + 2 ^ s * ((n / 2 ^ s) * m) := by
    conv_lhs => rw [← Nat.mod_add_div n (2 ^ s)]
    ring
  rw [e1, Nat.add_mul_div_left _ _ hpos]
  omega

/-- C22, amended.  For every 64-bit `nsecs`, every `mult` and every `shift`
below 64, when neither product overflows 64 bits and their sum, the value to
return, does not either, `ns2cycles` returns the unsplit value
`(nsecs * mult) >> shift` computed over unbounded integers.  The split itself
loses nothing: over unbounded integers
`(nsecs >> shift) * mult + (((nsecs & (2 ^ shift - 1)) * mult) >> shift)`
equals `(nsecs * mult) >> shift` for all `nsecs`, `mult` and `shift`. -/
theorem ns2cycles_exact (dev : clock_event_device) (nsecs : Nat)
    (hn : nsecs < 2 ^ 64) (hs : dev.shift < 64)
    (h1 : (nsecs >>> dev.shift) * dev.mult < 2 ^ 64)
    (h2 : (nsecs &&& (2 ^ dev.shift - 1)) * dev.mult < 2 ^ 64)
    (h3 : (nsecs >>> dev.shift) * dev.mult +
      ((nsecs &&& (2 ^ dev.shift - 1)) * dev.mult) >>> dev.shift < 2 ^ 64) :
    ns2cycles dev nsecs = (nsecs * dev.mult) >>> dev.shift ∧
    (∀ n m s : Nat,
      (n >>> s) * m + ((n &&& (2 ^ s - 1)) * m) >>> s = (n * m) >>> s) := by
  have hid : ∀ n m s : Nat,
      (n >>> s) * m + ((n &&& (2 ^ s - 1)) * m) >>> s = (n * m) >>> s := by
    intro n m s
    rw [Nat.and_pow_two_sub_one_eq_mod, Nat.shiftRight_eq_div_pow, Nat.shiftRight_eq_div_pow,
      Nat.shiftRight_eq_div_pow]
    exact split_mul_div n m s
  refine ⟨?_, hid⟩
  have hp : 2 ^ dev.shift < 2 ^ 64 := Nat.pow_lt_pow_right (by norm_num) hs
  have hpos : 0 < 2 ^ dev.shift := Nat.pow_pos (by norm_num)
  have hmask : ((1 <<< dev.shift) % 2 ^ 64 + 2 ^ 64 - 1) % 2 ^ 64 = 2 ^ dev.shift - 1 := by
    rw [Nat.one_shiftLeft, Nat.mod_eq_of_lt hp]
    have : 2 ^ dev.shift + 2 ^ 64 - 1 = (2 ^ dev.shift - 1) + 2 ^ 64 := by omega
    rw [this, Nat.add_mod_right]
    exact Nat.mod_eq_of_lt (by omega)
  unfold ns2cycles
  simp only [Nat.mod_eq_of_lt hn, hmask]
  rw [Nat.mod_eq_of_lt h1, Nat.mod_eq_of_lt h2, Nat.mod_eq_of_lt h3]
  exact hid nsecs dev.mult dev.shift

/-- One second on a 300 MHz timer (`mult = 1288490189`, `shift = 32`):
`ns2cycles` returns 300000000, the unsplit value. -/
theorem ns2cycles_exact_witness :
    ns2cycles sample_tile_dev 1000000000 = 300000000 ∧
    (1000000000 * sample_tile_dev.mult) >>> sample_tile_dev.shift = 300000000 := by
  have k := (ns2cycles_exact sample_tile_dev 1000000000 (by decide) (by decide) (by decide)
    (by decide) (by decide)).1
  have e : (1000000000 * sample_tile_dev.mult) >>> sample_tile_dev.shift = 300000000 := by
    decide
  exact ⟨k.trans e, e⟩

end tile_time

namespace v4l2_dv_timings

/-! ## v4l2_calc_aspect_ratio -/

/-- C23 (EDID aspect ratio).  For bytes `h` (0x15) and `v` (0x16):
`v4l2_calc_aspect_ratio` returns 16:9 when both are 0 and `h:v` when both are
non-zero.  When only `h` is non-zero it returns `(h + 99)/100`, with 79, 34
and 68 replaced by 16/9, 4/3 and 15/9.  When only `v` is non-zero it returns
the swapped 9/16, 3/4 and 9/15 for 79, 34 and 68, and for every other value of
`v` it returns 100/99, whatever `v` is: the numerator before the swap is
computed as `hor_landscape + 99`, and `hor_landscape` is 0 here, where the
rule of the function's comment, `(val + 99) / 100`, asks for `v + 99`. -/
theorem calc_aspect_ratio_cases (h v : Nat) (hh : h < 256) (hv : v < 256) :
    (h = 0 → v = 0 → v4l2_calc_aspect_ratio h v = { numerator := 16, denominator := 9 }) ∧
    (h ≠ 0 → v ≠ 0 → v4l2_calc_aspect_ratio h v = { numerator := h, denominator := v }) ∧
    (h ≠ 0 → v = 0 → v4l2_calc_aspect_ratio h v =
      if h = 79 then { numerator := 16, denominator := 9 }
      else if h = 34 then { numerator := 4, denominator := 3 }
      else if h = 68 then { numerator := 15, denominator := 9 }
      else { numerator := h + 99, denominator := 100 }) ∧
    (h = 0 → v ≠ 0 → v4l2_calc_aspect_ratio h v =
      if v = 79 then { numerator := 9, denominator := 16 }
      else if v = 34 then { numerator := 3, denominator := 4 }
      else if v = 68 then { numerator := 9, denominator := 15 }
      else { numerator := 100, denominator := 99 }) := by
  have eh : h % 256 = h := Nat.mod_eq_of_lt hh
  have ev : v % 256 = v := Nat.mod_eq_of_lt hv
  refine ⟨?_, ?_, ?_, ?_⟩
  · intro h0 v0
    subst h0
    subst v0
    rfl
  · intro h0 v0
    simp [v4l2_calc_aspect_ratio, eh, ev, h0, v0]
  · intro h0 v0
    subst v0
    simp only [v4l2_calc_aspect_ratio, eh, Nat.zero_mod, Nat.or_zero, h0, and_true,
      ne_eq, not_false_eq_true, not_true_eq_false, and_false, if_false, if_true]
  · intro h0 v0
    subst h0
    simp only [v4l2_calc_aspect_ratio, ev, Nat.zero_mod, Nat.zero_or, v0, and_false,
      ne_eq, not_false_eq_true, not_true_eq_false, false_and, if_false, true_and, zero_add]
    split_ifs <;> rfl

/-- Failing input: byte 0x15 is 0 and byte 0x16 is 50 (portrait, ratio
1.49).  The function returns 100/99, not 100/149. -/
theorem calc_aspect_ratio_cases_witness :
    v4l2_calc_aspect_ratio 0 50 = { numerator := 100, denominator := 99 } ∧
    v4l2_calc_aspect_ratio 50 0 = { numerator := 149, denominator := 100 } ∧
    v4l2_calc_aspect_ratio 0 50 ≠ { numerator := 100, denominator := 50 + 99 } := by
  have k := calc_aspect_ratio_cases 0 50 (by decide) (by decide)
  have k1 := calc_aspect_ratio_cases 50 0 (by decide) (by decide)
  have a := k.2.2.2 rfl (by decide)
  have b := k1.2.2.1 (by decide) rfl
  refine ⟨a, b, ?_⟩
  rw [a]
  decide

end v4l2_dv_timings

namespace act_gact

/-! ## The probability divisor -/

/-- C30, the claim refuted on a concrete input: `tcf_gact_init` is called with
`bind` set and probability parameters `pval = 7` for an action that exists
already with `tcfg_pval = 5`.  The call succeeds (returns 0) without storing
anything: `tcfg_pval` is still 5, not `max(1, 7)`. -/
theorem gact_init_bind_keeps_pval :
    tcf_gact_init upstream_h (some sample_attrs)
      { found := some sample_gact, create_rc := 0, created := tcf_gact_zero } 0 1
      = (0, some sample_gact) ∧
    sample_gact.tcfg_pval = 5 ∧
    sample_attrs.prob.map (fun p => max 1 p.pval) = some 7 := by
  decide

theorem gact_init_stores_ok (parm : tc_gact) (p_parm : Option tc_gact_p) (gact : struct_tcf_gact)
    (hg : gact_ok gact) :
    ∀ g, g ∈ tcf_gact_init_stores parm p_parm gact → gact_ok g := by
  intro g hmem
  cases p_parm with
  | none =>
    simp only [tcf_gact_init_stores, List.mem_singleton] at hmem
    rw [hmem]
    exact hg
  | some p =>
    simp only [tcf_gact_init_stores, List.mem_cons, List.mem_singleton, List.not_mem_nil,
      or_false] at hmem
    rcases hmem with hm | hm | hm | hm <;> rw [hm]
    · exact hg
    · exact hg
    · intro _
      exact le_max_left 1 _
    · intro _
      exact le_max_left 1 _

theorem gact_init_stores_last (parm : tc_gact) (p_parm : Option tc_gact_p) (gact : struct_tcf_gact) :
    ∃ g, (tcf_gact_init_stores parm p_parm gact).getLast? = some g ∧
      g ∈ tcf_gact_init_stores parm p_parm gact ∧
      (∀ p, p_parm = some p →
        g.tcfg_pval = max 1 (p.pval % 2 ^ 16) ∧ g.tcfg_ptype = p.ptype % 2 ^ 16 ∧
        g.tcfg_paction = p.paction ∧ g.tcf_action = parm.action) ∧
      (p_parm = none →
        g.tcfg_pval = gact.tcfg_pval ∧ g.tcfg_ptype = gact.tcfg_ptype ∧
        g.tcf_action = parm.action) := by
  cases p_parm with
  | none =>
    refine ⟨_, rfl, by simp [tcf_gact_init_stores], ?_, fun _ => ⟨rfl, rfl, rfl⟩⟩
    intro p hp
    exact absurd hp (by simp)
  | some p =>
    refine ⟨_, rfl, by simp [tcf_gact_init_stores], ?_, ?_⟩
    · intro q hq
      simp only [Option.some.injEq] at hq
      subst hq
      exact ⟨rfl, rfl, rfl, rfl⟩
    · intro hp
      exact absurd hp (by simp)

theorem gact_init_result (h : gact_h) (nla : Option gact_attrs) (e : idr_env)
    (ovr bind : Int) :
    (tcf_gact_init h nla e ovr bind).2 = e.found ∨
    (tcf_gact_init h nla e ovr bind).2 = none ∨
    (∃ parm p_parm, (tcf_gact_init h nla e ovr bind).2 =
      (tcf_gact_init_stores parm p_parm e.created).getLast?) ∨
    (∃ parm p_parm gact, e.found = some gact ∧ (tcf_gact_init h nla e ovr bind).2 =
      (tcf_gact_init_stores parm p_parm gact).getLast?) := by
  cases nla with
  | none => exact Or.inl rfl
  | some tb =>
    by_cases h1 : tb.err < 0
    · exact Or.inl (by simp [tcf_gact_init, h1])
    · cases hp : tb.parms with
      | none => exact Or.inl (by simp [tcf_gact_init, h1, hp])
      | some parm =>
        have key : ∀ hbad : Bool,
            (match tb.prob with
              | some p => decide (p.ptype ≥ h.MAX_RAND)
              | none => false) = hbad →
            (tcf_gact_init h (some tb) e ovr bind).2 = e.found ∨
            (tcf_gact_init h (some tb) e ovr bind).2 = none ∨
            (∃ parm p_parm, (tcf_gact_init h (some tb) e ovr bind).2 =
              (tcf_gact_init_stores parm p_parm e.created).getLast?) ∨
            (∃ parm p_parm gact, e.found = some gact ∧
              (tcf_gact_init h (some tb) e ovr bind).2 =
                (tcf_gact_init_stores parm p_parm gact).getLast?) := by
          intro hbad hb
          unfold tcf_gact_init
          simp only [h1, if_false, hp, hb]
          cases hbad with
          | true => exact Or.inl rfl
          | false =>
            simp only [Bool.false_eq_true, if_false]
            cases hf : e.found with
            | none =>
              by_cases h3 : e.create_rc = 0
              · simp only [h3, ne_eq, not_true_eq_false, if_false]
                exact Or.inr (Or.inr (Or.inl ⟨parm, tb.prob, rfl⟩))
              · simp only [ne_eq, h3, not_false_eq_true, if_true]
                exact Or.inr (Or.inl trivial)
            | some gact =>
              by_cases h4 : bind = 0
              · by_cases h5 : ovr = 0
                · simp only [h4, h5, ne_eq, not_true_eq_false, if_false, if_true]
                  exact Or.inl trivial
                · simp only [h4, h5, ne_eq, not_true_eq_false, if_false]
                  exact Or.inr (Or.inr (Or.inr ⟨parm, tb.prob, gact, rfl, rfl⟩))
              · simp only [ne_eq, h4, not_false_eq_true, if_true]
                exact Or.inl trivial
        exact key _ rfl

theorem gact_init_bind (h : gact_h) (nla : Option gact_attrs) (e : idr_env)
    (ovr bind : Int) (gact : struct_tcf_gact) (hf : e.found = some gact) (hb : bind ≠ 0) :
    (tcf_gact_init h nla e ovr bind).2 = some gact := by
  cases nla with
  | none => exact hf
  | some tb =>
    by_cases h1 : tb.err < 0
    · simp [tcf_gact_init, h1, hf]
    · cases hp : tb.parms with
      | none => simp [tcf_gact_init, h1, hp, hf]
      | some parm =>
        have key : ∀ hbad : Bool,
            (match tb.prob with
              | some p => decide (p.ptype ≥ h.MAX_RAND)
              | none => false) = hbad →
            (tcf_gact_init h (some tb) e ovr bind).2 = some gact := by
          intro hbad hbd
          unfold tcf_gact_init
          simp only [h1, if_false, hp, hbd]
          cases hbad with
          | true => exact hf
          | false =>
            simp only [Bool.false_eq_true, if_false, hf, ne_eq, hb, not_false_eq_true, if_true]
        exact key _ rfl

/-- C30, amended.  Take an action table whose actions satisfy `gact_ok` (a
fresh action from `tcf_idr_create` does: its `tcfg_ptype` is 0).  Whatever
`tcf_gact_init` is called with, the action it leaves behind satisfies
`gact_ok`, and so does the action after each single store on the way.  When
the call gets to its stores (it creates the action, or overrides an existing
one with `bind` clear and `ovr` set) and probability parameters are supplied,
the stored `tcfg_pval` is `max(1, pval)`, at least 1, and `tcfg_ptype` is the
supplied `ptype`; when it returns early (the successful return for `bind` on
an existing action included) it stores nothing.  On every action that
satisfies `gact_ok`, `tcf_gact` performs no modulo by zero, neither in
`gact_net_rand` nor in `gact_determ`. -/
theorem gact_pval_never_zero (h : gact_h) (nla : Option gact_attrs) (e : idr_env)
    (ovr bind : Int)
    (hfound : ∀ g, e.found = some g → gact_ok g) (hcreated : gact_ok e.created) :
    (∀ g, (tcf_gact_init h nla e ovr bind).2 = some g → gact_ok g) ∧
    (∀ parm p_parm gact, gact_ok gact →
      ∀ g, g ∈ tcf_gact_init_stores parm p_parm gact → gact_ok g) ∧
    (∀ tb parm p, nla = some tb → ¬ tb.err < 0 → tb.parms = some parm → tb.prob = some p →
      p.ptype < h.MAX_RAND → p.ptype < 2 ^ 16 → p.pval < 2 ^ 16 →
      ((e.found = none ∧ e.create_rc = 0) ∨ (e.found ≠ none ∧ bind = 0 ∧ ovr ≠ 0)) →
      ∃ g, (tcf_gact_init h nla e ovr bind).2 = some g ∧
        g.tcfg_pval = max 1 p.pval ∧ 1 ≤ g.tcfg_pval ∧ g.tcfg_ptype = p.ptype) ∧
    (∀ gact, e.found = some gact → bind ≠ 0 →
      (tcf_gact_init h nla e ovr bind).2 = some gact) ∧
    (∀ prandom g, gact_ok g →
      (tcf_gact prandom g).1 ≠ Except.error gact_fault.division_by_zero) := by
  refine ⟨?_, fun parm p_parm gact hg => gact_init_stores_ok parm p_parm gact hg, ?_, ?_, ?_⟩
  · intro g hres
    rcases gact_init_result h nla e ovr bind with r | r | ⟨parm, p_parm, r⟩ |
      ⟨parm, p_parm, gact, hg, r⟩
    · exact hfound g (r.symm.trans hres)
    · rw [r] at hres
      exact absurd hres (by simp)
    · obtain ⟨g1, l1, l2, -, -⟩ := gact_init_stores_last parm p_parm e.created
      rw [r, l1, Option.some.injEq] at hres
      rw [← hres]
      exact gact_init_stores_ok parm p_parm e.created hcreated g1 l2
    · obtain ⟨g1, l1, l2, -, -⟩ := gact_init_stores_last parm p_parm gact
      rw [r, l1, Option.some.injEq] at hres
      rw [← hres]
      exact gact_init_stores_ok parm p_parm gact (hfound gact hg) g1 l2
  · intro tb parm p hn herr hparm hprob hpt hpt16 hpv16 hpath
    have hbad : ¬ p.ptype ≥ h.MAX_RAND := not_le.mpr hpt
    rcases hpath with ⟨hf, hc⟩ | ⟨hf, hb, ho⟩
    · obtain ⟨g1, l1, -, l3, -⟩ := gact_init_stores_last parm (some p) e.created
      obtain ⟨m1, m2, -, -⟩ := l3 p rfl
      refine ⟨g1, ?_, ?_, ?_, ?_⟩
      · simp [tcf_gact_init, hn, herr, hparm, hprob, hbad, hf, hc, l1]
      · rw [m1, Nat.mod_eq_of_lt hpv16]
      · rw [m1]
        exact le_max_left 1 _
      · rw [m2, Nat.mod_eq_of_lt hpt16]
    · cases hfo : e.found with
      | none => exact absurd hfo hf
      | some gact =>
        obtain ⟨g1, l1, -, l3, -⟩ := gact_init_stores_last parm (some p) gact
        obtain ⟨m1, m2, -, -⟩ := l3 p rfl
        refine ⟨g1, ?_, ?_, ?_, ?_⟩
        · simp [tcf_gact_init, hn, herr, hparm, hprob, hbad, hfo, hb, ho, l1]
        · rw [m1, Nat.mod_eq_of_lt hpv16]
        · rw [m1]
          exact le_max_left 1 _
        · rw [m2, Nat.mod_eq_of_lt hpt16]
  · intro gact hf hb
    exact gact_init_bind h nla e ovr bind gact hf hb
  · intro prandom g hg
    unfold tcf_gact
    by_cases h0 : g.tcfg_ptype = 0
    · simp [h0]
    · have hpv : g.tcfg_pval ≠ 0 := by
        have := hg h0
        omega
      simp only [ne_eq, h0, not_false_eq_true, if_true]
      split_ifs
      · simp only [gact_net_rand, hpv, if_false]
        split_ifs <;> simp
      · simp only [gact_determ, hpv, if_false]
        split_ifs <;> simp
      · simp

/-- A new action is created from probability parameters with `pval = 0`: the
stored `tcfg_pval` is 1, and `tcf_gact` on the new action divides by 1. -/
theorem gact_pval_never_zero_witness :
    gact_ok tcf_gact_zero ∧
    (tcf_gact_init upstream_h (some sample_attrs_zero)
      { found := none, create_rc := 0, created := tcf_gact_zero } 0 0).2.map
        (fun g => (g.tcfg_ptype, g.tcfg_pval)) = some (1, 1) ∧
    (∀ g, (tcf_gact_init upstream_h (some sample_attrs_zero)
      { found := none, create_rc := 0, created := tcf_gact_zero } 0 0).2 = some g →
        (tcf_gact 12345 g).1 ≠ Except.error gact_fault.division_by_zero) := by
  have hz : gact_ok tcf_gact_zero := fun hne => absurd rfl hne
  have k := gact_pval_never_zero upstream_h (some sample_attrs_zero)
    { found := none, create_rc := 0, created := tcf_gact_zero } 0 0
    (fun g hg => absurd hg (by simp)) hz
  refine ⟨hz, by decide, ?_⟩
  intro g hg
  exact k.2.2.2.2 12345 g (k.1 g hg)

end act_gact
